import Mathlib

/-!
Verification development for the DataDoctor contract-driven validation and
remediation engine.  The Python source under `src/` is shallowly embedded:
pandas Series become `List PdValue` (positional RangeIndex), DataFrames become
ordered association lists of named columns, and each engine function is
translated into an executable Lean definition carrying the same name.

Modelling conventions, used throughout:
* Missing values loaded from files are pandas `NaN`; the constructor
  `PdValue.vNull` models this representation.  Following IEEE/pandas
  semantics, `NaN` compares unequal to everything including itself under
  `!=`, while ordered comparisons with `NaN` are `False`.
* Python machine floats are idealised as exact rationals; the float results
  relevant to the theorems below (sums, quantiles, comparisons with 0) are
  exact in IEEE arithmetic for the inputs considered.
* External library text parsers with open-ended behaviour
  (`pandas.to_datetime` free-form parsing, the `re` regex engine) are
  abstracted into an `Ext` record of oracle functions; theorems quantify over
  all oracles, so no property below depends on their behaviour.
-/

namespace DataDoctor

/-! ## Exact fractions

Python floats are idealised as exact fractions.  A dedicated unnormalised
fraction type (denominator kept positive by the operations) is used instead
of `ℚ` so that every embedded function evaluates by kernel reduction; the
coercion `Frac.toRat` links it to `ℚ` for specification-level statements. -/

/-- An exact fraction `num / den`.  All constructors and operations below
keep `den > 0`; two fractions are semantically equal when they cross-multiply
equal (`Frac.eqb`), structural equality is only used where the Python source
compares object identity-insensitive primitive equality on the same
construction path. -/
structure Frac where
  num : ℤ
  den : ℤ
deriving Repr, DecidableEq

/-- Embed an integer. -/
def Frac.ofInt (n : ℤ) : Frac := ⟨n, 1⟩

instance : OfNat Frac n := ⟨Frac.ofInt n⟩

/-- The rational value of a fraction (specification view). -/
def Frac.toRat (a : Frac) : ℚ := (a.num : ℚ) / (a.den : ℚ)

/-- Fraction addition (exact, no normalisation). -/
def Frac.add (a b : Frac) : Frac := ⟨a.num * b.den + b.num * a.den, a.den * b.den⟩

/-- Fraction subtraction. -/
def Frac.sub (a b : Frac) : Frac := ⟨a.num * b.den - b.num * a.den, a.den * b.den⟩

/-- Fraction multiplication. -/
def Frac.mul (a b : Frac) : Frac := ⟨a.num * b.num, a.den * b.den⟩

/-- Fraction division, with the sign moved into the numerator so the
denominator stays positive.  Division by zero (never reached on the guarded
source paths) yields a denominator-zero artefact. -/
def Frac.div (a b : Frac) : Frac :=
  let n := a.num * b.den
  let d := a.den * b.num
  if d < 0 then ⟨-n, -d⟩ else ⟨n, d⟩

/-- Fraction negation. -/
def Frac.neg (a : Frac) : Frac := ⟨-a.num, a.den⟩

/-- Absolute value. -/
def Frac.abs (a : Frac) : Frac := ⟨|a.num|, a.den⟩

/-- Strict order by cross-multiplication (valid for positive denominators). -/
def Frac.blt (a b : Frac) : Bool := a.num * b.den < b.num * a.den

/-- Non-strict order. -/
def Frac.ble (a b : Frac) : Bool := a.num * b.den ≤ b.num * a.den

/-- Value equality by cross-multiplication. -/
def Frac.eqb (a b : Frac) : Bool := a.num * b.den = b.num * a.den

/-- Floor to an integer (denominator positive). -/
def Frac.floorInt (a : Frac) : ℤ := a.num.fdiv a.den

/-- Scale by a signed power of ten. -/
def Frac.scale10 (a : Frac) (e : ℤ) : Frac :=
  if e ≥ 0 then ⟨a.num * (10 : ℤ) ^ e.toNat, a.den⟩
  else ⟨a.num, a.den * (10 : ℤ) ^ (-e).toNat⟩

/-- A pandas cell value.  `vNull` is the `NaN` missing-value marker used by
pandas for data loaded from files; `vDate` models a `pandas.Timestamp` /
`datetime.datetime` at second resolution. -/
inductive PdValue where
  | vNull
  | vStr (s : String)
  | vInt (n : ℤ)
  | vFloat (q : Frac)
  | vBool (b : Bool)
  | vDate (y m d hh mi ss : ℕ)
deriving Repr, DecidableEq

/-- `pd.isna` on a scalar. -/
def pdIsna : PdValue → Bool
  | .vNull => true
  | _ => false

/-- A pandas Series with the default `RangeIndex` (positions `0..n-1`). -/
abbrev Series := List PdValue

/-- A pandas DataFrame: ordered named columns over a shared `RangeIndex`. -/
abbrev Table := List (String × Series)

/-- `df.columns`. -/
def tableColumns (df : Table) : List String := df.map (·.1)

/-- `df[col]` as an optional lookup (first matching column). -/
def tableGet (df : Table) (c : String) : Option Series :=
  (df.find? (fun p => p.1 = c)).map (·.2)

/-- `col in df.columns`. -/
def tableHasCol (df : Table) (c : String) : Bool :=
  (df.find? (fun p => p.1 = c)).isSome

/-- Number of rows: length of the first column (0 for an empty frame),
matching `len(df)` for the frames built by the app (all columns share one
index). -/
def tableRows (df : Table) : ℕ :=
  match df with
  | [] => 0
  | (_, s) :: _ => s.length

/-- `series.items()`: positional index paired with each value. -/
def seriesItems (s : Series) : List (ℕ × PdValue) := s.enum

/-- `series.dropna()` keeping the original positional index. -/
def seriesDropnaIdx (s : Series) : List (ℕ × PdValue) :=
  (seriesItems s).filter (fun p => ¬ pdIsna p.2)

/-- `series.dropna()` values only. -/
def seriesDropna (s : Series) : List PdValue :=
  s.filter (fun v => ¬ pdIsna v)

/-- Numeric view shared by Python `int`, `float` and `bool`
(`True == 1`, `False == 0`). -/
def numVal : PdValue → Option Frac
  | .vInt n => some (Frac.ofInt n)
  | .vFloat q => some q
  | .vBool b => some (if b then Frac.ofInt 1 else Frac.ofInt 0)
  | _ => none

/-- Python `==` between two cell values, as evaluated elementwise by pandas
on object columns.  `NaN == x` is `False` for every `x` (including `NaN`);
mixed categories (string vs number, date vs number, ...) are unequal without
raising. -/
def pyEqVal (a b : PdValue) : Bool :=
  match a, b with
  | .vNull, _ => false
  | _, .vNull => false
  | .vStr s, .vStr t => s = t
  | .vDate y m d hh mi ss, .vDate y' m' d' hh' mi' ss' =>
      y = y' ∧ m = m' ∧ d = d' ∧ hh = hh' ∧ mi = mi' ∧ ss = ss'
  | a, b =>
      match numVal a, numVal b with
      | some x, some y => x.eqb y
      | _, _ => false

/-- Python `!=` elementwise (pandas mask semantics): negation of `pyEqVal`,
hence `NaN != NaN` is `True` — the pandas behaviour that drives the
`compute_diff` change mask. -/
def pyNeVal (a b : PdValue) : Bool := ¬ pyEqVal a b

/-- Lexicographic strict comparison of equal-length numeric lists. -/
def lexNatLt : List ℕ → List ℕ → Bool
  | [], [] => false
  | [], _ :: _ => true
  | _ :: _, [] => false
  | a :: as, b :: bs => a < b ∨ (a = b ∧ lexNatLt as bs)

/-- Date-time tuple comparison (lexicographic), used for Timestamp `<`. -/
def dateLt (a b : ℕ × ℕ × ℕ × ℕ × ℕ × ℕ) : Bool :=
  lexNatLt [a.1, a.2.1, a.2.2.1, a.2.2.2.1, a.2.2.2.2.1, a.2.2.2.2.2]
    [b.1, b.2.1, b.2.2.1, b.2.2.2.1, b.2.2.2.2.1, b.2.2.2.2.2]

/-- Python `<` between cell values; `none` models a raised `TypeError`
(e.g. comparing a string with a number).  Ordered comparisons against `NaN`
are `False` in pandas numeric columns. -/
def pyLtVal (a b : PdValue) : Option Bool :=
  match a, b with
  | .vNull, _ => some false
  | _, .vNull => some false
  | .vStr s, .vStr t => some (decide (s < t))
  | .vDate y m d hh mi ss, .vDate y' m' d' hh' mi' ss' =>
      some (dateLt (y, m, d, hh, mi, ss) (y', m', d', hh', mi', ss'))
  | a, b =>
      match numVal a, numVal b with
      | some x, some y => some (x.blt y)
      | _, _ => none

/-- Python `<=` with the same raising behaviour as `pyLtVal`. -/
def pyLeVal (a b : PdValue) : Option Bool :=
  match a, b with
  | .vNull, _ => some false
  | _, .vNull => some false
  | .vStr s, .vStr t => some (decide (s ≤ t))
  | .vDate y m d hh mi ss, .vDate y' m' d' hh' mi' ss' =>
      some (dateLt (y, m, d, hh, mi, ss) (y', m', d', hh', mi', ss') ∨
        (y = y' ∧ m = m' ∧ d = d' ∧ hh = hh' ∧ mi = mi' ∧ ss = ss'))
  | a, b =>
      match numVal a, numVal b with
      | some x, some y => some (x.ble y)
      | _, _ => none

/-- Equality used by pandas duplicate/unique machinery (`duplicated`,
`nunique`, `set` membership): hash-based, so `NaN` matches `NaN` and
`1 == 1.0 == True`. -/
def pdHashEq (a b : PdValue) : Bool :=
  match a, b with
  | .vNull, .vNull => true
  | _, _ => pyEqVal a b

/-- Render a fraction as a decimal string by long division; exact when the
denominator divides a power of ten (the only case arising in the embedded
code paths), truncated at 12 fractional digits otherwise (Python
shortest-repr printing of floats is not modelled further). -/
def ratDecimalString (q : Frac) : String :=
  let sign := if q.num < 0 then "-" else ""
  let n : ℤ := |q.num|
  let d : ℤ := |q.den|
  let ip : ℤ := n.fdiv d
  let rec fracDigits (r : ℤ) (fuel : ℕ) : List ℤ :=
    match fuel with
    | 0 => []
    | fuel + 1 =>
        if r = 0 then []
        else (r * 10).fdiv d :: fracDigits ((r * 10) % d) fuel
  let fr := fracDigits (n % d) 12
  let frS := if fr.isEmpty then "0" else String.join (fr.map (fun k => toString k))
  sign ++ toString ip ++ "." ++ frS

/-- Python `str()` of a cell value.  `str` of an `int` has no decimal point;
`str(True) = "True"`; `str(nan) = "nan"`; Timestamps render ISO-style. -/
def pyStr : PdValue → String
  | .vNull => "nan"
  | .vStr s => s
  | .vInt n => toString n
  | .vFloat q => ratDecimalString q
  | .vBool b => if b then "True" else "False"
  | .vDate y m d hh mi ss =>
      let pad2 := fun (n : ℕ) => if n < 10 then "0" ++ toString n else toString n
      toString y ++ "-" ++ pad2 m ++ "-" ++ pad2 d ++ " " ++
        pad2 hh ++ ":" ++ pad2 mi ++ ":" ++ pad2 ss

/-- Whitespace characters recognised by Python `str.strip()` (ASCII range;
Unicode spaces are outside the modelled domain). -/
def isPySpace (c : Char) : Bool :=
  c = ' ' ∨ c = '\t' ∨ c = '\n' ∨ c = '\r' ∨ c = '\x0b' ∨ c = '\x0c'

/-- Python `str.strip()` with no arguments. -/
def pyStrip (s : String) : String :=
  ⟨((s.data.dropWhile isPySpace).reverse.dropWhile isPySpace).reverse⟩

/-- Worker for `pyReplace`: fuel-bounded scan replacing every occurrence of
`pat` (Python `str.replace` with a nonempty pattern). -/
def replaceFrom : ℕ → List Char → List Char → List Char → List Char
  | 0, _, _, _ => []
  | fuel + 1, cs, pat, new =>
      match cs with
      | [] => []
      | c :: rest =>
          if ¬ pat.isEmpty ∧ pat.isPrefixOf cs then
            new ++ replaceFrom fuel (cs.drop pat.length) pat new
          else c :: replaceFrom fuel rest pat new

/-- Python `s.replace(old, new)` for nonempty `old` (the only uses in the
source replace `","`, `"$"`, `"%"`, `"_"` or fixed words). -/
def pyReplace (s old new : String) : String :=
  ⟨replaceFrom s.data.length s.data old.data new.data⟩

/-- Python `sub in s` (substring containment). -/
def pyContains (s sub : String) : Bool :=
  (List.range (s.data.length + 1)).any (fun i => sub.data.isPrefixOf (s.data.drop i))

/-- One digit character to its value. -/
def digitVal (c : Char) : ℕ := c.toNat - 48

/-- All characters are decimal digits and the list is nonempty. -/
def allDigits (cs : List Char) : Bool :=
  ¬ cs.isEmpty ∧ cs.all (·.isDigit)

/-- Natural number denoted by a digit list. -/
def digitsToNat (cs : List Char) : ℕ :=
  cs.foldl (fun acc c => acc * 10 + digitVal c) 0

/-- Drop Python numeric-literal underscores: valid as single separators
between digits.  Returns `none` when underscores are misplaced. -/
def stripNumUnderscores (cs : List Char) : Option (List Char) :=
  let rec go : List Char → Bool → Option (List Char)
    | [], _ => some []
    | '_' :: rest, prevDigit =>
        match rest with
        | c :: _ =>
            if prevDigit ∧ c.isDigit then go rest false
            else none
        | [] => none
    | c :: rest, _ => do
        let r ← go rest c.isDigit
        pure (c :: r)
  go cs false

/-- Python `int(s)`: optional surrounding whitespace, optional sign, decimal
digits (single underscores between digits allowed). -/
def pyInt (s : String) : Option ℤ :=
  let cs := (pyStrip s).data
  let (neg, cs) :=
    match cs with
    | '-' :: rest => (true, rest)
    | '+' :: rest => (false, rest)
    | _ => (false, cs)
  match stripNumUnderscores cs with
  | none => none
  | some cs =>
      if allDigits cs then
        some (if neg then -(digitsToNat cs : ℤ) else (digitsToNat cs : ℤ))
      else none

/-- Python `float(s)` on finite decimal literals: optional surrounding
whitespace and sign, `digits[.digits]` or `.digits`, optional exponent.
IEEE specials (`inf`, `nan`) and hex floats are outside the exact-fraction
model and map to parse failure. -/
def pyFloat (s : String) : Option Frac :=
  let cs := (pyStrip s).data
  let (neg, cs) :=
    match cs with
    | '-' :: rest => (true, rest)
    | '+' :: rest => (false, rest)
    | _ => (false, cs)
  match stripNumUnderscores cs with
  | none => none
  | some cs =>
      -- split an optional exponent part
      let (mant, expPart) :=
        match cs.splitOnP (fun c => c = 'e' ∨ c = 'E') with
        | [m] => (m, some ([] : List Char))
        | [m, e] => (m, some e)
        | _ => ([], none)
      let expVal : Option ℤ :=
        match expPart with
        | none => none
        | some [] => if (cs.filter (fun c => c = 'e' ∨ c = 'E')).isEmpty
            then some 0 else none
        | some e =>
            let (eneg, e) :=
              match e with
              | '-' :: rest => (true, rest)
              | '+' :: rest => (false, rest)
              | _ => (false, e)
            if allDigits e then
              some (if eneg then -(digitsToNat e : ℤ) else (digitsToNat e : ℤ))
            else none
      match expVal with
      | none => none
      | some ex =>
          let (ipCs, fpCs, hasDot) :=
            match mant.splitOnP (fun c => c = '.') with
            | [i] => (i, ([] : List Char), false)
            | [i, f] => (i, f, true)
            | _ => ([], [], false)
          let okShape : Bool :=
            (if hasDot then
              (allDigits ipCs || ipCs.isEmpty) && (allDigits fpCs || fpCs.isEmpty) &&
                !(ipCs.isEmpty && fpCs.isEmpty)
             else allDigits ipCs) &&
            (match mant.splitOnP (fun c => c = '.') with
             | [_] => true | [_, _] => true | _ => false)
          if okShape then
            let base : Frac :=
              ⟨(digitsToNat ipCs : ℤ) * (10 : ℤ) ^ fpCs.length + (digitsToNat fpCs : ℤ),
                (10 : ℤ) ^ fpCs.length⟩
            let v := base.scale10 ex
            some (if neg then v.neg else v)
          else none

/-- Python `round(x, 2)` idealised over the exact value: round half to even
at two decimal places. -/
def round2 (q : Frac) : Frac :=
  let y := q.mul (Frac.ofInt 100)
  let fl : ℤ := y.floorInt
  let frac := y.sub (Frac.ofInt fl)
  let n : ℤ :=
    if frac.blt ⟨1, 2⟩ then fl
    else if Frac.blt ⟨1, 2⟩ frac then fl + 1
    else if fl % 2 = 0 then fl else fl + 1
  ⟨n, 100⟩

/-! ## Diff engine (`src/remediation/diff.py`) -/

/-- `CellChange` record from `diff.py`. -/
structure CellChange where
  row_index : ℕ
  column_name : String
  original_value : PdValue
  new_value : PdValue
deriving Repr, DecidableEq

/-- `ColumnDiff` record from `diff.py`. -/
structure ColumnDiff where
  column_name : String
  total_values : ℕ
  changed_count : ℕ
  change_rate_percent : Frac
  sample_changes : List CellChange
deriving Repr, DecidableEq

/-- `RemediationDiff` record from `diff.py`.  Dictionaries are modelled as
insertion-ordered association lists, matching Python dict iteration order. -/
structure RemediationDiff where
  total_rows : ℕ
  total_columns : ℕ
  rows_changed : ℕ
  cells_changed : ℕ
  columns_affected : List String
  column_diffs : List (String × ColumnDiff)
  row_change_summary : List (ℕ × ℕ)
deriving Repr, DecidableEq

/-- `row_changes[idx] = row_changes.get(idx, 0) + 1` on an insertion-ordered
dict. -/
def bumpRowChange : List (ℕ × ℕ) → ℕ → List (ℕ × ℕ)
  | [], idx => [(idx, 1)]
  | (k, v) :: rest, idx =>
      if k = idx then (k, v + 1) :: rest
      else (k, v) :: bumpRowChange rest idx

/-- The per-column change mask of `compute_diff` (diff.py lines 79-83):
`(orig != new) | (orig.isna & new.notna) | (orig.notna & new.isna)`.
Because pandas `!=` is `True` on `NaN` vs `NaN`, the first disjunct already
subsumes the other two. -/
def diffChangedMask (orig new : Series) : List Bool :=
  (orig.zip new).map (fun p =>
    pyNeVal p.1 p.2 ∨ (pdIsna p.1 ∧ ¬ pdIsna p.2) ∨ (¬ pdIsna p.1 ∧ pdIsna p.2))

/-- Indices (ascending) where the change mask holds. -/
def maskIndices (mask : List Bool) : List ℕ :=
  ((List.range mask.length).zip mask).filterMap
    (fun p => if p.2 then some p.1 else none)

/-- `compute_diff` (diff.py lines 48-128): per-column change mask, change
counts, capped change samples, aggregate row/cell counters. -/
def compute_diff (original_df remediated_df : Table)
    (max_samples_per_column : ℕ := 10) : RemediationDiff :=
  let step := fun (acc : List (String × ColumnDiff) × List (ℕ × ℕ) × ℕ × List String)
      (col : String × Series) =>
    let (column_diffs, row_changes, total_cells_changed, columns_affected) := acc
    match tableGet remediated_df col.1 with
    | none => acc
    | some new_col =>
        let orig_col := col.2
        let changed_indices := maskIndices (diffChangedMask orig_col new_col)
        let changed_count := changed_indices.length
        if changed_count > 0 then
          let row_changes := changed_indices.foldl bumpRowChange row_changes
          let sample_changes := (changed_indices.take max_samples_per_column).map
            (fun idx => CellChange.mk idx col.1
              (orig_col.getD idx .vNull) (new_col.getD idx .vNull))
          let change_rate : Frac :=
            if orig_col.length > 0 then
              ((⟨(changed_count : ℤ), (orig_col.length : ℤ)⟩ : Frac)).mul (Frac.ofInt 100)
            else Frac.ofInt 0
          let cd : ColumnDiff :=
            { column_name := col.1
              total_values := orig_col.length
              changed_count := changed_count
              change_rate_percent := round2 change_rate
              sample_changes := sample_changes }
          (column_diffs ++ [(col.1, cd)], row_changes,
            total_cells_changed + changed_count, columns_affected ++ [col.1])
        else acc
  let (column_diffs, row_changes, total_cells_changed, columns_affected) :=
    original_df.foldl step ([], [], 0, [])
  { total_rows := tableRows original_df
    total_columns := original_df.length
    rows_changed := row_changes.length
    cells_changed := total_cells_changed
    columns_affected := columns_affected
    column_diffs := column_diffs
    row_change_summary := row_changes }

/-! ## Test/remediation parameter dictionaries

Contract `params` are duck-typed YAML dictionaries in the source; they are
modelled as association lists of tagged values. -/

/-- A YAML-typed parameter value. -/
inductive PParam where
  | pStr (s : String)
  | pInt (n : ℤ)
  | pFrac (q : Frac)
  | pBool (b : Bool)
  | pStrList (l : List String)
  | pDict (l : List (String × PParam))
  | pNone

/-- A `params` dictionary. -/
abbrev Params := List (String × PParam)

/-- `params.get(key)` (Python: `None` when absent). -/
def pget (ps : Params) (key : String) : Option PParam :=
  (ps.find? (fun p => p.1 = key)).map (·.2)

/-- `params.get(key, default)` for string-valued parameters. -/
def pgetStrD (ps : Params) (key dflt : String) : String :=
  match pget ps key with
  | some (.pStr s) => s
  | _ => dflt

/-- `params.get(key)` for string-valued parameters, `None`/missing and
non-strings collapse to `none`. -/
def pgetStr (ps : Params) (key : String) : Option String :=
  match pget ps key with
  | some (.pStr s) => some s
  | _ => none

/-- `params.get(key)` numeric view (int or float parameter). -/
def pgetNum (ps : Params) (key : String) : Option Frac :=
  match pget ps key with
  | some (.pInt n) => some (Frac.ofInt n)
  | some (.pFrac q) => some q
  | _ => none

/-- `params.get(key, default)` numeric view. -/
def pgetNumD (ps : Params) (key : String) (dflt : Frac) : Frac :=
  (pgetNum ps key).getD dflt

/-- `params.get(key, default)` for boolean parameters. -/
def pgetBoolD (ps : Params) (key : String) (dflt : Bool) : Bool :=
  match pget ps key with
  | some (.pBool b) => b
  | _ => dflt

/-- `params.get(key, [])` for string-list parameters. -/
def pgetStrListD (ps : Params) (key : String) (dflt : List String) : List String :=
  match pget ps key with
  | some (.pStrList l) => l
  | _ => dflt

/-- `params.get(key, {})` for nested dictionaries. -/
def pgetDictD (ps : Params) (key : String) : Params :=
  match pget ps key with
  | some (.pDict l) => l
  | _ => []

/-- Python truthiness of an optional string (`None` and `""` are falsy). -/
def strFalsy : Option String → Bool
  | none => true
  | some s => s.isEmpty

/-! ## Column test results (`src/validation/results.py`) -/

/-- `ColumnTestResult` dataclass. -/
structure ColumnTestResult where
  column_name : String
  test_type : String
  severity : String
  passed : Bool
  total_values : ℕ
  failed_count : ℕ
  failed_indices : List ℕ := []
  failed_values : List PdValue := []
  error_details : List String := []
  warning_message : Option String := none
deriving Repr, DecidableEq

/-! ## Column tests (`src/validation/column_tests.py`) -/

/-- Accumulator for the per-value loops of the column tests: failed indices,
failed values, and detail strings (detail list capped at 10 entries at
append time, as in the source). -/
structure FailAcc where
  idxs : List ℕ := []
  vals : List PdValue := []
  details : List String := []
deriving Repr, DecidableEq

/-- Record one failure, appending a detail string only while fewer than 10
are present (`if len(error_details) < 10`). -/
def FailAcc.push (acc : FailAcc) (idx : ℕ) (v : PdValue) (detail : String) : FailAcc :=
  { idxs := acc.idxs ++ [idx]
    vals := acc.vals ++ [v]
    details := if acc.details.length < 10 then acc.details ++ [detail] else acc.details }

/-- Record one failure with no detail string (the monotonic string-comparison
fallback appends nothing to `error_details`). -/
def FailAcc.pushNoDetail (acc : FailAcc) (idx : ℕ) (v : PdValue) : FailAcc :=
  { acc with idxs := acc.idxs ++ [idx], vals := acc.vals ++ [v] }

/-- Assemble the standard `ColumnTestResult` tail of each test: passed flag,
counts, and the 100-entry caps on indices and values. -/
def finishColumnTest (column_name test_type severity : String) (total : ℕ)
    (acc : FailAcc) : ColumnTestResult :=
  { column_name := column_name
    test_type := test_type
    severity := severity
    passed := acc.idxs.length = 0
    total_values := total
    failed_count := acc.idxs.length
    failed_indices := acc.idxs.take 100
    failed_values := acc.vals.take 100
    error_details := acc.details }

/-- `test_monotonic` (column_tests.py lines 405-492).  Note the source
compares `direction == "increasing"`; any other direction string (including
the `"ascending"` written by the contract-builder UI) falls into the
`else: # decreasing` branch. -/
def test_monotonic (series : Series) (column_name : String)
    (severity : String := "error") (params : Params := []) : ColumnTestResult :=
  let direction := pgetStrD params "direction" "increasing"
  let non_null := seriesDropnaIdx series
  if non_null.length < 2 then
    { column_name := column_name
      test_type := "monotonic"
      severity := severity
      passed := true
      total_values := series.length
      failed_count := 0
      warning_message := some "Not enough non-null values to check monotonicity" }
  else
    let step := fun (st : FailAcc × Option PdValue) (iv : ℕ × PdValue) =>
      let (acc, prev) := st
      let (idx, value) := iv
      let acc :=
        match prev with
        | none => acc
        | some prev_value =>
            match pyFloat (pyReplace (pyStr value) "," ""),
                pyFloat (pyReplace (pyStr prev_value) "," "") with
            | some curr_num, some prev_num =>
                if direction = "increasing" then
                  if curr_num.blt prev_num then
                    acc.push idx value ("Row " ++ toString idx ++ ": " ++ pyStr value ++
                      " is less than previous " ++ pyStr prev_value)
                  else acc
                else
                  if prev_num.blt curr_num then
                    acc.push idx value ("Row " ++ toString idx ++ ": " ++ pyStr value ++
                      " is greater than previous " ++ pyStr prev_value)
                  else acc
            | _, _ =>
                -- ValueError from either float() call: string comparison fallback
                if direction = "increasing" then
                  if pyStr value < pyStr prev_value then acc.pushNoDetail idx value else acc
                else
                  if pyStr value > pyStr prev_value then acc.pushNoDetail idx value else acc
      (acc, some value)
    let (acc, _) := non_null.foldl step ({}, none)
    finishColumnTest column_name "monotonic" severity series.length acc

/-! ## Date format machinery (`src/presets/date_formats.py`)

The source translates human-readable format strings (`"YYYY-MM-DD"`) to
`strftime` codes and parses with CPython `datetime.strptime`.  The CPython
`_strptime` regexes are reproduced directive by directive: `%Y` is exactly
four digits, `%m` matches `1[0-2]|0[1-9]|[1-9]`, `%d` matches
`3[01]|[12]\d|0[1-9]|[1-9]| [1-9]`, and so on, with leftmost-alternative
backtracking and a full-match requirement.  Directives not used by any
format reachable in the app (`%z`, `%a`, `%A`, `%p`, `%I`, glibc `%-`
extensions, ...) are modelled as always-failing, matching `strptime`
raising `ValueError` on unsupported or malformed directives. -/

/-- A parsed `strftime` pattern element. -/
inductive FmtTok where
  | dirY | dirY2 | dirM | dirD | dirH | dirMin | dirS | dirB3 | dirBFull
  | dirBad (c : Char)
  | lit (c : Char)
deriving Repr, DecidableEq

/-- Scan a strftime pattern string into tokens.  A trailing lone `%` is an
always-failing directive (`strptime` raises on it). -/
def scanFmt : List Char → List FmtTok
  | [] => []
  | '%' :: c :: rest =>
      (match c with
        | 'Y' => FmtTok.dirY
        | 'y' => FmtTok.dirY2
        | 'm' => FmtTok.dirM
        | 'd' => FmtTok.dirD
        | 'H' => FmtTok.dirH
        | 'M' => FmtTok.dirMin
        | 'S' => FmtTok.dirS
        | 'b' => FmtTok.dirB3
        | 'B' => FmtTok.dirBFull
        | '%' => FmtTok.lit '%'
        | c => FmtTok.dirBad c) :: scanFmt rest
  | '%' :: [] => [FmtTok.dirBad '%']
  | c :: rest => FmtTok.lit c :: scanFmt rest

/-- Partial date-time assignments accumulated during parsing, with the
`strptime` defaults (1900-01-01 00:00:00). -/
structure TimeAcc where
  y : ℕ := 1900
  m : ℕ := 1
  d : ℕ := 1
  hh : ℕ := 0
  mi : ℕ := 0
  ss : ℕ := 0
deriving Repr, DecidableEq

/-- Take exactly `n` digits from the front. -/
def takeDigits (n : ℕ) (cs : List Char) : Option (ℕ × List Char) :=
  let pre := cs.take n
  if pre.length = n ∧ allDigits pre then some (digitsToNat pre, cs.drop n) else none

/-- Month abbreviations in `_strptime` order (all length 3). -/
def monthAbbrs : List (String × ℕ) :=
  [("jan", 1), ("feb", 2), ("mar", 3), ("apr", 4), ("may", 5), ("jun", 6),
   ("jul", 7), ("aug", 8), ("sep", 9), ("oct", 10), ("nov", 11), ("dec", 12)]

/-- Full month names sorted by length descending (stable), as `_strptime`
builds its alternation. -/
def monthFulls : List (String × ℕ) :=
  [("september", 9), ("february", 2), ("november", 11), ("december", 12),
   ("january", 1), ("october", 10), ("august", 8), ("march", 3), ("april", 4),
   ("june", 6), ("july", 7), ("may", 5)]

/-- Case-insensitive match of a keyword at the front of the input
(`strptime` compiles with `re.IGNORECASE`). -/
def matchKeyword (kw : String) (cs : List Char) : Option (List Char) :=
  let pre := cs.take kw.data.length
  if pre.map Char.toLower = kw.data.map Char.toLower then some (cs.drop kw.data.length)
  else none

/-- Two-character numeric alternative `lo ≤ tens-digit pattern`: match chars
`c1 c2` where the two-digit value is in `[lo, hi]`. -/
def twoDigitRange (lo hi : ℕ) (cs : List Char) : Option (ℕ × List Char) :=
  match cs with
  | c1 :: c2 :: rest =>
      if c1.isDigit ∧ c2.isDigit then
        let v := digitVal c1 * 10 + digitVal c2
        if lo ≤ v ∧ v ≤ hi then some (v, rest) else none
      else none
  | _ => none

/-- Single-digit alternative in `[lo, hi]`. -/
def oneDigitRange (lo hi : ℕ) (cs : List Char) : Option (ℕ × List Char) :=
  match cs with
  | c :: rest =>
      if c.isDigit ∧ lo ≤ digitVal c ∧ digitVal c ≤ hi then some (digitVal c, rest)
      else none
  | _ => none

/-- Build candidate list entries from optional numeric matches, applying the
given field update. -/
def numCands (set : ℕ → TimeAcc → TimeAcc)
    (alts : List (Option (ℕ × List Char))) : List ((TimeAcc → TimeAcc) × List Char) :=
  alts.filterMap (fun o => o.map (fun p => (set p.1, p.2)))

/-- Candidate matches for one directive, in regex alternation order.  Each
candidate is the state update paired with the remaining input. -/
def fmtCandidates : FmtTok → List Char → List ((TimeAcc → TimeAcc) × List Char)
  | .dirY, cs => numCands (fun v a => { a with y := v }) [takeDigits 4 cs]
  | .dirY2, cs =>
      numCands (fun v a => { a with y := if v ≤ 68 then 2000 + v else 1900 + v })
        [takeDigits 2 cs]
  | .dirM, cs =>
      -- 1[0-2] | 0[1-9] | [1-9]
      numCands (fun v a => { a with m := v })
        [twoDigitRange 10 12 cs, twoDigitRange 1 9 cs, oneDigitRange 1 9 cs]
  | .dirD, cs =>
      -- 3[01] | [12]\d | 0[1-9] | [1-9] | space [1-9]
      numCands (fun v a => { a with d := v })
        [twoDigitRange 30 31 cs, twoDigitRange 10 29 cs, twoDigitRange 1 9 cs,
         oneDigitRange 1 9 cs,
         (match cs with
          | ' ' :: c :: rest =>
              if c.isDigit ∧ 1 ≤ digitVal c then some (digitVal c, rest) else none
          | _ => none)]
  | .dirH, cs =>
      -- 2[0-3] | [0-1]\d | \d
      numCands (fun v a => { a with hh := v })
        [twoDigitRange 20 23 cs, twoDigitRange 0 19 cs, oneDigitRange 0 9 cs]
  | .dirMin, cs =>
      -- [0-5]\d | \d
      numCands (fun v a => { a with mi := v })
        [twoDigitRange 0 59 cs, oneDigitRange 0 9 cs]
  | .dirS, cs =>
      -- 6[0-1] | [0-5]\d | \d
      numCands (fun v a => { a with ss := v })
        [twoDigitRange 60 61 cs, twoDigitRange 0 59 cs, oneDigitRange 0 9 cs]
  | .dirB3, cs =>
      monthAbbrs.filterMap (fun kv =>
        (matchKeyword kv.1 cs).map (fun rest => ((fun a => { a with m := kv.2 }), rest)))
  | .dirBFull, cs =>
      monthFulls.filterMap (fun kv =>
        (matchKeyword kv.1 cs).map (fun rest => ((fun a => { a with m := kv.2 }), rest)))
  | .dirBad _, _ => []
  | .lit c, cs =>
      if isPySpace c then
        -- whitespace in the pattern matches \s+, greedy (longest first)
        let ws := (cs.takeWhile isPySpace).length
        (List.range ws).map (fun i => ((id : TimeAcc → TimeAcc), cs.drop (ws - i)))
      else
        match cs with
        | c' :: rest =>
            if c.toLower = c'.toLower then [((id : TimeAcc → TimeAcc), rest)] else []
        | [] => []

/-- Backtracking matcher: leftmost alternative whose continuation matches the
whole remaining input (the `strptime` regex must consume the entire string). -/
def matchToks : List FmtTok → List Char → TimeAcc → Option TimeAcc
  | [], [], acc => some acc
  | [], _ :: _, _ => none
  | tok :: toks, cs, acc =>
      (fmtCandidates tok cs).findSome? (fun cand => matchToks toks cand.2 (cand.1 acc))

/-- Gregorian leap year. -/
def isLeapYear (y : ℕ) : Bool := y % 4 = 0 ∧ (y % 100 ≠ 0 ∨ y % 400 = 0)

/-- Days in a month. -/
def daysInMonth (y m : ℕ) : ℕ :=
  if m = 2 then (if isLeapYear y then 29 else 28)
  else if m = 4 ∨ m = 6 ∨ m = 9 ∨ m = 11 then 30
  else 31

/-- `datetime` constructor validity (year 1..9999, valid calendar day,
seconds 0..59; hour/minute ranges are already enforced by the regexes). -/
def validDateTime (a : TimeAcc) : Bool :=
  1 ≤ a.y ∧ a.y ≤ 9999 ∧ 1 ≤ a.m ∧ a.m ≤ 12 ∧ 1 ≤ a.d ∧ a.d ≤ daysInMonth a.y a.m ∧
    a.ss ≤ 59

/-- `datetime.strptime(value, strftime_format)` over the modelled directive
set; `none` is a raised `ValueError`. -/
def strptime (value fmt : String) : Option TimeAcc :=
  match matchToks (scanFmt fmt.data) value.data {} with
  | some acc => if validDateTime acc then some acc else none
  | none => none

/-- `COMMON_DATE_FORMATS` (date_formats.py lines 60-77). -/
def COMMON_DATE_FORMATS : List (String × String) :=
  [("YYYY-MM-DD", "%Y-%m-%d"),
   ("YYYY/MM/DD", "%Y/%m/%d"),
   ("YYYYMMDD", "%Y%m%d"),
   ("MM/DD/YYYY", "%m/%d/%Y"),
   ("DD/MM/YYYY", "%d/%m/%Y"),
   ("MM-DD-YYYY", "%m-%d-%Y"),
   ("DD-MM-YYYY", "%d-%m-%Y"),
   ("DD-MMM-YYYY", "%d-%b-%Y"),
   ("MMM DD, YYYY", "%b %d, %Y"),
   ("MMMM DD, YYYY", "%B %d, %Y"),
   ("YYYY-MM-DD HH:mm:ss", "%Y-%m-%d %H:%M:%S"),
   ("YYYY-MM-DDTHH:mm:ssZ", "%Y-%m-%dT%H:%M:%SZ"),
   ("MM/DD/YY", "%m/%d/%y"),
   ("DD/MM/YY", "%d/%m/%y"),
   ("MMDDYY", "%m%d%y"),
   ("DDMMYY", "%d%m%y")]

/-- `TOKEN_TO_STRFTIME` keys sorted by length descending (stable insertion
order), paired with their replacements, as iterated by
`human_format_to_strftime`. -/
def sortedFormatTokens : List (String × String) :=
  [("YYYY", "%Y"), ("MMMM", "%B"), ("dddd", "%A"),
   ("MMM", "%b"), ("ddd", "%a"),
   ("YY", "%y"), ("MM", "%m"), ("DD", "%d"), ("HH", "%H"), ("hh", "%I"),
   ("mm", "%M"), ("ss", "%S"), ("ZZ", "%z"),
   ("M", "%-m"), ("D", "%-d"), ("H", "%-H"), ("h", "%-I"), ("m", "%-M"),
   ("s", "%-S"), ("A", "%p"), ("a", "%p"), ("Z", "%z")]

/-- `human_format_to_strftime` (date_formats.py lines 80-102): dictionary
lookup for the common formats, otherwise sequential token replacement
(longest token first). -/
def human_format_to_strftime (human_format : String) : String :=
  match (COMMON_DATE_FORMATS.find? (fun p => p.1 = human_format)).map (·.2) with
  | some f => f
  | none =>
      sortedFormatTokens.foldl (fun acc kv => pyReplace acc kv.1 kv.2) human_format

/-- `parse_date_with_format` (date_formats.py lines 128-148); the error
string drops the Python exception detail. -/
def parse_date_with_format (value : String) (human_format : String) :
    Option TimeAcc × Option String :=
  match strptime (pyStrip value) (human_format_to_strftime human_format) with
  | some dt => (some dt, none)
  | none => (none, some ("Does not match format " ++ human_format))

/-- Month abbreviation for rendering (`%b`). -/
def monthAbbrName (m : ℕ) : String :=
  (["Jan", "Feb", "Mar", "Apr", "May", "Jun", "Jul", "Aug", "Sep", "Oct",
    "Nov", "Dec"]).getD (m - 1) "?"

/-- Full month name for rendering (`%B`). -/
def monthFullName (m : ℕ) : String :=
  (["January", "February", "March", "April", "May", "June", "July", "August",
    "September", "October", "November", "December"]).getD (m - 1) "?"

/-- Decimal digit character. -/
def digitCharOf : ℕ → Char
  | 0 => '0' | 1 => '1' | 2 => '2' | 3 => '3' | 4 => '4'
  | 5 => '5' | 6 => '6' | 7 => '7' | 8 => '8' | _ => '9'

/-- Decimal rendering worker, most significant digit first (fuel-bounded
division chain). -/
def decDigitsGo : ℕ → ℕ → List Char
  | 0, _ => []
  | fuel + 1, n =>
      if n < 10 then [digitCharOf n]
      else decDigitsGo fuel (n / 10) ++ [digitCharOf (n % 10)]

/-- Standard decimal rendering of a natural number (agrees with Python
`str`). -/
def natToDecimal (n : ℕ) : String := ⟨decDigitsGo (n + 1) n⟩

/-- Zero-pad a natural number to two digits. -/
def pad2 (n : ℕ) : String := if n < 10 then "0" ++ natToDecimal n else natToDecimal n

/-- `datetime.strftime` rendering of one directive on glibc/Linux: `%Y` is
the year without zero padding, the two-digit fields are zero padded.
Unmodelled directives render as their raw text (glibc pass-through). -/
def renderTok (a : TimeAcc) : FmtTok → String
  | .dirY => natToDecimal a.y
  | .dirY2 => pad2 (a.y % 100)
  | .dirM => pad2 a.m
  | .dirD => pad2 a.d
  | .dirH => pad2 a.hh
  | .dirMin => pad2 a.mi
  | .dirS => pad2 a.ss
  | .dirB3 => monthAbbrName a.m
  | .dirBFull => monthFullName a.m
  | .dirBad c => "%" ++ String.mk [c]
  | .lit c => String.mk [c]

/-- `format_date` (date_formats.py lines 151-166). -/
def format_date (dt : TimeAcc) (human_format : String) : String :=
  String.join ((scanFmt (human_format_to_strftime human_format).data).map (renderTok dt))

/-- Rata-die day number of a Gregorian date (days since 0000-03-01 based
civil scheme), used for Excel serial date arithmetic. -/
def dateToRd (y m d : ℤ) : ℤ :=
  let y' := if m ≤ 2 then y - 1 else y
  let era := (if y' ≥ 0 then y' else y' - 399).ediv 400
  let yoe := y' - era * 400
  let mp := (m + 9) % 12
  let doy := (153 * mp + 2).ediv 5 + d - 1
  let doe := yoe * 365 + yoe.ediv 4 - yoe.ediv 100 + doy
  era * 146097 + doe - 719468

/-- Inverse of `dateToRd`. -/
def rdToDate (z : ℤ) : ℤ × ℤ × ℤ :=
  let z := z + 719468
  let era := (if z ≥ 0 then z else z - 146096).ediv 146097
  let doe := z - era * 146097
  let yoe := (doe - doe.ediv 1460 + doe.ediv 36524 - doe.ediv 146096).ediv 365
  let y := yoe + era * 400
  let doy := doe - (365 * yoe + yoe.ediv 4 - yoe.ediv 100)
  let mp := (5 * doy + 2).ediv 153
  let d := doy - (153 * mp + 2).ediv 5 + 1
  let m := if mp < 10 then mp + 3 else mp - 9
  (if m ≤ 2 then y + 1 else y, m, d)

/-- `parse_excel_serial_date` (date_formats.py lines 169-194) for the 1900
date system: `Timestamp("1899-12-30") + Timedelta(days=value)`.  Fractional
days are truncated to whole seconds (nanosecond rounding not modelled). -/
def parse_excel_serial_date (value : Frac) : Option TimeAcc :=
  let whole : ℤ := value.floorInt
  let fracSecs : ℤ := ((value.sub (Frac.ofInt whole)).mul (Frac.ofInt 86400)).floorInt
  let rd := dateToRd 1899 12 30 + whole
  let (y, m, d) := rdToDate rd
  if 1 ≤ y ∧ y ≤ 9999 then
    some { y := y.toNat, m := m.toNat, d := d.toNat,
           hh := (fracSecs.ediv 3600).toNat, mi := ((fracSecs.ediv 60) % 60).toNat,
           ss := (fracSecs % 60).toNat }
  else none

/-- `try_parse_date_robust` (date_formats.py lines 197-233). -/
def try_parse_date_robust (value : String) (accepted_formats : List String)
    (excel_serial_enabled : Bool := false) : Option TimeAcc × Option String :=
  let value := pyStrip value
  let serialResult : Option (TimeAcc × String) :=
    if excel_serial_enabled then
      match pyFloat value with
      | some v =>
          if (Frac.ofInt 1).ble v ∧ v.ble (Frac.ofInt 2958465) then
            match parse_excel_serial_date v with
            | some dt => some (dt, "EXCEL_SERIAL")
            | none => none
          else none
      | none => none
    else none
  match serialResult with
  | some (dt, tag) => (some dt, some tag)
  | none =>
      let rec tryFormats : List String → Option TimeAcc × Option String
        | [] => (none, none)
        | fmt :: rest =>
            match parse_date_with_format value fmt with
            | (some dt, _) => (some dt, some fmt)
            | (none, _) => tryFormats rest
      tryFormats accepted_formats

/-- `coerce_date_to_format` (date_formats.py lines 293-325). -/
def coerce_date_to_format (value : String) (target_format : String)
    (accepted_input_formats : List String) (excel_serial_enabled : Bool := false) :
    Option String × Option String :=
  match try_parse_date_robust value accepted_input_formats excel_serial_enabled with
  | (some dt, _) => (some (format_date dt target_format), none)
  | (none, _) =>
      (none, some ("Could not parse \x27" ++ value ++ "\x27 with any accepted format"))

/-! ## Contract schema (`src/contract/schema.py`) and constants
(`src/constants.py`) -/

/-- `Normalization` dataclass. -/
structure Normalization where
  trim_whitespace : Bool := true
  null_tokens : List String := ["", "NA", "N/A", "null", "None"]
  case : String := "none"
  remove_non_printable : Bool := true
deriving Repr, DecidableEq

/-- `FailureHandling` dataclass; `Option String` models Python `None`. -/
structure FailureHandling where
  action : String := "strict_fail"
  label_column_name : Option String := none
  quarantine_export_name : Option String := none
deriving Repr, DecidableEq

/-- `TestConfig` dataclass. -/
structure TestConfig where
  type : String
  severity : String := "error"
  params : Params := []
  on_fail : Option FailureHandling := none

/-- `RemediationConfig` dataclass. -/
structure RemediationConfig where
  type : String
  params : Params := []

/-- `ColumnConfig` dataclass. -/
structure ColumnConfig where
  name : String
  data_type : String := "string"
  required : Bool := false
  rename_to : Option String := none
  normalization : Option Normalization := none
  tests : List TestConfig := []
  remediation : List RemediationConfig := []
  failure_handling : FailureHandling := {}

/-- `DatasetTest` dataclass. -/
structure DatasetTest where
  type : String
  severity : String := "error"
  params : Params := []
  on_fail : Option FailureHandling := none

/-- `NullPolicy` dataclass. -/
structure NullPolicy where
  allow_nulls : Bool := false
deriving Repr, DecidableEq

/-- `ForeignKeyCheck` dataclass. -/
structure ForeignKeyCheck where
  name : String
  dataset_column : String
  fk_file : String
  fk_column : String
  fk_sheet : Option String := none
  normalization_inherit_from_dataset_column : Bool := true
  null_policy : NullPolicy := {}
  on_fail : FailureHandling := {}

/-- `AppInfo` dataclass. -/
structure AppInfo where
  name : String := "Data Doctor"
  version : String := "0.1.0"
deriving Repr, DecidableEq

/-- `DatasetConfig` dataclass, trimmed to a marker: its import-settings
content is never read by the validation/remediation engine or the contract
validator (only its presence is checked). -/
structure DatasetConfig where
  header_row : ℤ := 1
deriving Repr, DecidableEq

/-- `Contract` dataclass.  `Option` wraps the fields whose absence
(`None`) the contract validator reports; `limits` and `exports` are omitted
because no embedded component reads them. -/
structure Contract where
  contract_version : String := "1.0"
  contract_id : String := ""
  created_at_utc : String := ""
  app : Option AppInfo := some {}
  dataset : Option DatasetConfig := some {}
  columns : List ColumnConfig := []
  dataset_tests : List DatasetTest := []
  foreign_key_checks : List ForeignKeyCheck := []

/-- `DATA_TYPES` (constants.py line 41). -/
def DATA_TYPES : List String :=
  ["string", "boolean", "integer", "float", "date", "timestamp"]

/-- `FAILURE_ACTIONS` (constants.py lines 44-50). -/
def FAILURE_ACTIONS : List String :=
  ["strict_fail", "set_null", "label_failure", "quarantine_row", "drop_row"]

/-- `BOOLEAN_TRUE_TOKENS` (constants.py line 59). -/
def BOOLEAN_TRUE_TOKENS : List String := ["true", "yes", "1", "t", "y", "on"]

/-- `BOOLEAN_FALSE_TOKENS` (constants.py line 60). -/
def BOOLEAN_FALSE_TOKENS : List String := ["false", "no", "0", "f", "n", "off"]

/-- `DEFAULT_NULL_TOKENS` (constants.py line 63). -/
def DEFAULT_NULL_TOKENS : List String :=
  ["", "NA", "N/A", "null", "None", "NULL", "none"]

/-- `OUTLIER_IQR_MULTIPLIER_DEFAULT = 1.5`. -/
def OUTLIER_IQR_MULTIPLIER_DEFAULT : Frac := ⟨3, 2⟩

/-- `OUTLIER_ZSCORE_THRESHOLD_DEFAULT = 3.0`. -/
def OUTLIER_ZSCORE_THRESHOLD_DEFAULT : Frac := ⟨3, 1⟩

/-- `COLUMN_TEST_TYPES` (constants.py lines 82-94). -/
def COLUMN_TEST_TYPES : List String :=
  ["not_null", "type_conformance", "range", "length", "enum", "uniqueness",
   "monotonic", "cardinality_warning", "pattern", "date_rule", "date_window"]

/-- `DATASET_TEST_TYPES` (constants.py lines 97-105). -/
def DATASET_TEST_TYPES : List String :=
  ["duplicate_rows", "primary_key_completeness", "primary_key_uniqueness",
   "composite_key_uniqueness", "cross_field_rule", "outliers_iqr", "outliers_zscore"]

/-- `REMEDIATION_TYPES` (constants.py lines 108-120). -/
def REMEDIATION_TYPES : List String :=
  ["trim_whitespace", "standardize_nulls", "normalize_case", "remove_non_printable",
   "deduplicate_rows", "numeric_cleanup", "boolean_normalization", "date_coerce",
   "categorical_standardize", "split_column", "custom_calculation"]

/-! ## Python character/string helpers for the transformers -/

/-- Python `str.isprintable()` restricted to the ASCII plane: control
characters (below `0x20` and `0x7f`) are non-printable, other characters are
treated as printable (Unicode category details are not modelled). -/
def pyIsPrintable (c : Char) : Bool := 0x20 ≤ c.toNat ∧ c.toNat ≠ 0x7f

/-- Python `str.lower()` (ASCII letters; Unicode case mapping not
modelled). -/
def pyLower (s : String) : String := ⟨s.data.map Char.toLower⟩

/-- Python `str.upper()`. -/
def pyUpper (s : String) : String := ⟨s.data.map Char.toUpper⟩

/-- Python `str.title()`: the first letter of every alphabetic run is
upper-cased, the rest lower-cased (ASCII notion of cased characters). -/
def pyTitle (s : String) : String :=
  let step := fun (st : List Char × Bool) (c : Char) =>
    let (out, prevAlpha) := st
    if c.isAlpha then
      (out ++ [if prevAlpha then c.toLower else c.toUpper], true)
    else (out ++ [c], false)
  ⟨(s.data.foldl step ([], false)).1⟩

/-- `_remove_non_printable` filtering: keep printable characters plus
tab/newline/carriage-return. -/
def filterPrintable (s : String) : String :=
  ⟨s.data.filter (fun c => pyIsPrintable c ∨ c = '\t' ∨ c = '\n' ∨ c = '\r')⟩

/-! ## Remediation transformers (`src/remediation/transformers.py`) -/

/-- `transform_trim_whitespace` (transformers.py lines 21-37): every
non-null value is stringified and stripped. -/
def transform_trim_whitespace (series : Series) (_params : Params := []) : Series :=
  series.map (fun x => if ¬ pdIsna x then .vStr (pyStrip (pyStr x)) else x)

/-- `transform_standardize_nulls` (transformers.py lines 40-65). -/
def transform_standardize_nulls (series : Series) (params : Params := []) : Series :=
  let null_tokens := pgetStrListD params "null_tokens" DEFAULT_NULL_TOKENS
  series.map (fun x =>
    if pdIsna x then .vNull
    else if null_tokens.contains (pyStrip (pyStr x)) then .vNull
    else x)

/-- `transform_normalize_case` (transformers.py lines 68-97). -/
def transform_normalize_case (series : Series) (params : Params := []) : Series :=
  let case := pgetStrD params "case" "lower"
  series.map (fun x =>
    if pdIsna x then x
    else
      let s := pyStr x
      if case = "lower" then .vStr (pyLower s)
      else if case = "upper" then .vStr (pyUpper s)
      else if case = "title" then .vStr (pyTitle s)
      else .vStr s)

/-- `transform_remove_non_printable` (transformers.py lines 100-120). -/
def transform_remove_non_printable (series : Series) (_params : Params := []) : Series :=
  series.map (fun x => if pdIsna x then x else .vStr (filterPrintable (pyStr x)))

/-- Currency symbols removed by `numeric_cleanup`: `$`, `£`, `€`, `¥`. -/
def isCurrencyChar (c : Char) : Bool :=
  c = '$' ∨ c.toNat = 0xA3 ∨ c.toNat = 0x20AC ∨ c.toNat = 0xA5

/-- `transform_numeric_cleanup` (transformers.py lines 123-176). -/
def transform_numeric_cleanup (series : Series) (params : Params := []) : Series :=
  let remove_commas := pgetBoolD params "remove_commas" true
  let remove_currency := pgetBoolD params "remove_currency_symbols" true
  let parentheses_negative := pgetBoolD params "parentheses_as_negative" true
  let on_error := pgetStrD params "on_parse_error" "keep"
  series.map (fun value =>
    if pdIsna value then value
    else
      let s := pyStrip (pyStr value)
      let s :=
        if parentheses_negative ∧ "(".isPrefixOf s ∧ ")".data.isSuffixOf s.data then
          "-" ++ ⟨(s.data.drop 1).dropLast⟩
        else s
      let s := if remove_currency then ⟨s.data.filter (fun c => ¬ isCurrencyChar c)⟩ else s
      let s := if remove_commas then pyReplace s "," "" else s
      let parsed : Option PdValue :=
        if ¬ pyContains s "." then (pyInt s).map .vInt
        else (pyFloat s).map .vFloat
      match parsed with
      | some v => v
      | none => if on_error = "set_null" then .vNull else value)

/-- `transform_boolean_normalization` (transformers.py lines 179-210). -/
def transform_boolean_normalization (series : Series) (params : Params := []) : Series :=
  let true_tokens := pgetStrListD params "true_tokens" BOOLEAN_TRUE_TOKENS
  let false_tokens := pgetStrListD params "false_tokens" BOOLEAN_FALSE_TOKENS
  series.map (fun value =>
    if pdIsna value then value
    else
      let s := pyLower (pyStrip (pyStr value))
      if true_tokens.contains s then .vBool true
      else if false_tokens.contains s then .vBool false
      else value)

/-- Default accepted input formats of `transform_date_coerce`
(transformers.py lines 234-239). -/
def DATE_COERCE_DEFAULT_FORMATS : List String :=
  ["YYYY-MM-DD", "MM/DD/YYYY", "DD/MM/YYYY", "YYYY/MM/DD",
   "MM-DD-YYYY", "DD-MM-YYYY", "YYYYMMDD",
   "MM/DD/YY", "DD/MM/YY", "MMM DD, YYYY", "MMMM DD, YYYY",
   "DD-MMM-YYYY"]

/-- `transform_date_coerce` (transformers.py lines 213-262). -/
def transform_date_coerce (series : Series) (params : Params := []) : Series :=
  let target_format := pgetStrD params "target_format" "YYYY-MM-DD"
  let accepted_formats :=
    pgetStrListD params "accepted_input_formats" DATE_COERCE_DEFAULT_FORMATS
  let excel_serial := pgetBoolD params "excel_serial_enabled" false
  let on_error := pgetStrD params "on_parse_error" "keep"
  series.map (fun value =>
    if pdIsna value then value
    else
      match (coerce_date_to_format (pyStr value) target_format accepted_formats
          excel_serial).1 with
      | some result => .vStr result
      | none => if on_error = "set_null" then .vNull else value)

/-- Convert a YAML mapping value to a cell value (`categorical_standardize`
mapping targets; non-scalar targets are outside the modelled domain). -/
def pparamToValue : PParam → PdValue
  | .pStr s => .vStr s
  | .pInt n => .vInt n
  | .pFrac q => .vFloat q
  | .pBool b => .vBool b
  | _ => .vNull

/-- Last-binding lookup, matching Python dict-comprehension overwrite
semantics for duplicate normalised keys. -/
def lookupLast (l : List (String × PdValue)) (k : String) : Option PdValue :=
  (l.reverse.find? (fun p => p.1 = k)).map (·.2)

/-- `transform_categorical_standardize` (transformers.py lines 265-307). -/
def transform_categorical_standardize (series : Series) (params : Params := []) : Series :=
  let mapping := pgetDictD params "mapping"
  let case_insensitive := pgetBoolD params "case_insensitive" true
  let normalized_mapping : List (String × PdValue) :=
    if case_insensitive then
      mapping.map (fun kv => (pyStrip (pyLower kv.1), pparamToValue kv.2))
    else
      mapping.map (fun kv => (pyStrip kv.1, pparamToValue kv.2))
  series.map (fun value =>
    if pdIsna value then value
    else
      let s := pyStrip (pyStr value)
      let lookup_value := if case_insensitive then pyLower s else s
      match lookupLast normalized_mapping lookup_value with
      | some v => v
      | none => value)

/-- Python `s.split(sep)` with optional maxsplit (`sep` nonempty; the empty
separator raises in Python and is outside the modelled domain). -/
def pySplit (s sep : String) (maxsplit : Option ℕ) : List String :=
  let sepCs := sep.data
  let rec go (fuel : ℕ) (cs cur : List Char) (remaining : ℕ) : List String :=
    match fuel with
    | 0 => [⟨cur ++ cs⟩]
    | fuel + 1 =>
        match cs with
        | [] => [⟨cur⟩]
        | c :: rest =>
            if remaining > 0 ∧ ¬ sepCs.isEmpty ∧ sepCs.isPrefixOf cs then
              (⟨cur⟩ : String) :: go fuel (cs.drop sepCs.length) [] (remaining - 1)
            else go fuel rest (cur ++ [c]) remaining
  if sep.isEmpty then [s]
  else
    go (s.data.length + 1) s.data []
      (match maxsplit with | some n => n | none => s.data.length + 1)

/-- `df[name] = series`: replace the first column of that name in place, or
append a new column. -/
def tableSet (df : Table) (name : String) (s : Series) : Table :=
  if tableHasCol df name then
    df.map (fun p => if p.1 = name then (p.1, s) else p)
  else df ++ [(name, s)]

/-- `pd.to_numeric(value, errors="coerce")` on one cell: numbers and
booleans coerce, parseable strings coerce, everything else becomes `NaN`
(underscore-separator acceptance differences with the pandas parser are not
modelled). -/
def toNumericCell : PdValue → Option Frac
  | .vInt n => some (Frac.ofInt n)
  | .vFloat q => some q
  | .vBool b => some (if b then Frac.ofInt 1 else Frac.ofInt 0)
  | .vStr s =>
      (match pyInt s with
       | some n => some (Frac.ofInt n)
       | none => pyFloat s)
  | _ => none

/-- `params.get(key, default)` integer view. -/
def pgetIntD (ps : Params) (key : String) (dflt : ℤ) : ℤ :=
  match pget ps key with
  | some (.pInt n) => n
  | _ => dflt

/-- `transform_split_column` (transformers.py lines 310-351).
`series.str.split(delimiter, expand=True, n=...)`: string cells split into
parts, non-string and null cells yield all-`NaN` rows; the expanded frame is
as wide as the longest split (at least one column when the frame has rows). -/
def transform_split_column (df : Table) (column_name : String)
    (params : Params := []) : Table :=
  let delimiter := pgetStrD params "delimiter" ","
  let new_names := pgetStrListD params "new_column_names" []
  let max_splits := pgetIntD params "max_splits" (-1)
  if ¬ tableHasCol df column_name then df
  else
    let s := (tableGet df column_name).getD []
    let n : Option ℕ := if max_splits > 0 then some max_splits.toNat else none
    let rows : List (Option (List String)) := s.map (fun v =>
      match v with
      | .vStr str => some (pySplit str delimiter n)
      | _ => none)
    let numCols : ℕ :=
      if rows.isEmpty then 0
      else rows.foldl (fun acc r => max acc (match r with | some ps => ps.length | none => 1)) 0
    (List.range numCols).foldl (fun result_df i =>
      let new_col_name :=
        match new_names.get? i with
        | some nm => nm
        | none => column_name ++ "_part_" ++ toString (i + 1)
      let colVals : Series := rows.map (fun r =>
        match r with
        | some parts => match parts.get? i with
          | some p => .vStr p
          | none => .vNull
        | none => .vNull)
      tableSet result_df new_col_name colVals) df

/-- `transform_custom_calculation` (transformers.py lines 354-426):
`concat | add | subtract | multiply | divide` over named operand columns. -/
def transform_custom_calculation (df : Table) (column_name : String)
    (params : Params := []) : Table :=
  let operation := pgetStrD params "operation" "concat"
  let operand_columns := pgetStrListD params "operand_columns" []
  let separator := pgetStrD params "separator" " "
  if operand_columns.isEmpty then df
  else if ¬ operand_columns.all (fun c => tableHasCol df c) then df
  else if operation = "concat" then
    let cols := operand_columns.map (fun c => (tableGet df c).getD [])
    match cols with
    | [] => df
    | c0 :: rest =>
        let initial : List String := c0.map pyStr
        let result := rest.foldl (fun acc col =>
          (acc.zip col).map (fun p => p.1 ++ separator ++ pyStr p.2)) initial
        tableSet df column_name (result.map .vStr)
  else if operation = "add" ∨ operation = "subtract" ∨ operation = "multiply" ∨
      operation = "divide" then
    let cols := operand_columns.map (fun c =>
      ((tableGet df c).getD []).map toNumericCell)
    match cols with
    | [] => df
    | c0 :: rest =>
        let combine : Option Frac → Option Frac → Option Frac := fun a b =>
          match a, b with
          | some x, some y =>
              if operation = "add" then some (x.add y)
              else if operation = "subtract" then some (x.sub y)
              else if operation = "multiply" then some (x.mul y)
              else if y.eqb (Frac.ofInt 0) then none  -- divisor 0 replaced by NaN
              else some (x.div y)
          | _, _ => none
        let result := rest.foldl (fun acc col =>
          (acc.zip col).map (fun p => combine p.1 p.2)) c0
        tableSet df column_name (result.map (fun o =>
          match o with | some q => PdValue.vFloat q | none => PdValue.vNull))
  else df

/-- Row key over the given columns (positional row `i`). -/
def rowKey (df : Table) (cols : List String) (i : ℕ) : List PdValue :=
  cols.map (fun c => ((tableGet df c).getD []).getD i .vNull)

/-- Hash-style equality of row keys (pandas duplicate machinery). -/
def rowKeyEq (a b : List PdValue) : Bool :=
  a.length = b.length ∧ (a.zip b).all (fun p => pdHashEq p.1 p.2)

/-- `df.duplicated(subset, keep=False)` mask: a row is marked when its key
occurs at least twice. -/
def duplicatedMaskAll (keys : List (List PdValue)) : List Bool :=
  keys.map (fun k => (keys.filter (fun k2 => rowKeyEq k k2)).length ≥ 2)

/-- Restrict every column of a frame to the row positions where the mask
holds (positional filtering; the pandas index is positional in the app). -/
def tableFilterRows (df : Table) (mask : List Bool) : Table :=
  df.map (fun p =>
    (p.1, (p.2.zip (mask ++ List.replicate p.2.length false)).filterMap
      (fun q => if q.2 then some q.1 else none)))

/-- `deduplicate_rows` (transformers.py lines 498-518):
`df.drop_duplicates(subset, keep)` with `keep` in
`{"first", "last", False}`.  Subset columns absent from the frame would
raise in pandas and are outside the modelled domain (they are filtered). -/
def deduplicate_rows (df : Table) (params : Params := []) : Table :=
  let subset : Option (List String) :=
    match pget params "subset" with
    | some (.pStrList l) => some l
    | _ => none
  let keep : PParam := (pget params "keep").getD (.pStr "first")
  let cols :=
    match subset with
    | some l => l.filter (fun c => tableHasCol df c)
    | none => tableColumns df
  let n := tableRows df
  let keys := (List.range n).map (rowKey df cols)
  let keyAt := fun (i : ℕ) => keys.getD i []
  let keepMask : List Bool := (List.range n).map (fun i =>
    match keep with
    | .pStr "last" =>
        ((List.range n).filter (fun j => i < j ∧ rowKeyEq (keyAt i) (keyAt j))).isEmpty
    | .pBool false =>
        (keys.filter (fun k => rowKeyEq (keyAt i) k)).length = 1
    | _ =>
        -- "first" and any other value (other values raise in pandas)
        ((List.range n).filter (fun j => j < i ∧ rowKeyEq (keyAt i) (keyAt j))).isEmpty)
  tableFilterRows df keepMask

/-- `COLUMN_TRANSFORMERS` registry (transformers.py lines 430-439), in
insertion order. -/
def COLUMN_TRANSFORMERS : List (String × (Series → Params → Series)) :=
  [("trim_whitespace", fun s p => transform_trim_whitespace s p),
   ("standardize_nulls", fun s p => transform_standardize_nulls s p),
   ("normalize_case", fun s p => transform_normalize_case s p),
   ("remove_non_printable", fun s p => transform_remove_non_printable s p),
   ("numeric_cleanup", fun s p => transform_numeric_cleanup s p),
   ("boolean_normalization", fun s p => transform_boolean_normalization s p),
   ("date_coerce", fun s p => transform_date_coerce s p),
   ("categorical_standardize", fun s p => transform_categorical_standardize s p)]

/-- `DATAFRAME_TRANSFORMERS` registry (transformers.py lines 442-445). -/
def DATAFRAME_TRANSFORMERS : List (String × (Table → String → Params → Table)) :=
  [("split_column", fun df c p => transform_split_column df c p),
   ("custom_calculation", fun df c p => transform_custom_calculation df c p)]

/-- `apply_column_remediation` (transformers.py lines 448-469): dispatch on
the registry; an unknown remediation type returns the series unchanged. -/
def apply_column_remediation (series : Series) (remediation_type : String)
    (params : Params := []) : Series :=
  match COLUMN_TRANSFORMERS.find? (fun p => p.1 = remediation_type) with
  | none => series
  | some t => t.2 series params

/-- `apply_dataframe_remediation` (transformers.py lines 472-495): dispatch
on the registry; an unknown remediation type returns the frame unchanged. -/
def apply_dataframe_remediation (df : Table) (column_name : String)
    (remediation_type : String) (params : Params := []) : Table :=
  match DATAFRAME_TRANSFORMERS.find? (fun p => p.1 = remediation_type) with
  | none => df
  | some t => t.2 df column_name params

/-! ## Remediation orchestrator (`src/remediation/engine.py`) -/

/-- A raised Python exception. -/
inductive PyErr where
  | typeError (msg : String)
deriving Repr, DecidableEq

/-- The parameter names in the signature of `compute_diff`
(diff.py lines 48-52). -/
def compute_diff_param_names : List String :=
  ["original_df", "remediated_df", "max_samples_per_column"]

/-- The keyword-argument names `run_remediation` passes in its
`compute_diff(...)` call (engine.py lines 90-95). -/
def run_remediation_compute_diff_kwargs : List String :=
  ["max_samples_per_column", "column_treatments"]

/-- `run_remediation` (engine.py lines 24-97).  Python call semantics are
modelled at the `compute_diff` boundary: a keyword argument not present
among the callee parameter names raises `TypeError` before the call body
runs.  (The `column_treatments` bookkeeping dict feeds only that failing
call and is not otherwise modelled.) -/
def run_remediation (df : Table) (contract : Contract) :
    Except PyErr (Table × RemediationDiff) :=
  let step_col := fun (result_df : Table) (col_config : ColumnConfig) =>
    if ¬ tableHasCol result_df col_config.name then result_df
    else
      col_config.remediation.foldl (fun result_df rem =>
        if (COLUMN_TRANSFORMERS.find? (fun p => p.1 = rem.type)).isSome then
          tableSet result_df col_config.name
            (apply_column_remediation ((tableGet result_df col_config.name).getD [])
              rem.type rem.params)
        else if (DATAFRAME_TRANSFORMERS.find? (fun p => p.1 = rem.type)).isSome then
          apply_dataframe_remediation result_df col_config.name rem.type rem.params
        else result_df) result_df
  let result_df := contract.columns.foldl step_col df
  let result_df := contract.columns.foldl (fun rdf col =>
    match col.remediation.find? (fun r => r.type = "deduplicate_rows") with
    | some rem => deduplicate_rows rdf rem.params
    | none => rdf) result_df
  if run_remediation_compute_diff_kwargs.all
      (fun k => compute_diff_param_names.contains k) then
    let total_rows := tableRows df
    let max_samples := if total_rows < 1000 then total_rows else 1000
    Except.ok (result_df, compute_diff df result_df max_samples)
  else
    Except.error (.typeError
      "compute_diff() got an unexpected keyword argument \x27column_treatments\x27")

/-! ## External library oracles

`pandas.to_datetime` free-form parsing and the `re` regex engine are outside
the embedded algorithmic core; they enter as an oracle record, and every
theorem about code that can reach them quantifies over all oracles. -/

/-- Oracle record for external text engines: `toDatetime` is
`pandas.to_datetime` on a scalar (`none` = raised parse error), `reMatch`
is `bool(re.compile(pattern).match(value))` with compile errors folded to
`False` (as `validate_with_custom_pattern` does). -/
structure Ext where
  toDatetime : PdValue → Option TimeAcc
  reMatch : String → String → Bool

/-! ## Validation result structures (`src/validation/results.py`) -/

/-- A value stored in a `DatasetTestResult.details` dictionary.  `dSqrt q`
denotes the irrational value `√q` (the standard deviation recorded by the
z-score test). -/
inductive DVal where
  | dInt (n : ℤ)
  | dFrac (q : Frac)
  | dSqrt (q : Frac)
  | dStr (s : String)
  | dBool (b : Bool)
  | dNone
  | dStrList (l : List String)
  | dPairs (l : List (String × ℤ))
  | dRows (l : List (List (String × PdValue)))
deriving Repr, DecidableEq

/-- `DatasetTestResult` dataclass. -/
structure DatasetTestResult where
  test_type : String
  severity : String
  passed : Bool
  message : String
  details : List (String × DVal) := []
  affected_rows : List ℕ := []
deriving Repr, DecidableEq

/-- `ForeignKeyCheckResult` dataclass. -/
structure ForeignKeyCheckResult where
  name : String
  dataset_column : String
  fk_column : String
  passed : Bool
  total_values : ℕ
  missing_count : ℕ
  missing_values : List PdValue := []
  missing_row_indices : List ℕ := []
deriving Repr, DecidableEq

/-- `CellValidationResult` dataclass. -/
structure CellValidationResult where
  row_index : ℕ
  column_name : String
  original_value : PdValue
  is_valid : Bool
  test_type : String
  error_message : String := ""
  severity : String := "error"
deriving Repr, DecidableEq

/-- `ColumnValidationResult` dataclass. -/
structure ColumnValidationResult where
  column_name : String
  data_type : String
  is_valid : Bool
  total_tests : ℕ
  passed_tests : ℕ
  failed_tests : ℕ
  warning_count : ℕ
  test_results : List ColumnTestResult := []
  overall_status : String := "PASS"
deriving Repr, DecidableEq

/-- `ValidationSummary` dataclass. -/
structure ValidationSummary where
  total_rows : ℕ
  total_columns : ℕ
  total_tests_run : ℕ
  total_tests_passed : ℕ
  total_tests_failed : ℕ
  total_warnings : ℕ
  total_errors : ℕ
  rows_with_errors : ℕ
  clean_rows : ℤ
  error_rate_percent : Frac
  has_blocking_errors : Bool
deriving Repr, DecidableEq

/-- `ValidationResult` dataclass; `column_results` is an insertion-ordered
dict. -/
structure ValidationResult where
  is_valid : Bool
  summary : ValidationSummary
  column_results : List (String × ColumnValidationResult) := []
  dataset_test_results : List DatasetTestResult := []
  fk_check_results : List ForeignKeyCheckResult := []
  cell_errors : List CellValidationResult := []
  blocking_errors : List String := []
deriving Repr, DecidableEq

/-! ## Foreign key checker (`src/validation/foreign_key.py`) -/

/-- First-occurrence deduplication with pandas/Python `set` equality
(`set` iteration order over hashed values is modelled as first-occurrence
order). -/
def pySetDedup (l : List PdValue) : List PdValue :=
  l.foldl (fun acc v => if acc.any (fun w => pdHashEq w v) then acc else acc ++ [v]) []

/-- Apply the optional normalization function to non-null values, as the
checker does to both sides (foreign_key.py lines 40-49). -/
def fkNormalizeSeries (normalization_func : Option (PdValue → PdValue))
    (s : Series) : Series :=
  match normalization_func with
  | some f => s.map (fun x => if ¬ pdIsna x then f x else x)
  | none => s

/-- The uncapped missing entries of the FK loop (foreign_key.py lines
54-69): `(row index, recorded value)` pairs, where a disallowed null row
records `None` (modelled by `vNull`). -/
def fk_missing_entries (dataset_values : Series) (fk_set : List PdValue)
    (allow_nulls : Bool) : List (ℕ × PdValue) :=
  (seriesItems dataset_values).filterMap (fun p =>
    if pdIsna p.2 then
      if ¬ allow_nulls then some (p.1, PdValue.vNull) else none
    else if fk_set.any (fun w => pdHashEq w p.2) then none
    else some (p.1, p.2))

/-- `validate_foreign_key` (foreign_key.py lines 15-83). -/
def validate_foreign_key (dataset_series fk_series : Series)
    (name dataset_column fk_column : String) (allow_nulls : Bool := false)
    (normalization_func : Option (PdValue → PdValue) := none) :
    ForeignKeyCheckResult :=
  let dataset_values := fkNormalizeSeries normalization_func dataset_series
  let fk_values := fkNormalizeSeries normalization_func fk_series
  let fk_set := fk_values.filter (fun v => ¬ pdIsna v)
  let missing := fk_missing_entries dataset_values fk_set allow_nulls
  { name := name
    dataset_column := dataset_column
    fk_column := fk_column
    passed := missing.length = 0
    total_values := dataset_series.length
    missing_count := missing.length
    missing_values := (pySetDedup (missing.map (·.2))).take 100
    missing_row_indices := (missing.map (·.1)).take 1000 }

/-- `create_normalization_function` (foreign_key.py lines 86-128). -/
def create_normalization_function (trim_whitespace : Bool := true)
    (case : String := "none") (null_tokens : Option (List String) := none) :
    PdValue → PdValue :=
  fun value =>
    if pdIsna value then value
    else
      let s := pyStr value
      let s := if trim_whitespace then pyStrip s else s
      if (null_tokens.getD []).contains s then .vNull
      else if case = "lower" then .vStr (pyLower s)
      else if case = "upper" then .vStr (pyUpper s)
      else if case = "title" then .vStr (pyTitle s)
      else .vStr s

/-! ## Numeric helpers for the outlier tests -/

/-- Sum of fractions. -/
def fracSum (l : List Frac) : Frac := l.foldl Frac.add (Frac.ofInt 0)

/-- Arithmetic mean (`Series.mean`, NaN entries skipped by the caller). -/
def fracMean (l : List Frac) : Frac := (fracSum l).div (Frac.ofInt l.length)

/-- Sample variance with `ddof = 1` (`Series.std` squared), defined for
`l.length ≥ 2`. -/
def sampleVar (l : List Frac) : Frac :=
  let m := fracMean l
  (fracSum (l.map (fun x => (x.sub m).mul (x.sub m)))).div (Frac.ofInt (l.length - 1))

/-- Insertion sort ascending (pandas quantile sorts the non-null values). -/
def insertionSortFrac (l : List Frac) : List Frac :=
  let rec insert (x : Frac) : List Frac → List Frac
    | [] => [x]
    | y :: ys => if x.ble y then x :: y :: ys else y :: insert x ys
  l.foldl (fun acc x => insert x acc) []

/-- `Series.quantile(qnum/qden)` with the default linear interpolation over
the ascending non-null values; `none` is the NaN result on an empty
series. -/
def quantileFrac (sorted : List Frac) (qnum qden : ℤ) : Option Frac :=
  match sorted with
  | [] => none
  | _ =>
      let n := sorted.length
      let posNum := qnum * ((n : ℤ) - 1)
      let i : ℤ := posNum.fdiv qden
      let frac : Frac := ⟨posNum - i * qden, qden⟩
      let vi := sorted.getD i.toNat (Frac.ofInt 0)
      if i.toNat + 1 < n then
        some (vi.add (((sorted.getD (i.toNat + 1) (Frac.ofInt 0)).sub vi).mul frac))
      else some vi

/-- Exact characterisation of `|x − mean| / std > threshold` for positive
variance: always true for a negative threshold (the z-score is
non-negative), otherwise both sides squared:
`(x − mean)² > threshold² · var`. -/
def zscoreExceeds (x mean var threshold : Frac) : Bool :=
  if threshold.blt (Frac.ofInt 0) then true
  else ((threshold.mul threshold).mul var).blt ((x.sub mean).mul (x.sub mean))

/-! ## Dataset tests (`src/validation/dataset_tests.py`) -/

/-- Python `repr` of a string list (for the missing-key-columns message),
with single-quoted entries. -/
def pyListRepr (l : List String) : String :=
  "[" ++ String.intercalate ", " (l.map (fun s => "\x27" ++ s ++ "\x27")) ++ "]"

/-- `test_duplicate_rows` (dataset_tests.py lines 21-70).  A `subset`
naming a column absent from the frame raises in pandas and is outside the
modelled domain (absent names are ignored). -/
def test_duplicate_rows (df : Table) (severity : String := "warning")
    (params : Params := []) : DatasetTestResult :=
  let subset : Option (List String) :=
    match pget params "subset" with
    | some (.pStrList l) => some l
    | _ => none
  let cols :=
    match subset with
    | some l => l.filter (fun c => tableHasCol df c)
    | none => tableColumns df
  let n := tableRows df
  let keys := (List.range n).map (rowKey df cols)
  let mask := duplicatedMaskAll keys
  let duplicate_indices := maskIndices mask
  let duplicate_count := duplicate_indices.length
  let message :=
    if duplicate_count > 0 then
      let dupKeys := (keys.zip mask).filterMap (fun p => if p.2 then some p.1 else none)
      let groups := dupKeys.foldl
        (fun acc k => if acc.any (fun k2 => rowKeyEq k k2) then acc else acc ++ [k]) []
      "Found " ++ toString duplicate_count ++ " rows in " ++ toString groups.length ++
        " duplicate groups"
    else "No duplicate rows found"
  { test_type := "duplicate_rows"
    severity := severity
    passed := duplicate_count = 0
    message := message
    details := [("duplicate_count", .dInt duplicate_count),
                ("subset", match subset with
                  | some l => .dStrList l
                  | none => .dNone)]
    affected_rows := duplicate_indices.take 1000 }

/-- Ascending deduplicated list of naturals, modelling Python
`list(set(...))` over small ints (hash order for small ints is value
order). -/
def sortedDedupNat (l : List ℕ) : List ℕ :=
  let dedup := l.foldl (fun acc v => if acc.contains v then acc else acc ++ [v]) []
  let rec insert (x : ℕ) : List ℕ → List ℕ
    | [] => [x]
    | y :: ys => if x ≤ y then x :: y :: ys else y :: insert x ys
  dedup.foldl (fun acc x => insert x acc) []

/-- `test_primary_key_completeness` (dataset_tests.py lines 73-131). -/
def test_primary_key_completeness (df : Table) (severity : String := "error")
    (params : Params := []) : DatasetTestResult :=
  let key_columns := pgetStrListD params "key_columns" []
  if key_columns.isEmpty then
    { test_type := "primary_key_completeness"
      severity := severity
      passed := false
      message := "No key columns specified"
      details := [] }
  else
    let presentCols := key_columns.filter (fun c => tableHasCol df c)
    let null_counts : List (String × ℤ) := presentCols.map (fun c =>
      (c, (( (tableGet df c).getD []).filter (fun v => pdIsna v)).length))
    let affected := presentCols.foldl (fun acc c =>
      acc ++ maskIndices (((tableGet df c).getD []).map pdIsna)) []
    let total_nulls : ℤ := (null_counts.map (·.2)).foldl (· + ·) 0
    let affected := sortedDedupNat affected
    let message :=
      if total_nulls > 0 then
        "Primary key has " ++ toString total_nulls ++ " null values across key columns"
      else "Primary key is complete (no null values)"
    { test_type := "primary_key_completeness"
      severity := severity
      passed := total_nulls = 0
      message := message
      details := [("key_columns", .dStrList key_columns),
                  ("null_counts", .dPairs null_counts)]
      affected_rows := affected.take 1000 }

/-- `test_primary_key_uniqueness` (dataset_tests.py lines 134-199). -/
def test_primary_key_uniqueness (df : Table) (severity : String := "error")
    (params : Params := []) : DatasetTestResult :=
  let key_columns := pgetStrListD params "key_columns" []
  if key_columns.isEmpty then
    { test_type := "primary_key_uniqueness"
      severity := severity
      passed := false
      message := "No key columns specified"
      details := [] }
  else
    let missing_cols := key_columns.filter (fun c => ¬ tableHasCol df c)
    if ¬ missing_cols.isEmpty then
      { test_type := "primary_key_uniqueness"
        severity := severity
        passed := false
        message := "Key columns not found: " ++ pyListRepr missing_cols
        details := [("missing_columns", .dStrList missing_cols)] }
    else
      let n := tableRows df
      let keys := (List.range n).map (rowKey df key_columns)
      let mask := duplicatedMaskAll keys
      let duplicate_indices := maskIndices mask
      let duplicate_count := duplicate_indices.length
      let sample_keys : List (List (String × PdValue)) :=
        if duplicate_count > 0 then
          let dupKeys := (keys.zip mask).filterMap
            (fun p => if p.2 then some p.1 else none)
          let dedup := dupKeys.foldl
            (fun acc k => if acc.any (fun k2 => rowKeyEq k k2) then acc else acc ++ [k]) []
          (dedup.take 10).map (fun k => key_columns.zip k)
        else []
      let message :=
        if duplicate_count > 0 then
          "Primary key has " ++ toString duplicate_count ++ " duplicate rows"
        else "Primary key is unique"
      { test_type := "primary_key_uniqueness"
        severity := severity
        passed := duplicate_count = 0
        message := message
        details := [("key_columns", .dStrList key_columns),
                    ("duplicate_count", .dInt duplicate_count),
                    ("sample_duplicate_keys", .dRows sample_keys)]
        affected_rows := duplicate_indices.take 1000 }

/-- `test_composite_key_uniqueness` (dataset_tests.py lines 202-231). -/
def test_composite_key_uniqueness (df : Table) (severity : String := "error")
    (params : Params := []) : DatasetTestResult :=
  let result := test_primary_key_uniqueness df severity params
  { test_type := "composite_key_uniqueness"
    severity := result.severity
    passed := result.passed
    message := pyReplace result.message "Primary key" "Composite key"
    details := result.details
    affected_rows := result.affected_rows }

/-- First-occurrence split of `s` at the operator substring
(Python `expression.split(op, 1)` when `op in expression`). -/
def pySplitOnce (s op : String) : Option (String × String) :=
  let rec go (fuel : ℕ) (pre cs : List Char) : Option (String × String) :=
    match fuel with
    | 0 => none
    | fuel + 1 =>
        if op.data.isPrefixOf cs then some (⟨pre⟩, ⟨cs.drop op.data.length⟩)
        else
          match cs with
          | [] => none
          | c :: rest => go fuel (pre ++ [c]) rest
  go (s.data.length + 1) [] s.data

/-- `_parse_literal` (dataset_tests.py lines 378-405). -/
def parseLiteral (ext : Ext) (value : String) : PdValue :=
  let num : Option PdValue :=
    if pyContains value "." then (pyFloat value).map .vFloat
    else (pyInt value).map .vInt
  match num with
  | some v => v
  | none =>
      if pyLower value = "true" then .vBool true
      else if pyLower value = "false" then .vBool false
      else
        match ext.toDatetime (.vStr value) with
        | some dt => .vDate dt.y dt.m dt.d dt.hh dt.mi dt.ss
        | none =>
            if ("\"".isPrefixOf value ∧ "\"".data.isSuffixOf value.data) ∨
                ("\x27".isPrefixOf value ∧ "\x27".data.isSuffixOf value.data) then
              .vStr ⟨(value.data.drop 1).dropLast⟩
            else .vStr value

/-- Elementwise comparison of the chosen operator; `none` models a raised
`TypeError` on mixed operand categories. -/
def applyCmpOp (op : String) (a b : PdValue) : Option Bool :=
  if op = "<" then pyLtVal a b
  else if op = "<=" then pyLeVal a b
  else if op = ">" then pyLtVal b a
  else if op = ">=" then pyLeVal b a
  else if op = "==" then some (pyEqVal a b)
  else if op = "!=" then some (pyNeVal a b)
  else none

/-- The operator search order of `_evaluate_cross_field_expression`
(dataset_tests.py line 341). -/
def CROSS_FIELD_OPS : List String := ["<=", ">=", "==", "!=", "<", ">"]

/-- `_evaluate_cross_field_expression` (dataset_tests.py lines 326-375)
over the checked row positions: `none` models a raised exception (no
parseable operator, or an elementwise `TypeError`). -/
def evaluateCrossFieldExpression (ext : Ext) (df : Table)
    (rows : List ℕ) (expression : String) : Option (List Bool) :=
  match CROSS_FIELD_OPS.findSome? (fun op =>
      if pyContains expression op then (pySplitOnce expression op).map (op, ·) else none) with
  | none => none
  | some (op, parts) =>
      let left := pyStrip parts.1
      let right := pyStrip parts.2
      let cellAt := fun (operand : String) (i : ℕ) =>
        match tableGet df operand with
        | some col => col.getD i .vNull
        | none => parseLiteral ext operand
      let results := rows.map (fun i => applyCmpOp op (cellAt left i) (cellAt right i))
      if results.all (·.isSome) then some (results.map (fun o => o.getD false))
      else none

/-- The gate of `test_cross_field_rule` (dataset_tests.py lines 266-277):
row positions where every named-and-present gate column is non-null; with
no gate columns, every row. -/
def crossFieldCheckedRows (df : Table) (all_not_null : List String) : List ℕ :=
  let n := tableRows df
  if all_not_null.isEmpty then List.range n
  else
    (List.range n).filter (fun i =>
      (all_not_null.filter (fun c => tableHasCol df c)).all
        (fun c => ¬ pdIsna (((tableGet df c).getD []).getD i .vNull)))

/-- `test_cross_field_rule` (dataset_tests.py lines 234-323).  The error
message of the exception branch drops the Python exception text. -/
def test_cross_field_rule (ext : Ext) (df : Table) (severity : String := "error")
    (params : Params := []) : DatasetTestResult :=
  let rule_name := pgetStrD params "rule_name" "unnamed_rule"
  let if_clause := pgetDictD params "if"
  let assert_clause := pgetDictD params "assert"
  let expression := pgetStrD assert_clause "expression" ""
  if expression = "" then
    { test_type := "cross_field_rule"
      severity := severity
      passed := false
      message := "Rule \x27" ++ rule_name ++ "\x27: No expression specified"
      details := [("rule_name", .dStr rule_name)] }
  else
    let all_not_null := pgetStrListD if_clause "all_not_null" []
    let rows_to_check := crossFieldCheckedRows df all_not_null
    if rows_to_check.isEmpty then
      { test_type := "cross_field_rule"
        severity := severity
        passed := true
        message := "Rule \x27" ++ rule_name ++
          "\x27: No rows to check (all filtered by conditions)"
        details := [("rule_name", .dStr rule_name), ("rows_checked", .dInt 0)] }
    else
      match evaluateCrossFieldExpression ext df rows_to_check expression with
      | none =>
          { test_type := "cross_field_rule"
            severity := severity
            passed := false
            message := "Rule \x27" ++ rule_name ++ "\x27: Error evaluating expression"
            details := [("rule_name", .dStr rule_name), ("expression", .dStr expression)] }
      | some result_mask =>
          let failed_indices := (rows_to_check.zip result_mask).filterMap
            (fun p => if ¬ p.2 then some p.1 else none)
          let failed_count := failed_indices.length
          let message :=
            if failed_count > 0 then
              "Rule \x27" ++ rule_name ++ "\x27: " ++ toString failed_count ++
                " rows failed the assertion"
            else
              "Rule \x27" ++ rule_name ++ "\x27: All " ++
                toString rows_to_check.length ++ " rows passed"
          { test_type := "cross_field_rule"
            severity := severity
            passed := failed_count = 0
            message := message
            details := [("rule_name", .dStr rule_name),
                        ("expression", .dStr expression),
                        ("rows_checked", .dInt rows_to_check.length),
                        ("rows_failed", .dInt failed_count)]
            affected_rows := failed_indices.take 1000 }

/-- `test_outliers_iqr` (dataset_tests.py lines 408-486).  The
`except`-guard around `pd.to_numeric(..., errors="coerce")` is dead code
(coercion does not raise) and has no model branch.  `passed` is `True` and
the reported severity is `"warning"` on the detection path; the
no-valid-column branch returns the *configured* severity. -/
def test_outliers_iqr (df : Table) (severity : String := "warning")
    (params : Params := []) : DatasetTestResult :=
  let column := pgetStr params "column"
  let multiplier := pgetNumD params "multiplier" OUTLIER_IQR_MULTIPLIER_DEFAULT
  if strFalsy column ∨ ¬ tableHasCol df (column.getD "") then
    { test_type := "outliers_iqr"
      severity := severity
      passed := true
      message := "No valid column specified for outlier detection"
      details := [] }
  else
    let col := column.getD ""
    let values := ((tableGet df col).getD []).map toNumericCell
    let nonNull := values.filterMap id
    let sorted := insertionSortFrac nonNull
    match quantileFrac sorted 1 4, quantileFrac sorted 3 4 with
    | some q1, some q3 =>
        let iqr := q3.sub q1
        let lower_bound := q1.sub (multiplier.mul iqr)
        let upper_bound := q3.add (multiplier.mul iqr)
        let outlier_indices := (List.range values.length).filter (fun i =>
          match values.getD i none with
          | some x => x.blt lower_bound ∨ upper_bound.blt x
          | none => false)
        let outlier_count := outlier_indices.length
        let message :=
          if outlier_count > 0 then
            "Found " ++ toString outlier_count ++ " potential outliers in \x27" ++
              col ++ "\x27"
          else "No outliers detected in \x27" ++ col ++ "\x27 using IQR method"
        { test_type := "outliers_iqr"
          severity := "warning"  -- Always warning
          passed := true  -- Outliers are informational
          message := message
          details := [("column", .dStr col),
                      ("multiplier", .dFrac multiplier),
                      ("q1", .dFrac q1), ("q3", .dFrac q3), ("iqr", .dFrac iqr),
                      ("lower_bound", .dFrac lower_bound),
                      ("upper_bound", .dFrac upper_bound),
                      ("outlier_count", .dInt outlier_count)]
          affected_rows := outlier_indices.take 1000 }
    | _, _ =>
        -- Empty numeric column: NaN quantiles, NaN bounds, no outliers.
        { test_type := "outliers_iqr"
          severity := "warning"
          passed := true
          message := "No outliers detected in \x27" ++ col ++ "\x27 using IQR method"
          details := [("column", .dStr col),
                      ("multiplier", .dFrac multiplier),
                      ("q1", .dNone), ("q3", .dNone), ("iqr", .dNone),
                      ("lower_bound", .dNone), ("upper_bound", .dNone),
                      ("outlier_count", .dInt 0)]
          affected_rows := [] }

/-- `test_outliers_zscore` (dataset_tests.py lines 489-571).  The
`std_val == 0 or pd.isna(std_val)` short-circuit corresponds to fewer than
two non-null values (sample std is NaN) or zero sample variance; the
z-score mask on the main path is the exact squared characterisation of
`|x − mean| / std > threshold`. -/
def test_outliers_zscore (df : Table) (severity : String := "warning")
    (params : Params := []) : DatasetTestResult :=
  let column := pgetStr params "column"
  let threshold := pgetNumD params "threshold" OUTLIER_ZSCORE_THRESHOLD_DEFAULT
  if strFalsy column ∨ ¬ tableHasCol df (column.getD "") then
    { test_type := "outliers_zscore"
      severity := severity
      passed := true
      message := "No valid column specified for outlier detection"
      details := [] }
  else
    let col := column.getD ""
    let values := ((tableGet df col).getD []).map toNumericCell
    let nonNull := values.filterMap id
    if nonNull.length < 2 ∨ (sampleVar nonNull).eqb (Frac.ofInt 0) then
      { test_type := "outliers_zscore"
        severity := severity
        passed := true
        message := "Column \x27" ++ col ++ "\x27 has zero variance"
        details := [("column", .dStr col)] }
    else
      let mean_val := fracMean nonNull
      let var_val := sampleVar nonNull
      let outlier_indices := (List.range values.length).filter (fun i =>
        match values.getD i none with
        | some x => zscoreExceeds x mean_val var_val threshold
        | none => false)
      let outlier_count := outlier_indices.length
      let message :=
        if outlier_count > 0 then
          "Found " ++ toString outlier_count ++ " potential outliers in \x27" ++
            col ++ "\x27 (Z-score > " ++ ratDecimalString threshold ++ ")"
        else "No outliers detected in \x27" ++ col ++ "\x27 using Z-score method"
      { test_type := "outliers_zscore"
        severity := "warning"  -- Always warning
        passed := true  -- Outliers are informational
        message := message
        details := [("column", .dStr col),
                    ("threshold", .dFrac threshold),
                    ("mean", .dFrac mean_val),
                    ("std", .dSqrt var_val),
                    ("outlier_count", .dInt outlier_count)]
        affected_rows := outlier_indices.take 1000 }

/-- `run_dataset_test` (dataset_tests.py lines 586-615): dispatch over the
registry; an unknown test type yields a failed result flagging it. -/
def run_dataset_test (ext : Ext) (test_type : String) (df : Table)
    (severity : String := "error") (params : Params := []) : DatasetTestResult :=
  if test_type = "duplicate_rows" then test_duplicate_rows df severity params
  else if test_type = "primary_key_completeness" then
    test_primary_key_completeness df severity params
  else if test_type = "primary_key_uniqueness" then
    test_primary_key_uniqueness df severity params
  else if test_type = "composite_key_uniqueness" then
    test_composite_key_uniqueness df severity params
  else if test_type = "cross_field_rule" then test_cross_field_rule ext df severity params
  else if test_type = "outliers_iqr" then test_outliers_iqr df severity params
  else if test_type = "outliers_zscore" then test_outliers_zscore df severity params
  else
    { test_type := test_type
      severity := severity
      passed := false
      message := "Unknown test type: " ++ test_type
      details := [] }

/-! ## Presets: enum value sets and regex patterns
(`src/presets/enums.py`, `src/presets/patterns.py`) -/

/-- `US_STATE_2_LETTER` (enums.py). -/
def US_STATE_2_LETTER : List String :=
  ["AK", "AL", "AR", "AZ", "CA", "CO", "CT", "DC",
   "DE", "FL", "GA", "HI", "IA", "ID", "IL", "IN",
   "KS", "KY", "LA", "MA", "MD", "ME", "MI", "MN",
   "MO", "MS", "MT", "NC", "ND", "NE", "NH", "NJ",
   "NM", "NV", "NY", "OH", "OK", "OR", "PA", "RI",
   "SC", "SD", "TN", "TX", "UT", "VA", "VT", "WA",
   "WI", "WV", "WY"]

/-- `US_STATE_FULL_NAME` (enums.py). -/
def US_STATE_FULL_NAME : List String :=
  ["ALABAMA", "ALASKA", "ARIZONA", "ARKANSAS",
   "CALIFORNIA", "COLORADO", "CONNECTICUT", "DELAWARE",
   "DISTRICT OF COLUMBIA", "FLORIDA", "GEORGIA", "HAWAII",
   "IDAHO", "ILLINOIS", "INDIANA", "IOWA",
   "KANSAS", "KENTUCKY", "LOUISIANA", "MAINE",
   "MARYLAND", "MASSACHUSETTS", "MICHIGAN", "MINNESOTA",
   "MISSISSIPPI", "MISSOURI", "MONTANA", "NEBRASKA",
   "NEVADA", "NEW HAMPSHIRE", "NEW JERSEY", "NEW MEXICO",
   "NEW YORK", "NORTH CAROLINA", "NORTH DAKOTA", "OHIO",
   "OKLAHOMA", "OREGON", "PENNSYLVANIA", "RHODE ISLAND",
   "SOUTH CAROLINA", "SOUTH DAKOTA", "TENNESSEE", "TEXAS",
   "UTAH", "VERMONT", "VIRGINIA", "WASHINGTON",
   "WEST VIRGINIA", "WISCONSIN", "WYOMING"]

/-- `COUNTRY_ISO3166_ALPHA2` (enums.py). -/
def COUNTRY_ISO3166_ALPHA2 : List String :=
  ["AD", "AE", "AF", "AG", "AI", "AL", "AM", "AO",
   "AQ", "AR", "AS", "AT", "AU", "AW", "AX", "AZ",
   "BA", "BB", "BD", "BE", "BF", "BG", "BH", "BI",
   "BJ", "BL", "BM", "BN", "BO", "BQ", "BR", "BS",
   "BT", "BV", "BW", "BY", "BZ", "CA", "CC", "CD",
   "CF", "CG", "CH", "CI", "CK", "CL", "CM", "CN",
   "CO", "CR", "CU", "CV", "CW", "CX", "CY", "CZ",
   "DE", "DJ", "DK", "DM", "DO", "DZ", "EC", "EE",
   "EG", "EH", "ER", "ES", "ET", "FI", "FJ", "FK",
   "FM", "FO", "FR", "GA", "GB", "GD", "GE", "GF",
   "GG", "GH", "GI", "GL", "GM", "GN", "GP", "GQ",
   "GR", "GS", "GT", "GU", "GW", "GY", "HK", "HM",
   "HN", "HR", "HT", "HU", "ID", "IE", "IL", "IM",
   "IN", "IO", "IQ", "IR", "IS", "IT", "JE", "JM",
   "JO", "JP", "KE", "KG", "KH", "KI", "KM", "KN",
   "KP", "KR", "KW", "KY", "KZ", "LA", "LB", "LC",
   "LI", "LK", "LR", "LS", "LT", "LU", "LV", "LY",
   "MA", "MC", "MD", "ME", "MF", "MG", "MH", "MK",
   "ML", "MM", "MN", "MO", "MP", "MQ", "MR", "MS",
   "MT", "MU", "MV", "MW", "MX", "MY", "MZ", "NA",
   "NC", "NE", "NF", "NG", "NI", "NL", "NO", "NP",
   "NR", "NU", "NZ", "OM", "PA", "PE", "PF", "PG",
   "PH", "PK", "PL", "PM", "PN", "PR", "PS", "PT",
   "PW", "PY", "QA", "RE", "RO", "RS", "RU", "RW",
   "SA", "SB", "SC", "SD", "SE", "SG", "SH", "SI",
   "SJ", "SK", "SL", "SM", "SN", "SO", "SR", "SS",
   "ST", "SV", "SX", "SY", "SZ", "TC", "TD", "TF",
   "TG", "TH", "TJ", "TK", "TL", "TM", "TN", "TO",
   "TR", "TT", "TV", "TW", "TZ", "UA", "UG", "UM",
   "US", "UY", "UZ", "VA", "VC", "VE", "VG", "VI",
   "VN", "VU", "WF", "WS", "YE", "YT", "ZA", "ZM",
   "ZW"]

/-- `UOM_ANSI_PACKAGING` (enums.py). -/
def UOM_ANSI_PACKAGING : List String :=
  ["AM", "BG", "BT", "BX", "CN", "CS", "CT", "DR",
   "DV", "EA", "FT", "IN", "JR", "KG", "KT", "LB",
   "PK", "PL", "RL", "SK", "SY", "TN", "TR", "TU",
   "VL", "YD"]

/-- `UOM_ANSI_X12` (enums.py). -/
def UOM_ANSI_X12 : List String :=
  ["AM", "BG", "BT", "BX", "CN", "CS", "CT", "DA",
   "DR", "DV", "DZ", "EA", "FT", "GL", "GR", "HR",
   "IN", "JR", "KG", "KT", "LB", "LT", "MG", "ML",
   "MO", "OZ", "PK", "PL", "PR", "PT", "QT", "RL",
   "SET", "SF", "SK", "SY", "TN", "TR", "TU", "VL",
   "WK", "YD", "YR"]

/-- `ENUM_PRESETS` (enums.py): preset name to allowed-value set (sets are
represented as sorted lists; only membership is consumed). -/
def ENUM_PRESETS : List (String × List String) :=
  [("us_state_2_letter", US_STATE_2_LETTER),
   ("us_state_full_name", US_STATE_FULL_NAME),
   ("us_state_code_or_name", US_STATE_2_LETTER ++ US_STATE_FULL_NAME),
   ("country_iso3166_alpha2", COUNTRY_ISO3166_ALPHA2),
   ("uom_ansi_packaging", UOM_ANSI_PACKAGING),
   ("uom_ansi_x12", UOM_ANSI_X12)]

/-- `REGEX_PRESETS` patterns (patterns.py lines 14-80), name to regex
string (descriptions/examples omitted: unread by the engine). -/
def REGEX_PRESETS : List (String × String) :=
 [ ("email",
   "^[a-zA-Z0-9._%+-]+@[a-zA-Z0-9.-]+\\.[a-zA-Z]\x7b2,\x7d$"),
   ("phone_us",
   "^(\\+1[-.\\s]?)?(\\(?\\d\x7b3\x7d\\)?[-.\\s]?)?\\d\x7b3\x7d[-.\\s]?\\d\x7b4\x7d$"),
   ("zip_us_5",
   "^\\d\x7b5\x7d$"),
   ("zip_us_9",
   "^\\d\x7b5\x7d(-\\d\x7b4\x7d)?$"),
   ("url",
   "^https?://[^\\s/$.?#].[^\\s]*$"),
   ("uuid",
   "^[0-9a-fA-F]\x7b8\x7d-[0-9a-fA-F]\x7b4\x7d-[0-9a-fA-F]\x7b4\x7d-[0-9a-fA-F]\x7b4\x7d-[0-9a-fA-F]\x7b12\x7d$"),
   ("ipv4",
   "^((25[0-5]|2[0-4][0-9]|[01]?[0-9][0-9]?)\\.)\x7b3\x7d(25[0-5]|2[0-4][0-9]|[01]?[0-9][0-9]?)$"),
   ("ipv6",
   "^(([0-9a-fA-F]\x7b1,4\x7d:)\x7b7\x7d[0-9a-fA-F]\x7b1,4\x7d|([0-9a-fA-F]\x7b1,4\x7d:)\x7b1,7\x7d:|([0-9a-fA-F]\x7b1,4\x7d:)\x7b1,6\x7d:[0-9a-fA-F]\x7b1,4\x7d|([0-9a-fA-F]\x7b1,4\x7d:)\x7b1,5\x7d(:[0-9a-fA-F]\x7b1,4\x7d)\x7b1,2\x7d|([0-9a-fA-F]\x7b1,4\x7d:)\x7b1,4\x7d(:[0-9a-fA-F]\x7b1,4\x7d)\x7b1,3\x7d|([0-9a-fA-F]\x7b1,4\x7d:)\x7b1,3\x7d(:[0-9a-fA-F]\x7b1,4\x7d)\x7b1,4\x7d|([0-9a-fA-F]\x7b1,4\x7d:)\x7b1,2\x7d(:[0-9a-fA-F]\x7b1,4\x7d)\x7b1,5\x7d|[0-9a-fA-F]\x7b1,4\x7d:((:[0-9a-fA-F]\x7b1,4\x7d)\x7b1,6\x7d)|:((:[0-9a-fA-F]\x7b1,4\x7d)\x7b1,7\x7d|:)|fe80:(:[0-9a-fA-F]\x7b0,4\x7d)\x7b0,4\x7d%[0-9a-zA-Z]+|::(ffff(:0\x7b1,4\x7d)?:)?((25[0-5]|(2[0-4]|1?[0-9])?[0-9])\\.)\x7b3\x7d(25[0-5]|(2[0-4]|1?[0-9])?[0-9])|([0-9a-fA-F]\x7b1,4\x7d:)\x7b1,4\x7d:((25[0-5]|(2[0-4]|1?[0-9])?[0-9])\\.)\x7b3\x7d(25[0-5]|(2[0-4]|1?[0-9])?[0-9]))$"),
   ("numeric_only",
   "^\\d+$"),
   ("alphanumeric_only",
   "^[a-zA-Z0-9]+$"),
   ("letters_only",
   "^[a-zA-Z]+$")]

/-- `get_enum_preset` (enums.py lines 153-163). -/
def get_enum_preset (preset_name : String) : Option (List String) :=
  (ENUM_PRESETS.find? (fun p => p.1 = preset_name)).map (·.2)

/-- `validate_with_custom_enum` (enums.py lines 192-214). -/
def validate_with_custom_enum (value : String) (allowed_values : List String)
    (case_insensitive : Bool := true) : Bool :=
  if case_insensitive then
    (allowed_values.map (fun v => pyStrip (pyUpper v))).contains (pyStrip (pyUpper value))
  else
    (allowed_values.map (fun v => pyStrip v)).contains (pyStrip value)

/-- `get_preset_pattern` (patterns.py lines 114-127). -/
def get_preset_pattern (preset_name : String) : Option String :=
  (REGEX_PRESETS.find? (fun p => p.1 = preset_name)).map (·.2)

/-- `validate_with_custom_pattern` (patterns.py lines 202-217):
`bool(re.compile(pattern_str).match(value))`, compile errors folded to
`False` — routed through the regex oracle. -/
def validate_with_custom_pattern (ext : Ext) (value : String) (pattern_str : String) : Bool :=
  ext.reMatch pattern_str value

/-- Python `re.escape`: ASCII letters, digits and underscore pass through,
everything else is backslash-escaped. -/
def pyReEscape (s : String) : String :=
  ⟨s.data.foldl (fun acc c =>
    if c.isAlphanum ∨ c = '_' then acc ++ [c] else acc ++ ['\\', c]) []⟩

/-- `build_pattern_from_builder` (patterns.py lines 284-350). -/
def build_pattern_from_builder (allowed_characters : Option (List String) := none)
    (length_exact length_min length_max : Option ℤ := none)
    (starts_with ends_with : Option String := none) : String :=
  let char_class_parts := (allowed_characters.getD []).foldl (fun acc char_type =>
    if char_type = "digits" then acc ++ ["0-9"]
    else if char_type = "letters" then acc ++ ["a-zA-Z"]
    else if char_type = "alphanumeric" then acc ++ ["a-zA-Z0-9"]
    else if char_type = "uppercase" then acc ++ ["A-Z"]
    else if char_type = "lowercase" then acc ++ ["a-z"]
    else acc) []
  let char_class :=
    if ¬ char_class_parts.isEmpty then "[" ++ String.join char_class_parts ++ "]"
    else "."
  let quantifier :=
    match length_exact, length_min, length_max with
    | some e, _, _ => "\x7b" ++ toString e ++ "\x7d"
    | none, some lo, some hi => "\x7b" ++ toString lo ++ "," ++ toString hi ++ "\x7d"
    | none, some lo, none => "\x7b" ++ toString lo ++ ",\x7d"
    | none, none, some hi => "\x7b0," ++ toString hi ++ "\x7d"
    | none, none, none => "*"
  let main_pattern := char_class ++ quantifier
  "^" ++ (match starts_with with
    | some p => if p.isEmpty then "" else pyReEscape p
    | none => "") ++
    main_pattern ++
    (match ends_with with
     | some p => if p.isEmpty then "" else pyReEscape p
     | none => "") ++ "$"

/-! ## Remaining column tests (`src/validation/column_tests.py`) -/

/-- `params.get(key)` integer view. -/
def pgetInt (ps : Params) (key : String) : Option ℤ :=
  match pget ps key with
  | some (.pInt n) => n
  | _ => none

/-- Render a numeric parameter for a detail message. -/
def renderNumParam (ps : Params) (key : String) : String :=
  match pget ps key with
  | some (.pInt n) => toString n
  | some (.pFrac q) => ratDecimalString q
  | _ => ""

/-- `test_not_null` (column_tests.py lines 30-62). -/
def test_not_null (series : Series) (column_name : String)
    (severity : String := "error") (_params : Params := []) : ColumnTestResult :=
  let failed_indices := maskIndices (series.map pdIsna)
  let failed_count := failed_indices.length
  { column_name := column_name
    test_type := "not_null"
    severity := severity
    passed := failed_count = 0
    total_values := series.length
    failed_count := failed_count
    failed_indices := failed_indices.take 100
    failed_values := List.replicate (min failed_count 100) .vNull
    error_details := (failed_indices.take 10).map
      (fun i => "Row " ++ toString i ++ ": value is null") }

/-- `_check_type_conformance` (column_tests.py lines 115-159). -/
def checkTypeConformance (ext : Ext) (value : PdValue) (data_type : String) : Bool :=
  let str_value := pyStrip (pyStr value)
  if data_type = "string" then true
  else if data_type = "integer" then (pyInt (pyReplace str_value "," "")).isSome
  else if data_type = "float" then
    (pyFloat (pyReplace (pyReplace str_value "," "") "$" "")).isSome
  else if data_type = "boolean" then
    BOOLEAN_TRUE_TOKENS.contains (pyLower str_value) ∨
      BOOLEAN_FALSE_TOKENS.contains (pyLower str_value)
  else if data_type = "date" ∨ data_type = "timestamp" then
    (ext.toDatetime (.vStr str_value)).isSome
  else true

/-- `test_type_conformance` (column_tests.py lines 65-112). -/
def test_type_conformance (ext : Ext) (series : Series) (column_name : String)
    (data_type : String) (severity : String := "error") (_params : Params := []) :
    ColumnTestResult :=
  let acc := (seriesItems series).foldl (fun (acc : FailAcc) p =>
    if pdIsna p.2 then acc
    else if checkTypeConformance ext p.2 data_type then acc
    else acc.push p.1 p.2 ("Row " ++ toString p.1 ++ ": \x27" ++ pyStr p.2 ++
      "\x27 is not a valid " ++ data_type)) {}
  finishColumnTest column_name "type_conformance" severity series.length acc

/-- `test_range` (column_tests.py lines 162-226): strips `,`, `$`, `%`
before parsing; unparsable values are skipped. -/
def test_range (series : Series) (column_name : String)
    (severity : String := "error") (params : Params := []) : ColumnTestResult :=
  let min_val := pgetNum params "min"
  let max_val := pgetNum params "max"
  let acc := (seriesItems series).foldl (fun (acc : FailAcc) p =>
    if pdIsna p.2 then acc
    else
      let clean := pyReplace (pyReplace (pyReplace (pyStr p.2) "," "") "$" "") "%" ""
      match pyFloat clean with
      | none => acc  -- not a valid number: skipped (type_conformance reports it)
      | some num =>
          match min_val with
          | some lo =>
              if num.blt lo then
                acc.push p.1 p.2 ("Row " ++ toString p.1 ++ ": " ++ pyStr p.2 ++
                  " is below minimum " ++ renderNumParam params "min")
              else
                match max_val with
                | some hi =>
                    if hi.blt num then
                      acc.push p.1 p.2 ("Row " ++ toString p.1 ++ ": " ++ pyStr p.2 ++
                        " is above maximum " ++ renderNumParam params "max")
                    else acc
                | none => acc
          | none =>
              match max_val with
              | some hi =>
                  if hi.blt num then
                    acc.push p.1 p.2 ("Row " ++ toString p.1 ++ ": " ++ pyStr p.2 ++
                      " is above maximum " ++ renderNumParam params "max")
                  else acc
              | none => acc) {}
  finishColumnTest column_name "range" severity series.length acc

/-- `test_length` (column_tests.py lines 229-286). -/
def test_length (series : Series) (column_name : String)
    (severity : String := "error") (params : Params := []) : ColumnTestResult :=
  let min_len := pgetInt params "min"
  let max_len := pgetInt params "max"
  let acc := (seriesItems series).foldl (fun (acc : FailAcc) p =>
    if pdIsna p.2 then acc
    else
      let str_len : ℤ := (pyStr p.2).data.length
      match min_len with
      | some lo =>
          if str_len < lo then
            acc.push p.1 p.2 ("Row " ++ toString p.1 ++ ": length " ++ toString str_len ++
              " is below minimum " ++ toString lo)
          else
            match max_len with
            | some hi =>
                if str_len > hi then
                  acc.push p.1 p.2 ("Row " ++ toString p.1 ++ ": length " ++
                    toString str_len ++ " is above maximum " ++ toString hi)
                else acc
            | none => acc
      | none =>
          match max_len with
          | some hi =>
              if str_len > hi then
                acc.push p.1 p.2 ("Row " ++ toString p.1 ++ ": length " ++
                  toString str_len ++ " is above maximum " ++ toString hi)
              else acc
          | none => acc) {}
  finishColumnTest column_name "length" severity series.length acc

/-- `test_enum` (column_tests.py lines 289-351). -/
def test_enum (series : Series) (column_name : String)
    (severity : String := "error") (params : Params := []) : ColumnTestResult :=
  let allowed_values := pgetStrListD params "allowed_values" []
  let preset := pgetStr params "preset"
  let case_insensitive := pgetBoolD params "case_insensitive" true
  let allowed_values :=
    if ¬ strFalsy preset then
      match get_enum_preset (preset.getD "") with
      | some l => if ¬ l.isEmpty then l else allowed_values
      | none => allowed_values
    else allowed_values
  let acc := (seriesItems series).foldl (fun (acc : FailAcc) p =>
    if pdIsna p.2 then acc
    else if validate_with_custom_enum (pyStr p.2) allowed_values case_insensitive then acc
    else acc.push p.1 p.2 ("Row " ++ toString p.1 ++ ": \x27" ++ pyStr p.2 ++
      "\x27 is not in allowed values")) {}
  finishColumnTest column_name "enum" severity series.length acc

/-- `test_uniqueness` (column_tests.py lines 354-402): every occurrence of a
duplicated value is reported (`duplicated(keep=False)`). -/
def test_uniqueness (series : Series) (column_name : String)
    (severity : String := "error") (params : Params := []) : ColumnTestResult :=
  let allow_nulls := pgetBoolD params "allow_nulls" true
  let check_series := if allow_nulls then seriesDropnaIdx series else seriesItems series
  let vals := check_series.map (·.2)
  let dup := check_series.filter (fun p =>
    (vals.filter (fun w => pdHashEq w p.2)).length ≥ 2)
  let failed_indices := dup.map (·.1)
  let failed_values := dup.map (·.2)
  let unique_duplicates := (pySetDedup failed_values).take 10
  { column_name := column_name
    test_type := "uniqueness"
    severity := severity
    passed := failed_indices.length = 0
    total_values := series.length
    failed_count := failed_indices.length
    failed_indices := failed_indices.take 100
    failed_values := failed_values.take 100
    error_details := unique_duplicates.map (fun v =>
      "Value \x27" ++ pyStr v ++ "\x27 appears multiple times") }

/-- `test_cardinality_warning` (column_tests.py lines 495-551): always
reported at severity `"warning"`; the all-unique heuristic does not set
`passed = False`. -/
def test_cardinality_warning (series : Series) (column_name : String)
    (_severity : String := "warning") (params : Params := []) : ColumnTestResult :=
  let min_cardinality := pgetIntD params "min" 1
  let max_cardinality := pgetInt params "max"
  let nonNull := seriesDropna series
  let cardinality : ℤ := (pySetDedup nonNull).length
  let total_count : ℤ := nonNull.length
  let (passed, warning_message) :=
    if cardinality < min_cardinality then
      (false, some ("Low cardinality: " ++ toString cardinality ++
        " unique values (minimum expected: " ++ toString min_cardinality ++ ")"))
    else
      match max_cardinality with
      | some hi =>
          if cardinality > hi then
            (false, some ("High cardinality: " ++ toString cardinality ++
              " unique values (maximum expected: " ++ toString hi ++ ")"))
          else if cardinality = total_count ∧ total_count > 10 then
            (true, some ("All " ++ toString cardinality ++
              " values are unique - this may be an ID column or free text"))
          else (true, none)
      | none =>
          if cardinality = total_count ∧ total_count > 10 then
            (true, some ("All " ++ toString cardinality ++
              " values are unique - this may be an ID column or free text"))
          else (true, none)
  { column_name := column_name
    test_type := "cardinality_warning"
    severity := "warning"  -- Always warning
    passed := passed
    total_values := series.length
    failed_count := if passed then 0 else 1
    warning_message := warning_message }

/-- `test_pattern` (column_tests.py lines 554-631). -/
def test_pattern (ext : Ext) (series : Series) (column_name : String)
    (severity : String := "error") (params : Params := []) : ColumnTestResult :=
  let tier := pgetStrD params "tier" "preset"
  let pattern : Option String :=
    if tier = "preset" then
      let preset_name := pgetStr params "preset_name"
      if strFalsy preset_name then none else get_preset_pattern (preset_name.getD "")
    else if tier = "builder" then
      let builder := pgetDictD params "builder"
      let length := pgetDictD builder "length"
      some (build_pattern_from_builder
        (match pget builder "allowed_characters" with
         | some (.pStrList l) => some l
         | _ => none)
        (pgetInt length "exact") (pgetInt length "min") (pgetInt length "max")
        (pgetStr builder "starts_with") (pgetStr builder "ends_with"))
    else pgetStr params "pattern"
  if strFalsy pattern then
    { column_name := column_name
      test_type := "pattern"
      severity := severity
      passed := false
      total_values := series.length
      failed_count := 0
      warning_message := some "No pattern specified" }
  else
    let pat := pattern.getD ""
    let acc := (seriesItems series).foldl (fun (acc : FailAcc) p =>
      if pdIsna p.2 then acc
      else if validate_with_custom_pattern ext (pyStr p.2) pat then acc
      else acc.push p.1 p.2 ("Row " ++ toString p.1 ++ ": \x27" ++ pyStr p.2 ++
        "\x27 does not match pattern")) {}
    finishColumnTest column_name "pattern" severity series.length acc

/-- `test_date_rule` (column_tests.py lines 634-694). -/
def test_date_rule (series : Series) (column_name : String)
    (severity : String := "error") (params : Params := []) : ColumnTestResult :=
  let target_format := pgetStrD params "target_format" "YYYY-MM-DD"
  let mode := pgetStrD params "mode" "simple"
  let accepted_formats := pgetStrListD params "accepted_input_formats" [target_format]
  let excel_serial := pgetBoolD params "excel_serial_enabled" false
  let accepted_formats := if mode = "simple" then [target_format] else accepted_formats
  let acc := (seriesItems series).foldl (fun (acc : FailAcc) p =>
    if pdIsna p.2 then acc
    else
      match (try_parse_date_robust (pyStr p.2) accepted_formats excel_serial).1 with
      | some _ => acc
      | none => acc.push p.1 p.2 ("Row " ++ toString p.1 ++ ": \x27" ++ pyStr p.2 ++
          "\x27 is not a valid date")) {}
  finishColumnTest column_name "date_rule" severity series.length acc

/-- `test_date_window` (column_tests.py lines 697-762).  A malformed
`min_date`/`max_date` bound raises unguarded in the source (outside the
modelled domain); here an unparseable bound behaves as absent. -/
def test_date_window (ext : Ext) (series : Series) (column_name : String)
    (severity : String := "error") (params : Params := []) : ColumnTestResult :=
  let min_date_str := pgetStr params "min_date"
  let max_date_str := pgetStr params "max_date"
  let min_date :=
    if strFalsy min_date_str then none else ext.toDatetime (.vStr (min_date_str.getD ""))
  let max_date :=
    if strFalsy max_date_str then none else ext.toDatetime (.vStr (max_date_str.getD ""))
  let tup := fun (a : TimeAcc) => (a.y, a.m, a.d, a.hh, a.mi, a.ss)
  let acc := (seriesItems series).foldl (fun (acc : FailAcc) p =>
    if pdIsna p.2 then acc
    else
      match ext.toDatetime p.2 with
      | none => acc  -- invalid date: skipped (date_rule reports it)
      | some dv =>
          match min_date with
          | some lo =>
              if dateLt (tup dv) (tup lo) then
                acc.push p.1 p.2 ("Row " ++ toString p.1 ++ ": " ++ pyStr p.2 ++
                  " is before minimum date " ++ (min_date_str.getD ""))
              else
                match max_date with
                | some hi =>
                    if dateLt (tup hi) (tup dv) then
                      acc.push p.1 p.2 ("Row " ++ toString p.1 ++ ": " ++ pyStr p.2 ++
                        " is after maximum date " ++ (max_date_str.getD ""))
                    else acc
                | none => acc
          | none =>
              match max_date with
              | some hi =>
                  if dateLt (tup hi) (tup dv) then
                    acc.push p.1 p.2 ("Row " ++ toString p.1 ++ ": " ++ pyStr p.2 ++
                      " is after maximum date " ++ (max_date_str.getD ""))
                  else acc
              | none => acc) {}
  finishColumnTest column_name "date_window" severity series.length acc

/-- `run_column_test` (column_tests.py lines 781-821): dispatch over the
registry; an unknown test type yields a failed result flagging it. -/
def run_column_test (ext : Ext) (test_type : String) (series : Series)
    (column_name : String) (data_type : String := "string")
    (severity : String := "error") (params : Params := []) : ColumnTestResult :=
  if test_type = "not_null" then test_not_null series column_name severity params
  else if test_type = "type_conformance" then
    test_type_conformance ext series column_name data_type severity params
  else if test_type = "range" then test_range series column_name severity params
  else if test_type = "length" then test_length series column_name severity params
  else if test_type = "enum" then test_enum series column_name severity params
  else if test_type = "uniqueness" then test_uniqueness series column_name severity params
  else if test_type = "monotonic" then test_monotonic series column_name severity params
  else if test_type = "cardinality_warning" then
    test_cardinality_warning series column_name severity params
  else if test_type = "pattern" then test_pattern ext series column_name severity params
  else if test_type = "date_rule" then test_date_rule series column_name severity params
  else if test_type = "date_window" then
    test_date_window ext series column_name severity params
  else
    { column_name := column_name
      test_type := test_type
      severity := severity
      passed := false
      total_values := series.length
      failed_count := 0
      warning_message := some ("Unknown test type: " ++ test_type) }

/-! ## Validation orchestrator (`src/validation/engine.py`) -/

/-- `_apply_normalizations` (engine.py lines 198-259), on a working copy:
trim (string instances only), strip non-printables (string instances only),
null-token substitution (on the `str()` form of every value, nulls
included), then case folding of non-null values. -/
def applyNormalizations (df : Table) (contract : Contract) : Table :=
  contract.columns.foldl (fun result_df col_config =>
    if ¬ tableHasCol result_df col_config.name then result_df
    else
      match col_config.normalization with
      | none => result_df
      | some norm =>
          let series := (tableGet result_df col_config.name).getD []
          let series :=
            if norm.trim_whitespace then
              series.map (fun x =>
                match x with
                | .vStr s => .vStr (pyStrip s)
                | x => x)
            else series
          let series :=
            if norm.remove_non_printable then
              series.map (fun x =>
                match x with
                | .vStr s => .vStr (filterPrintable s)
                | x => x)
            else series
          let series :=
            if ¬ norm.null_tokens.isEmpty then
              series.map (fun x =>
                if norm.null_tokens.contains (pyStr x) then .vNull else x)
            else series
          let series :=
            if ¬ norm.case.isEmpty ∧ norm.case ≠ "none" then
              if norm.case = "lower" then
                series.map (fun x => if ¬ pdIsna x then .vStr (pyLower (pyStr x)) else x)
              else if norm.case = "upper" then
                series.map (fun x => if ¬ pdIsna x then .vStr (pyUpper (pyStr x)) else x)
              else if norm.case = "title" then
                series.map (fun x => if ¬ pdIsna x then .vStr (pyTitle (pyStr x)) else x)
              else series
            else series
          tableSet result_df col_config.name series) df

/-- `_validate_column` (engine.py lines 274-356). -/
def validateColumn (ext : Ext) (series : Series) (col_config : ColumnConfig) :
    ColumnValidationResult × List CellValidationResult :=
  let test_results := col_config.tests.map (fun t =>
    run_column_test ext t.type series col_config.name col_config.data_type
      t.severity t.params)
  let cell_errors := (col_config.tests.zip test_results).foldl (fun acc tr =>
    let (t, r) := tr
    if ¬ r.passed then
      acc ++ (List.range r.failed_indices.length).map (fun i =>
        ({ row_index := r.failed_indices.getD i 0
           column_name := col_config.name
           original_value := r.failed_values.getD i .vNull
           is_valid := false
           test_type := t.type
           error_message := r.error_details.getD i ""
           severity := t.severity } : CellValidationResult))
    else acc) []
  let passed_tests := (test_results.filter (·.passed)).length
  let failed_tests := (test_results.filter (fun r => ¬ r.passed)).length
  let warning_count :=
    (test_results.filter (fun r => ¬ r.passed ∧ r.severity = "warning")).length
  let error_count :=
    (test_results.filter (fun r => ¬ r.passed ∧ r.severity = "error")).length
  let overall_status :=
    if error_count > 0 then "FAIL" else if warning_count > 0 then "WARNING" else "PASS"
  ({ column_name := col_config.name
     data_type := col_config.data_type
     is_valid := error_count = 0
     total_tests := test_results.length
     passed_tests := passed_tests
     failed_tests := failed_tests
     warning_count := warning_count
     test_results := test_results
     overall_status := overall_status }, cell_errors)

/-- The blocking-error strings one column's failed tests contribute
(engine.py lines 85-92): one message per failed error-severity test, and
only when the column *default* failure-handling action is `strict_fail` —
per-test `on_fail` overrides are not consulted here. -/
def columnStrictFailMsgs (col_config : ColumnConfig)
    (test_results : List ColumnTestResult) : List String :=
  test_results.foldl (fun acc r =>
    if ¬ r.passed ∧ r.severity = "error" then
      if col_config.failure_handling.action = "strict_fail" then
        acc ++ ["Column \x27" ++ col_config.name ++ "\x27 test \x27" ++ r.test_type ++
          "\x27 has strict_fail policy"]
      else acc
    else acc) []

/-- `_get_column_config` (engine.py lines 359-367). -/
def getColumnConfig (contract : Contract) (column_name : String) :
    Option ColumnConfig :=
  contract.columns.find? (fun c => c.name = column_name)

/-- The dataset-test accumulation step of `calculate_summary` (results.py
lines 165-174): `(passed, failed, warnings, errors)` counters. -/
def dtTotalsStep (acc : ℕ × ℕ × ℕ × ℕ) (r : DatasetTestResult) : ℕ × ℕ × ℕ × ℕ :=
  if r.passed then (acc.1 + 1, acc.2.1, acc.2.2.1, acc.2.2.2)
  else if r.severity = "warning" then (acc.1, acc.2.1 + 1, acc.2.2.1 + 1, acc.2.2.2)
  else (acc.1, acc.2.1 + 1, acc.2.2.1, acc.2.2.2 + 1)

/-- Dataset-test counters of `calculate_summary`. -/
def dtTotals (l : List DatasetTestResult) : ℕ × ℕ × ℕ × ℕ :=
  l.foldl dtTotalsStep (0, 0, 0, 0)

/-- `calculate_summary` (results.py lines 129-215). -/
def calculate_summary (column_results : List (String × ColumnValidationResult))
    (dataset_test_results : List DatasetTestResult)
    (fk_check_results : List ForeignKeyCheckResult)
    (cell_errors : List CellValidationResult)
    (row_count column_count : ℕ) : ValidationSummary :=
  let colTotals := column_results.foldl (fun acc p =>
    (acc.1 + p.2.total_tests, acc.2.1 + p.2.passed_tests,
     acc.2.2.1 + p.2.failed_tests, acc.2.2.2 + p.2.warning_count)) (0, 0, 0, 0)
  let (total_tests, passed_tests, failed_tests, warnings) := colTotals
  let dtT := dtTotals dataset_test_results
  let total_tests := total_tests + dataset_test_results.length
  let passed_tests := passed_tests + dtT.1
  let failed_tests := failed_tests + dtT.2.1
  let warnings := warnings + dtT.2.2.1
  let errors := dtT.2.2.2
  let fkPassed := (fk_check_results.filter (·.passed)).length
  let total_tests := total_tests + fk_check_results.length
  let passed_tests := passed_tests + fkPassed
  let failed_tests := failed_tests + (fk_check_results.length - fkPassed)
  let errors := errors + (fk_check_results.length - fkPassed)
  let cellErrorRows := sortedDedupNat ((cell_errors.filter
    (fun ce => ce.severity = "error")).map (·.row_index))
  let errors := errors + (cell_errors.filter (fun ce => ce.severity = "error")).length
  let warnings := warnings + (cell_errors.filter (fun ce => ce.severity ≠ "error")).length
  let rows_with_errors := cellErrorRows.length
  let clean_rows : ℤ := (row_count : ℤ) - (rows_with_errors : ℤ)
  let error_rate : Frac :=
    if row_count > 0 then
      ((⟨(rows_with_errors : ℤ), (row_count : ℤ)⟩ : Frac)).mul (Frac.ofInt 100)
    else Frac.ofInt 0
  { total_rows := row_count
    total_columns := column_count
    total_tests_run := total_tests
    total_tests_passed := passed_tests
    total_tests_failed := failed_tests
    total_warnings := warnings
    total_errors := errors
    rows_with_errors := rows_with_errors
    clean_rows := clean_rows
    error_rate_percent := round2 error_rate
    has_blocking_errors := errors > 0 }

/-- The column-stage loop of `run_validation` (engine.py lines 67-92):
accumulates column results, cell errors and blocking errors. -/
def runColumnStage (ext : Ext) (processed_df : Table) (columns : List ColumnConfig) :
    List (String × ColumnValidationResult) × List CellValidationResult × List String :=
  columns.foldl (fun acc col_config =>
    let (column_results, cell_errors, blocking_errors) := acc
    if ¬ tableHasCol processed_df col_config.name then
      (column_results, cell_errors, blocking_errors ++
        ["Column \x27" ++ col_config.name ++ "\x27 not found in dataset"])
    else
      let series := (tableGet processed_df col_config.name).getD []
      let (col_result, col_cell_errors) := validateColumn ext series col_config
      (column_results ++ [(col_config.name, col_result)],
       cell_errors ++ col_cell_errors,
       blocking_errors ++ columnStrictFailMsgs col_config col_result.test_results))
    (([], [], []) :
      List (String × ColumnValidationResult) × List CellValidationResult × List String)

/-- One step of the dataset-test loop of `run_validation` (engine.py lines
94-110). -/
def dtStageStep (ext : Ext) (processed_df : Table)
    (acc : List DatasetTestResult × List String) (dt_test : DatasetTest) :
    List DatasetTestResult × List String :=
  let (results, blocking) := acc
  let dt_result := run_dataset_test ext dt_test.type processed_df
    dt_test.severity dt_test.params
  let blocking :=
    if ¬ dt_result.passed ∧ dt_test.severity = "error" then
      match dt_test.on_fail with
      | some fh =>
          if fh.action = "strict_fail" then
            blocking ++ ["Dataset test \x27" ++ dt_test.type ++
              "\x27 has strict_fail policy"]
          else blocking
      | none => blocking
    else blocking
  (results ++ [dt_result], blocking)

/-- The dataset-test loop of `run_validation`. -/
def runDatasetStage (ext : Ext) (processed_df : Table) (blocking0 : List String)
    (tests : List DatasetTest) : List DatasetTestResult × List String :=
  tests.foldl (dtStageStep ext processed_df) ([], blocking0)

/-- One step of the foreign-key loop of `run_validation` (engine.py lines
112-172). -/
def fkStageStep (contract : Contract) (processed_df : Table)
    (fk_dataframe : Option Table)
    (acc : List ForeignKeyCheckResult × List String) (fk_check : ForeignKeyCheck) :
    List ForeignKeyCheckResult × List String :=
  let (results, blocking) := acc
  match fk_dataframe with
  | none =>
      (results ++ [({ name := fk_check.name
                      dataset_column := fk_check.dataset_column
                      fk_column := fk_check.fk_column
                      passed := false
                      total_values := 0
                      missing_count := 0 } : ForeignKeyCheckResult)],
       blocking ++ ["FK check \x27" ++ fk_check.name ++
         "\x27 failed: no FK file provided"])
  | some fkdf =>
      if ¬ tableHasCol processed_df fk_check.dataset_column then
        (results, blocking ++ ["FK check \x27" ++ fk_check.name ++ "\x27: column \x27" ++
          fk_check.dataset_column ++ "\x27 not found in dataset"])
      else if ¬ tableHasCol fkdf fk_check.fk_column then
        (results, blocking ++ ["FK check \x27" ++ fk_check.name ++ "\x27: column \x27" ++
          fk_check.fk_column ++ "\x27 not found in FK file"])
      else
        let norm_func : Option (PdValue → PdValue) :=
          match getColumnConfig contract fk_check.dataset_column with
          | some col_config =>
              match col_config.normalization with
              | some n => some (create_normalization_function
                  n.trim_whitespace n.case (some n.null_tokens))
              | none => none
          | none => none
        let fk_result := validate_foreign_key
          ((tableGet processed_df fk_check.dataset_column).getD [])
          ((tableGet fkdf fk_check.fk_column).getD [])
          fk_check.name fk_check.dataset_column fk_check.fk_column
          fk_check.null_policy.allow_nulls norm_func
        let blocking :=
          if ¬ fk_result.passed ∧ fk_check.on_fail.action = "strict_fail" then
            blocking ++ ["FK check \x27" ++ fk_check.name ++
              "\x27 has strict_fail policy"]
          else blocking
        (results ++ [fk_result], blocking)

/-- The foreign-key loop of `run_validation`. -/
def runFkStage (contract : Contract) (processed_df : Table)
    (fk_dataframe : Option Table) (blocking0 : List String)
    (checks : List ForeignKeyCheck) : List ForeignKeyCheckResult × List String :=
  checks.foldl (fkStageStep contract processed_df fk_dataframe) ([], blocking0)

/-- `run_validation` (engine.py lines 42-195). -/
def run_validation (ext : Ext) (df : Table) (contract : Contract)
    (fk_dataframe : Option Table := none) : ValidationResult :=
  let processed_df := applyNormalizations df contract
  let colStage := runColumnStage ext processed_df contract.columns
  let (column_results, cell_errors, blocking_errors) := colStage
  let dtStage := runDatasetStage ext processed_df blocking_errors contract.dataset_tests
  let (dataset_test_results, blocking_errors) := dtStage
  let fkStage := runFkStage contract processed_df fk_dataframe blocking_errors
    contract.foreign_key_checks
  let (fk_check_results, blocking_errors) := fkStage
  let summary := calculate_summary column_results dataset_test_results
    fk_check_results cell_errors (tableRows df) df.length
  let is_valid := blocking_errors.length = 0 ∧ summary.total_errors = 0
  { is_valid := is_valid
    summary := summary
    column_results := column_results
    dataset_test_results := dataset_test_results
    fk_check_results := fk_check_results
    cell_errors := cell_errors
    blocking_errors := blocking_errors }

/-! ## Failure-handling resolution (`src/remediation/engine.py` lines
100-181) -/

/-- The action resolved for one cell error (engine.py lines 128-140): the
column default, overridden by the first test of the matching type that
carries an `on_fail`; `none` when the column is not in the contract. -/
def resolveFailureAction (contract : Contract) (ce : CellValidationResult) :
    Option String :=
  match getColumnConfig contract ce.column_name with
  | none => none
  | some col_config =>
      match col_config.tests.find? (fun t =>
          t.type = ce.test_type ∧ t.on_fail.isSome) with
      | some t => some ((t.on_fail.getD {}).action)
      | none => some col_config.failure_handling.action

/-- Set one cell to null (`result_df.at[idx, col] = None`). -/
def tableSetCellNull (df : Table) (idx : ℕ) (col : String) : Table :=
  df.map (fun p =>
    if p.1 = col then (p.1, p.2.mapIdx (fun i v => if i = idx then .vNull else v))
    else p)

/-- `apply_failure_handling` (engine.py lines 100-181): returns the cleaned
frame, the quarantine frame, and the named quarantine frames. -/
def apply_failure_handling (df : Table) (contract : Contract)
    (validation_result : ValidationResult) :
    Table × Table × List (String × Table) :=
  let resolved := validation_result.cell_errors.filterMap (fun ce =>
    (resolveFailureAction contract ce).map (fun a =>
      (ce.row_index, ce.column_name, a)))
  let result_df := resolved.foldl (fun rdf e =>
    if e.2.2 = "set_null" then tableSetCellNull rdf e.1 e.2.1 else rdf) df
  let drop_rows := (resolved.filter (fun e => e.2.2 = "drop_row")).map (·.1)
  let quarantine_rows := (resolved.filter (fun e => e.2.2 = "quarantine_row")).map (·.1)
  let named_quarantines : List (String × List ℕ) :=
    (resolved.filter (fun e => e.2.2 = "quarantine_row")).foldl (fun acc e =>
      match getColumnConfig contract e.2.1 with
      | some col_config =>
          match col_config.failure_handling.quarantine_export_name with
          | some q_name =>
              if q_name.isEmpty then acc
              else
                match acc.find? (fun p => p.1 = q_name) with
                | some _ => acc.map (fun p =>
                    if p.1 = q_name then (p.1, p.2 ++ [e.1]) else p)
                | none => acc ++ [(q_name, [e.1])]
          | none => acc
      | none => acc) []
  let n := tableRows df
  let quarantine_df := tableFilterRows df
    ((List.range n).map (fun i => quarantine_rows.contains i))
  let named_quarantine_dfs := named_quarantines.map (fun p =>
    (p.1, tableFilterRows df ((List.range n).map (fun i => p.2.contains i))))
  let rows_to_remove := drop_rows ++ quarantine_rows
  let result_df := tableFilterRows result_df
    ((List.range n).map (fun i => ¬ rows_to_remove.contains i))
  (result_df, quarantine_df, named_quarantine_dfs)

/-! ## Contract validator (`src/contract/validator.py`) -/

/-- `ValidationError` dataclass (validator.py lines 21-27). -/
structure VError where
  field : String
  message : String
  guidance : String
deriving Repr, DecidableEq

/-- `ContractValidationResult` dataclass (validator.py lines 30-35). -/
structure ContractValidationResult where
  is_valid : Bool
  errors : List VError
deriving Repr, DecidableEq

/-- `_validate_top_level` (validator.py lines 68-132). -/
def validateTopLevel (contract : Contract) : List VError :=
  (if contract.contract_version.isEmpty then
    [⟨"contract_version", "Contract version is required.",
      "Add \x27contract_version: \"1.0\"\x27 to the contract."⟩] else []) ++
  (if contract.contract_id.isEmpty then
    [⟨"contract_id", "Contract ID is required.",
      "Add a unique \x27contract_id\x27 field (can be a UUID)."⟩] else []) ++
  (if contract.created_at_utc.isEmpty then
    [⟨"created_at_utc", "Creation timestamp is required.",
      "Add \x27created_at_utc\x27 in ISO 8601 format."⟩] else []) ++
  (if contract.app.isNone ∨ (contract.app.getD {}).name.isEmpty then
    [⟨"app", "Application metadata is required.",
      "Add \x27app\x27 section with \x27name\x27 and \x27version\x27."⟩] else []) ++
  (if contract.dataset.isNone then
    [⟨"dataset", "Dataset configuration is required.",
      "Add \x27dataset\x27 section with \x27row_limit_behavior\x27."⟩] else []) ++
  (if contract.columns.isEmpty then
    [⟨"columns", "At least one column must be defined.",
      "Add \x27columns\x27 list with column configurations."⟩] else [])

/-- `_validate_failure_handling` (validator.py lines 206-251). -/
def validateFailureHandling (fh : Option FailureHandling) (field_pfx : String) :
    List VError :=
  match fh with
  | none => []
  | some fh =>
      (if ¬ fh.action.isEmpty ∧ ¬ FAILURE_ACTIONS.contains fh.action then
        [⟨field_pfx ++ ".action", "Invalid failure action: \x27" ++ fh.action ++ "\x27.",
          "Valid actions: " ++ String.intercalate ", " FAILURE_ACTIONS⟩] else []) ++
      (if fh.action = "label_failure" ∧ strFalsy fh.label_column_name then
        [⟨field_pfx ++ ".label_column_name",
          "label_column_name is required when action is \x27label_failure\x27.",
          "Add \x27label_column_name\x27 to specify the error label column."⟩] else []) ++
      (if fh.action = "quarantine_row" ∧ strFalsy fh.quarantine_export_name then
        [⟨field_pfx ++ ".quarantine_export_name",
          "quarantine_export_name is required when action is \x27quarantine_row\x27.",
          "Add \x27quarantine_export_name\x27 to specify the quarantine output name."⟩]
       else [])

/-- `_validate_test` (validator.py lines 254-300), shared by column tests
and dataset tests. -/
def validateTest (test_type severity : String) (on_fail : Option FailureHandling)
    (field_pfx : String) (is_column_test : Bool) : List VError :=
  (if test_type.isEmpty then
    [⟨field_pfx ++ ".type", "Test type is required.",
      "Add \x27type\x27 field to the test."⟩]
   else
    let valid_types := if is_column_test then COLUMN_TEST_TYPES else DATASET_TEST_TYPES
    if ¬ valid_types.contains test_type then
      [⟨field_pfx ++ ".type", "Invalid test type: \x27" ++ test_type ++ "\x27.",
        "Valid types: " ++ String.intercalate ", " valid_types⟩]
    else []) ++
  (if ¬ severity.isEmpty ∧ ¬ (severity = "error" ∨ severity = "warning") then
    [⟨field_pfx ++ ".severity", "Invalid severity: \x27" ++ severity ++ "\x27.",
      "Severity must be \x27error\x27 or \x27warning\x27."⟩] else []) ++
  validateFailureHandling on_fail (field_pfx ++ ".on_fail")

/-- `_validate_date_rule` (validator.py lines 303-340).  The
`elif len(accepted_formats) == 0` branch of the source is unreachable (an
empty list is already falsy) and contributes nothing. -/
def validateDateRule (params : Params) (field_pfx : String) : List VError :=
  (if strFalsy (pgetStr params "target_format") then
    [⟨field_pfx ++ ".params.target_format",
      "Date rule requires exactly one target_format.",
      "Add \x27target_format\x27 to params (e.g., \x27YYYY-MM-DD\x27)."⟩] else []) ++
  (if pgetStrD params "mode" "simple" = "robust" then
    match pget params "accepted_input_formats" with
    | some (.pStrList l) =>
        if l.isEmpty then
          [⟨field_pfx ++ ".params.accepted_input_formats",
            "Robust mode requires accepted_input_formats list.",
            "Add \x27accepted_input_formats\x27 as a non-empty list."⟩]
        else []
    | _ =>
        [⟨field_pfx ++ ".params.accepted_input_formats",
          "Robust mode requires accepted_input_formats list.",
          "Add \x27accepted_input_formats\x27 as a non-empty list."⟩]
   else [])

/-- One column's contribution to `_validate_columns` (validator.py lines
140-202), given the index prefix and the set of names seen so far. -/
def validateOneColumn (i : ℕ) (seen : List String) (col : ColumnConfig) :
    List VError :=
  let col_pfx := "columns[" ++ toString i ++ "]"
  (if col.name.isEmpty then
    [⟨col_pfx ++ ".name", "Column " ++ toString i ++ " is missing a name.",
      "Each column must have a \x27name\x27 field."⟩]
   else if seen.contains col.name then
    [⟨col_pfx ++ ".name", "Duplicate column name: \x27" ++ col.name ++ "\x27.",
      "Each column name must be unique."⟩]
   else []) ++
  (if ¬ DATA_TYPES.contains col.data_type then
    [⟨col_pfx ++ ".data_type", "Invalid data type: \x27" ++ col.data_type ++ "\x27.",
      "Valid data types: " ++ String.intercalate ", " DATA_TYPES⟩] else []) ++
  validateFailureHandling (some col.failure_handling)
    (col_pfx ++ ".failure_handling") ++
  ((List.range col.tests.length).foldl (fun acc j =>
    match col.tests.get? j with
    | none => acc
    | some test =>
        let test_pfx := col_pfx ++ ".tests[" ++ toString j ++ "]"
        acc ++ validateTest test.type test.severity test.on_fail test_pfx true ++
          (if test.type = "date_rule" then validateDateRule test.params test_pfx
           else [])) []) ++
  ((List.range col.remediation.length).foldl (fun acc j =>
    match col.remediation.get? j with
    | none => acc
    | some rem =>
        if ¬ REMEDIATION_TYPES.contains rem.type then
          acc ++ [⟨col_pfx ++ ".remediation[" ++ toString j ++ "].type",
            "Invalid remediation type: \x27" ++ rem.type ++ "\x27.",
            "Valid types: " ++ String.intercalate ", " REMEDIATION_TYPES⟩]
        else acc) [])

/-- The indexed loop of `_validate_columns`: nonempty names accumulate into
the seen-set after their own checks. -/
def validateColumnsGo (i : ℕ) (seen : List String) :
    List ColumnConfig → List VError
  | [] => []
  | col :: rest =>
      validateOneColumn i seen col ++
        validateColumnsGo (i + 1)
          (if col.name.isEmpty then seen else seen ++ [col.name]) rest

/-- `_validate_columns` (validator.py lines 135-203). -/
def validateColumns (contract : Contract) : List VError :=
  validateColumnsGo 0 [] contract.columns

/-- `_validate_dataset_tests` (validator.py lines 343-381). -/
def validateDatasetTests (contract : Contract) : List VError :=
  let column_names := contract.columns.map (·.name)
  (List.range contract.dataset_tests.length).foldl (fun acc i =>
    match contract.dataset_tests.get? i with
    | none => acc
    | some test =>
        let test_pfx := "dataset_tests[" ++ toString i ++ "]"
        let key_columns := pgetStrListD test.params "key_columns" []
        let if_clause := pgetDictD test.params "if"
        acc ++ validateTest test.type test.severity test.on_fail test_pfx false ++
          (key_columns.filter (fun c => ¬ column_names.contains c)).map (fun c =>
            (⟨test_pfx ++ ".params.key_columns",
              "Referenced column \x27" ++ c ++ "\x27 not found in columns.",
              "Ensure all referenced columns are defined in \x27columns\x27."⟩ : VError)) ++
          (if test.type = "cross_field_rule" then
            ((pgetStrListD if_clause "all_not_null" []).filter
              (fun c => ¬ column_names.contains c)).map (fun c =>
                (⟨test_pfx ++ ".params.if.all_not_null",
                  "Referenced column \x27" ++ c ++ "\x27 not found.",
                  "Ensure all referenced columns are defined."⟩ : VError))
           else [])) []

/-- `_validate_foreign_key_checks` (validator.py lines 384-445). -/
def validateForeignKeyChecks (contract : Contract) : List VError :=
  let column_names := contract.columns.map (·.name)
  (List.range contract.foreign_key_checks.length).foldl (fun acc i =>
    match contract.foreign_key_checks.get? i with
    | none => acc
    | some fk =>
        let fk_pfx := "foreign_key_checks[" ++ toString i ++ "]"
        acc ++
        (if fk.name.isEmpty then
          [(⟨fk_pfx ++ ".name", "Foreign key check name is required.",
            "Add a descriptive \x27name\x27 for the FK check."⟩ : VError)] else []) ++
        (if ¬ fk.dataset_column.isEmpty ∧ ¬ column_names.contains fk.dataset_column then
          [(⟨fk_pfx ++ ".dataset_column",
            "Dataset column \x27" ++ fk.dataset_column ++ "\x27 not found.",
            "Ensure the referenced column is defined in \x27columns\x27."⟩ : VError)]
         else []) ++
        (if fk.fk_file.isEmpty then
          [(⟨fk_pfx ++ ".fk_file", "FK file reference is required.",
            "Add \x27fk_file\x27 with the FK list filename."⟩ : VError)] else []) ++
        (if fk.fk_column.isEmpty then
          [(⟨fk_pfx ++ ".fk_column", "FK column is required.",
            "Add \x27fk_column\x27 with the FK column name."⟩ : VError)] else []) ++
        (if ¬ fk.normalization_inherit_from_dataset_column then
          [(⟨fk_pfx ++ ".normalization_inherit_from_dataset_column",
            "Must be true in v1.",
            "Set \x27normalization_inherit_from_dataset_column: true\x27."⟩ : VError)]
         else []) ++
        validateFailureHandling (some fk.on_fail) (fk_pfx ++ ".on_fail")) []

/-- `validate_contract` (validator.py lines 38-65). -/
def validate_contract (contract : Contract) : ContractValidationResult :=
  let errors := validateTopLevel contract ++ validateColumns contract ++
    validateDatasetTests contract ++ validateForeignKeyChecks contract
  { is_valid := errors.length = 0
    errors := errors }

/-! ## Named branch predicates and witness instruments -/

/-- The no-valid-column guard shared by both outlier tests
(dataset_tests.py lines 428 and 509). -/
def outlierColumnInvalid (df : Table) (params : Params) : Bool :=
  strFalsy (pgetStr params "column") ∨
    ¬ tableHasCol df ((pgetStr params "column").getD "")

/-- The zero-variance guard of `test_outliers_zscore` (dataset_tests.py
line 534): sample std is `NaN` (fewer than two non-null values) or zero. -/
def zscoreZeroVariance (df : Table) (params : Params) : Bool :=
  let col := (pgetStr params "column").getD ""
  let nonNull := (((tableGet df col).getD []).map toNumericCell).filterMap id
  nonNull.length < 2 ∨ (sampleVar nonNull).eqb (Frac.ofInt 0)

/-- A trivial oracle instance (everything unparseable, nothing matches),
used to instantiate oracle-quantified theorems on concrete inputs. -/
def extUnit : Ext := { toDatetime := fun _ => none, reMatch := fun _ _ => false }

/-- Association-list lookup on detail dictionaries. -/
def detailsLookup (l : List (String × DVal)) (k : String) : Option DVal :=
  (l.find? (fun p => p.1 = k)).map (·.2)

end DataDoctor

namespace DataDoctor

/-! # Theorems -/

/-- **C1.**  The spec claims `compute_diff(original, original)` yields
`rows_changed = 0` and `cells_changed = 0` *including when the table
contains null cells*.  The code disagrees: the change mask uses the pandas
elementwise `!=`, for which `NaN != NaN` is `True`, so on the 1×1 table
whose only cell is null the self-diff reports one changed cell and one
changed row.  (The extra `isna`/`notna` disjuncts of the mask only cover
null↔non-null and do not exclude null↔null.) -/
theorem c1_compute_diff_self_with_null_not_zero :
    (compute_diff [("a", [PdValue.vNull])] [("a", [PdValue.vNull])]).rows_changed = 1 ∧
    (compute_diff [("a", [PdValue.vNull])] [("a", [PdValue.vNull])]).cells_changed = 1 ∧
    (compute_diff [("a", [PdValue.vInt 1, PdValue.vStr "x"])]
        [("a", [PdValue.vInt 1, PdValue.vStr "x"])]).cells_changed = 0 := by
  decide

/-- **C2.**  The spec claims `monotonic(direction=ascending)` passes on
`[1,2,2,3]` and fails on `[1,3,2]` at index 2.  The evaluator only
recognises the literal `"increasing"` (`column_tests.py` line 453) while
the contract builder UI writes `"ascending"`/`"descending"`
(`step_contract.py` line 510), so `direction="ascending"` falls into the
`else: # decreasing` branch: `[1,2,2,3]` *fails* (rises flagged at indices
1 and 3) and `[1,3,2]` is flagged at index 1, not 2.  With the evaluator's
own token `"increasing"` the claimed behaviour holds. -/
theorem c2_monotonic_ascending_treated_as_decreasing :
    (test_monotonic [PdValue.vInt 1, PdValue.vInt 2, PdValue.vInt 2, PdValue.vInt 3] "c"
      "error" [("direction", PParam.pStr "ascending")]).passed = false ∧
    (test_monotonic [PdValue.vInt 1, PdValue.vInt 2, PdValue.vInt 2, PdValue.vInt 3] "c"
      "error" [("direction", PParam.pStr "ascending")]).failed_indices = [1, 3] ∧
    (test_monotonic [PdValue.vInt 1, PdValue.vInt 3, PdValue.vInt 2] "c"
      "error" [("direction", PParam.pStr "ascending")]).failed_indices = [1] ∧
    (test_monotonic [PdValue.vInt 1, PdValue.vInt 2, PdValue.vInt 2, PdValue.vInt 3] "c"
      "error" [("direction", PParam.pStr "increasing")]).passed = true ∧
    (test_monotonic [PdValue.vInt 1, PdValue.vInt 3, PdValue.vInt 2] "c"
      "error" [("direction", PParam.pStr "increasing")]).failed_indices = [2] := by
  decide

/-- **C3.**  The spec claims `validate` and `remediate` are pure and always
return a result.  `run_validation` is a total function of its inputs here,
but `remediate` is broken at this commit: `run_remediation` unconditionally
ends in `compute_diff(df, result_df, max_samples_per_column=...,
column_treatments=...)` (engine.py lines 90-95) while `compute_diff`
(diff.py line 48) accepts no `column_treatments` parameter, so every call
raises `TypeError` instead of returning `(table, diff)`.  (The related
`ColumnDiff.treatments_applied` field read by `html_report.py` line 98 is
likewise absent from `diff.py` — the diff module lags the engine.)  The
no-mutation half of the claim holds: all work happens on `df.copy()`. -/
theorem c3_run_remediation_always_raises (df : Table) (contract : Contract) :
    run_remediation df contract = Except.error (PyErr.typeError
      "compute_diff() got an unexpected keyword argument \x27column_treatments\x27") :=
  rfl

/-- Both outlier tests return `passed = true` on every branch. -/
theorem test_outliers_iqr_passed (df : Table) (severity : String) (params : Params) :
    (test_outliers_iqr df severity params).passed = true := by
  unfold test_outliers_iqr
  dsimp only
  split
  · rfl
  · split <;> rfl

/-- Z-score outlier test: `passed = true` on every branch. -/
theorem test_outliers_zscore_passed (df : Table) (severity : String) (params : Params) :
    (test_outliers_zscore df severity params).passed = true := by
  unfold test_outliers_zscore
  dsimp only
  split
  · rfl
  · split <;> rfl

/-- Outlier dispatch results always pass. -/
theorem run_dataset_test_outlier_passed (ext : Ext) (t : String) (df : Table)
    (severity : String) (params : Params)
    (h : t = "outliers_iqr" ∨ t = "outliers_zscore") :
    (run_dataset_test ext t df severity params).passed = true := by
  rcases h with h | h
  · subst h; exact test_outliers_iqr_passed df severity params
  · subst h; exact test_outliers_zscore_passed df severity params

/-- Appending a dataset test whose result passes extends the result list and
leaves the blocking errors unchanged. -/
theorem runDatasetStage_append_passed (ext : Ext) (pdf : Table)
    (blocking0 : List String) (tests : List DatasetTest) (dt : DatasetTest)
    (h : (run_dataset_test ext dt.type pdf dt.severity dt.params).passed = true) :
    runDatasetStage ext pdf blocking0 (tests ++ [dt]) =
      ((runDatasetStage ext pdf blocking0 tests).1 ++
        [run_dataset_test ext dt.type pdf dt.severity dt.params],
       (runDatasetStage ext pdf blocking0 tests).2) := by
  unfold runDatasetStage
  rw [List.foldl_append]
  simp only [List.foldl_cons, List.foldl_nil]
  unfold dtStageStep
  simp [h]

/-- A passing dataset-test result contributes no errors to the summary
counters. -/
theorem dtTotals_append_passed_errors (l : List DatasetTestResult)
    (r : DatasetTestResult) (h : r.passed = true) :
    (dtTotals (l ++ [r])).2.2.2 = (dtTotals l).2.2.2 := by
  unfold dtTotals
  rw [List.foldl_append]
  simp only [List.foldl_cons, List.foldl_nil]
  unfold dtTotalsStep
  simp [h]

/-- A passing dataset-test result does not change the summary error
count. -/
theorem calculate_summary_append_passed (colR : List (String × ColumnValidationResult))
    (dtR : List DatasetTestResult) (fkR : List ForeignKeyCheckResult)
    (cells : List CellValidationResult) (rows cols : ℕ) (r : DatasetTestResult)
    (h : r.passed = true) :
    (calculate_summary colR (dtR ++ [r]) fkR cells rows cols).total_errors =
      (calculate_summary colR dtR fkR cells rows cols).total_errors := by
  unfold calculate_summary
  dsimp only
  rw [dtTotals_append_passed_errors _ _ h]

/-- Appending a dataset test whose result passes does not change the
run-level validity flag. -/
theorem run_validation_append_passing_dt (ext : Ext) (df : Table)
    (contract : Contract) (fkdf : Option Table) (dt : DatasetTest)
    (h : (run_dataset_test ext dt.type (applyNormalizations df contract)
      dt.severity dt.params).passed = true) :
    (run_validation ext df
        { contract with dataset_tests := contract.dataset_tests ++ [dt] }
        fkdf).is_valid =
      (run_validation ext df contract fkdf).is_valid := by
  have hnorm : applyNormalizations df
      { contract with dataset_tests := contract.dataset_tests ++ [dt] } =
      applyNormalizations df contract := rfl
  have hfk : runFkStage { contract with dataset_tests := contract.dataset_tests ++ [dt] } =
      runFkStage contract := rfl
  unfold run_validation
  rw [hnorm, hfk]
  dsimp only
  rw [runDatasetStage_append_passed ext _ _ _ dt h]
  dsimp only
  rw [calculate_summary_append_passed _ _ _ _ _ _ _ h]

/-- **C4 counterexample.**  The claim says both outlier tests always return
severity `"warning"` whatever severity is configured.  On a zero-variance
column with configured severity `"error"`, the z-score short-circuit branch
(dataset_tests.py lines 534-541) returns `severity=severity`, i.e.
`"error"`. -/
theorem c4_counterexample_zero_variance_severity :
    (test_outliers_zscore [("x", [PdValue.vInt 5, PdValue.vInt 5])] "error"
      [("column", PParam.pStr "x")]).severity = "error" ∧
    (test_outliers_zscore [("x", [PdValue.vInt 5, PdValue.vInt 5])] "error"
      [("column", PParam.pStr "x")]).severity ≠ "warning" := by
  decide

/-- **C4 (amended).**  Both outlier tests return `passed = true` for every
table, parameter set and configured severity — so they never contribute to
flipping `is_valid` (appending an outlier test to any contract leaves the
run's `is_valid` unchanged), and zero/undefined variance short-circuits to
the "zero variance" result rather than dividing by zero.  However the
reported severity is `"warning"` only on the detection path: the
no-valid-column branches of both tests and the zero-variance branch of the
z-score test return the *configured* severity. -/
theorem c4_outliers_informational :
    (∀ (df : Table) (severity : String) (params : Params),
      (test_outliers_iqr df severity params).passed = true ∧
      (test_outliers_zscore df severity params).passed = true) ∧
    (∀ (df : Table) (severity : String) (params : Params),
      (test_outliers_iqr df severity params).severity =
        (if strFalsy (pgetStr params "column") ∨
            ¬ tableHasCol df ((pgetStr params "column").getD "") then severity
         else "warning") ∧
      (test_outliers_zscore df severity params).severity =
        (if strFalsy (pgetStr params "column") ∨
            ¬ tableHasCol df ((pgetStr params "column").getD "") then severity
         else if ((((tableGet df ((pgetStr params "column").getD "")).getD []).map
              toNumericCell).filterMap id).length < 2 ∨
            (sampleVar ((((tableGet df ((pgetStr params "column").getD "")).getD []).map
              toNumericCell).filterMap id)).eqb (Frac.ofInt 0) then severity
         else "warning")) ∧
    (∀ (ext : Ext) (df : Table) (contract : Contract) (fkdf : Option Table)
        (dt : DatasetTest),
      dt.type = "outliers_iqr" ∨ dt.type = "outliers_zscore" →
      (run_validation ext df
          { contract with dataset_tests := contract.dataset_tests ++ [dt] }
          fkdf).is_valid =
        (run_validation ext df contract fkdf).is_valid) := by
  refine ⟨fun df severity params =>
      ⟨test_outliers_iqr_passed df severity params,
       test_outliers_zscore_passed df severity params⟩,
    fun df severity params => ⟨?_, ?_⟩,
    fun ext df contract fkdf dt h =>
      run_validation_append_passing_dt ext df contract fkdf dt
        (run_dataset_test_outlier_passed ext dt.type _ dt.severity dt.params h)⟩
  · unfold test_outliers_iqr
    dsimp only
    split
    · rfl
    · split <;> rfl
  · unfold test_outliers_zscore
    dsimp only
    split
    · rfl
    · split <;> rfl

/-- Witness for C4: appending a z-score outlier test (with an `on_fail`
of `strict_fail` and configured severity `"error"`) to the empty contract
leaves `is_valid` unchanged on a concrete one-column table. -/
theorem c4_outliers_informational_witness :
    (({ type := "outliers_zscore", severity := "error",
        params := [("column", PParam.pStr "x")],
        on_fail := some { action := "strict_fail" } } : DatasetTest).type =
          "outliers_iqr" ∨
      ({ type := "outliers_zscore", severity := "error",
         params := [("column", PParam.pStr "x")],
         on_fail := some { action := "strict_fail" } } : DatasetTest).type =
          "outliers_zscore") ∧
    (run_validation extUnit [("x", [PdValue.vInt 7, PdValue.vInt 7])]
        { ({} : Contract) with dataset_tests := ([] : List DatasetTest) ++
            [{ type := "outliers_zscore", severity := "error",
               params := [("column", PParam.pStr "x")],
               on_fail := some { action := "strict_fail" } }] } none).is_valid =
      (run_validation extUnit [("x", [PdValue.vInt 7, PdValue.vInt 7])]
        ({} : Contract) none).is_valid :=
  ⟨Or.inr rfl,
   c4_outliers_informational.2.2 extUnit [("x", [PdValue.vInt 7, PdValue.vInt 7])]
     ({} : Contract) none _ (Or.inr rfl)⟩

/-- Association-list `find?` misses every entry when the key is not among
the mapped keys. -/
theorem find?_key_eq_none {α : Type} (l : List (String × α)) (t : String)
    (h : ¬ (l.map (fun p => p.1)).contains t = true) :
    l.find? (fun p => p.1 = t) = none := by
  induction l with
  | nil => rfl
  | cons a as ih =>
      simp only [List.map_cons, List.contains_cons, Bool.or_eq_true,
        beq_iff_eq] at h
      push_neg at h
      have hd : decide (a.1 = t) = false := decide_eq_false (fun hc => h.1 hc.symm)
      simp only [List.find?, hd]
      exact ih (by simpa using h.2)

/-- **C5 counterexample.**  The claim says unknown types always produce a
reportable error, never a silent no-op.  For an unknown *remediation* type
the dispatchers return the data unchanged with no error object
(transformers.py lines 464-469 and 490-495). -/
theorem c5_counterexample_unknown_remediation_silent :
    REMEDIATION_TYPES.contains "fix_typos" = false ∧
    apply_column_remediation [PdValue.vStr "x"] "fix_typos" [] = [PdValue.vStr "x"] ∧
    apply_dataframe_remediation [("a", [PdValue.vStr "x"])] "a" "fix_typos" [] =
      [("a", [PdValue.vStr "x"])] := by
  refine ⟨by decide, ?_, ?_⟩ <;> rfl

/-- **C5 (amended).**  Unknown *test* types do produce reportable errors:
`run_column_test` returns `passed = false` with the warning message
`"Unknown test type: ..."`, and `run_dataset_test` returns `passed = false`
with that message.  Unknown *remediation* types, however, are silent
no-ops: `apply_column_remediation` and `apply_dataframe_remediation` return
the input unchanged, reporting nothing (only the separate
`validate_remediation_config` helper, which `run_remediation` never calls,
would mention them). -/
theorem c5_unknown_type_dispatch :
    (∀ (ext : Ext) (t : String) (series : Series)
        (column_name data_type severity : String) (params : Params),
      ¬ COLUMN_TEST_TYPES.contains t = true →
      (run_column_test ext t series column_name data_type severity params).passed =
          false ∧
      (run_column_test ext t series column_name data_type severity
        params).warning_message = some ("Unknown test type: " ++ t)) ∧
    (∀ (ext : Ext) (t : String) (df : Table) (severity : String) (params : Params),
      ¬ DATASET_TEST_TYPES.contains t = true →
      (run_dataset_test ext t df severity params).passed = false ∧
      (run_dataset_test ext t df severity params).message =
        "Unknown test type: " ++ t) ∧
    (∀ (t : String) (series : Series) (params : Params),
      ¬ (COLUMN_TRANSFORMERS.map (fun p => p.1)).contains t = true →
      apply_column_remediation series t params = series) ∧
    (∀ (t : String) (df : Table) (c : String) (params : Params),
      ¬ (DATAFRAME_TRANSFORMERS.map (fun p => p.1)).contains t = true →
      apply_dataframe_remediation df c t params = df) := by
  refine ⟨?_, ?_, ?_, ?_⟩
  · intro ext t series column_name data_type severity params h
    simp only [COLUMN_TEST_TYPES, List.contains_cons, List.contains_nil,
      Bool.or_eq_true, beq_iff_eq] at h
    push_neg at h
    obtain ⟨h1, h2, h3, h4, h5, h6, h7, h8, h9, h10, h11, -⟩ := h
    constructor <;>
      simp [run_column_test, h1, h2, h3, h4, h5, h6, h7, h8, h9, h10, h11]
  · intro ext t df severity params h
    simp only [DATASET_TEST_TYPES, List.contains_cons, List.contains_nil,
      Bool.or_eq_true, beq_iff_eq] at h
    push_neg at h
    obtain ⟨h1, h2, h3, h4, h5, h6, h7, -⟩ := h
    constructor <;>
      simp [run_dataset_test, h1, h2, h3, h4, h5, h6, h7]
  · intro t series params h
    unfold apply_column_remediation
    rw [find?_key_eq_none _ _ h]
  · intro t df c params h
    unfold apply_dataframe_remediation
    rw [find?_key_eq_none _ _ h]

/-- Witness for C5: the unknown type `"fix_typos"` on concrete inputs. -/
theorem c5_unknown_type_dispatch_witness :
    (¬ COLUMN_TEST_TYPES.contains "fix_typos" = true) ∧
    (run_column_test extUnit "fix_typos" [PdValue.vStr "x"] "c" "string" "error"
      []).passed = false ∧
    (run_column_test extUnit "fix_typos" [PdValue.vStr "x"] "c" "string" "error"
      []).warning_message = some ("Unknown test type: " ++ "fix_typos") ∧
    (¬ DATASET_TEST_TYPES.contains "fix_typos" = true) ∧
    (run_dataset_test extUnit "fix_typos" [("a", [PdValue.vStr "x"])] "error"
      []).passed = false ∧
    (¬ (COLUMN_TRANSFORMERS.map (fun p => p.1)).contains "fix_typos" = true) ∧
    apply_column_remediation [PdValue.vStr "x"] "fix_typos" [] = [PdValue.vStr "x"] :=
  ⟨by decide,
   (c5_unknown_type_dispatch.1 extUnit "fix_typos" [PdValue.vStr "x"] "c" "string"
     "error" [] (by decide)).1,
   (c5_unknown_type_dispatch.1 extUnit "fix_typos" [PdValue.vStr "x"] "c" "string"
     "error" [] (by decide)).2,
   by decide,
   (c5_unknown_type_dispatch.2.1 extUnit "fix_typos" [("a", [PdValue.vStr "x"])]
     "error" [] (by decide)).1,
   by decide,
   c5_unknown_type_dispatch.2.2.1 "fix_typos" [PdValue.vStr "x"] [] (by decide)⟩

/-- Any contract whose error list is inhabited is reported invalid. -/
theorem validate_contract_invalid_of_mem (contract : Contract) (e : VError)
    (he : e ∈ (validate_contract contract).errors) :
    (validate_contract contract).is_valid = false := by
  simp only [validate_contract] at he ⊢
  apply decide_eq_false
  intro h
  rw [List.length_eq_zero] at h
  rw [h] at he
  exact absurd he (List.not_mem_nil e)

/-- The `_validate_columns` loop reports a `columns[i0+j].name` error whenever
the `j`-th column has an empty name, a name already seen, or a name shared
with an earlier column. -/
theorem validateColumnsGo_dup_mem (cols : List ColumnConfig) :
    ∀ (i0 : ℕ) (seen : List String) (j : ℕ) (cj : ColumnConfig),
    cols.get? j = some cj →
    (cj.name.isEmpty = true ∨ cj.name ∈ seen ∨
      ∃ i, i < j ∧ ∃ ci, cols.get? i = some ci ∧ ci.name.isEmpty = false ∧
        ci.name = cj.name) →
    ∃ e ∈ validateColumnsGo i0 seen cols,
      e.field = "columns[" ++ toString (i0 + j) ++ "]" ++ ".name" := by
  induction cols with
  | nil => intro i0 seen j cj hj _; simp at hj
  | cons c rest ih =>
      intro i0 seen j cj hj hdup
      cases j with
      | zero =>
          rw [List.get?_cons_zero] at hj
          injection hj with hj
          subst hj
          simp only [Nat.add_zero]
          have hd : c.name.isEmpty = true ∨ c.name ∈ seen := by
            rcases hdup with h | h | ⟨i, hi, _⟩
            · exact Or.inl h
            · exact Or.inr h
            · omega
          by_cases hE : c.name.isEmpty = true
          · refine ⟨⟨"columns[" ++ toString i0 ++ "]" ++ ".name",
              "Column " ++ toString i0 ++ " is missing a name.",
              "Each column must have a \x27name\x27 field."⟩, ?_, rfl⟩
            simp [validateColumnsGo, validateOneColumn, hE]
          · have hC : c.name ∈ seen := hd.resolve_left hE
            have hE2 : c.name.isEmpty = false := by
              simpa using hE
            refine ⟨⟨"columns[" ++ toString i0 ++ "]" ++ ".name",
              "Duplicate column name: \x27" ++ c.name ++ "\x27.",
              "Each column name must be unique."⟩, ?_, rfl⟩
            simp [validateColumnsGo, validateOneColumn, hE2, hC]
      | succ k =>
          rw [List.get?_cons_succ] at hj
          have hdup2 : cj.name.isEmpty = true ∨
              cj.name ∈ (if c.name.isEmpty then seen else seen ++ [c.name]) ∨
              ∃ i, i < k ∧ ∃ ci, rest.get? i = some ci ∧
                ci.name.isEmpty = false ∧ ci.name = cj.name := by
            rcases hdup with h | h | ⟨i, hik, ci, hgi, hciE, hciname⟩
            · exact Or.inl h
            · refine Or.inr (Or.inl ?_)
              by_cases hcE : c.name.isEmpty = true
              · simp [hcE]
                exact h
              · simp [hcE]
                exact Or.inl h
            · cases i with
              | zero =>
                  rw [List.get?_cons_zero] at hgi
                  injection hgi with hgi
                  subst hgi
                  refine Or.inr (Or.inl ?_)
                  simp [hciE]
                  exact Or.inr hciname.symm
              | succ i2 =>
                  rw [List.get?_cons_succ] at hgi
                  exact Or.inr (Or.inr ⟨i2, by omega, ci, hgi, hciE, hciname⟩)
          obtain ⟨e, hmem, hf⟩ := ih (i0 + 1) _ k cj hj hdup2
          refine ⟨e, ?_, ?_⟩
          · show e ∈ validateOneColumn i0 seen c ++ validateColumnsGo (i0 + 1)
              (if c.name.isEmpty then seen else seen ++ [c.name]) rest
            exact List.mem_append_right _ hmem
          · rw [hf]
            have harith : i0 + 1 + k = i0 + (k + 1) := by omega
            rw [harith]

/-- **C6.**  A contract with two columns sharing a name is reported invalid,
with an error whose field path is `columns[j].name` at the later duplicate;
`validate_contract` returns this as an ordinary result rather than
throwing. -/
theorem c6_duplicate_column_name (contract : Contract) (i j : ℕ)
    (ci cj : ColumnConfig) (hij : i < j)
    (hi : contract.columns.get? i = some ci)
    (hj : contract.columns.get? j = some cj)
    (hname : ci.name = cj.name) :
    (validate_contract contract).is_valid = false ∧
    ∃ e ∈ (validate_contract contract).errors,
      e.field = "columns[" ++ toString j ++ "]" ++ ".name" := by
  have h0 : ∃ e ∈ validateColumnsGo 0 [] contract.columns,
      e.field = "columns[" ++ toString (0 + j) ++ "]" ++ ".name" := by
    apply validateColumnsGo_dup_mem contract.columns 0 [] j cj hj
    by_cases hE : ci.name.isEmpty = true
    · left
      rw [← hname]
      exact hE
    · right; right
      exact ⟨i, hij, ci, hi, by simpa using hE, hname⟩
  rw [Nat.zero_add] at h0
  obtain ⟨e, hmem, hf⟩ := h0
  have hmem2 : e ∈ (validate_contract contract).errors := by
    simp only [validate_contract]
    exact List.mem_append_left _ (List.mem_append_left _
      (List.mem_append_right _ hmem))
  exact ⟨validate_contract_invalid_of_mem contract e hmem2, e, hmem2, hf⟩

/-- Witness for C6: a two-column contract in which both columns are named
`"a"`. -/
theorem c6_duplicate_column_name_witness :
    (validate_contract { columns := [{ name := "a" }, { name := "a" }] }).is_valid =
      false ∧
    ∃ e ∈ (validate_contract
        { columns := [{ name := "a" }, { name := "a" }] }).errors,
      e.field = "columns[" ++ toString 1 ++ "]" ++ ".name" :=
  c6_duplicate_column_name { columns := [{ name := "a" }, { name := "a" }] }
    0 1 { name := "a" } { name := "a" } (by decide) rfl rfl rfl

/-- **C7.**  In a `cross_field_rule` with an `if.all_not_null` gate, a row
whose named-and-present gate column is null is excluded from evaluation: it
is not among the checked row positions, never appears in `affected_rows`
(the failed set), and the reported `rows_checked` count only ever counts
the gated-in rows. -/
theorem c7_cross_field_gate (ext : Ext) (df : Table) (severity : String)
    (params : Params) (c : String) (i : ℕ)
    (hc : c ∈ pgetStrListD (pgetDictD params "if") "all_not_null" [])
    (hHas : tableHasCol df c = true)
    (hna : pdIsna (((tableGet df c).getD []).getD i PdValue.vNull) = true) :
    i ∉ crossFieldCheckedRows df
        (pgetStrListD (pgetDictD params "if") "all_not_null" []) ∧
    i ∉ (test_cross_field_rule ext df severity params).affected_rows ∧
    ∀ n : ℤ, detailsLookup (test_cross_field_rule ext df severity params).details
        "rows_checked" = some (.dInt n) →
      n = ((crossFieldCheckedRows df
        (pgetStrListD (pgetDictD params "if") "all_not_null" [])).length : ℤ) := by
  have hnotin : i ∉ crossFieldCheckedRows df
      (pgetStrListD (pgetDictD params "if") "all_not_null" []) := by
    intro hmem
    have hne : (pgetStrListD (pgetDictD params "if") "all_not_null" []).isEmpty =
        false := by
      cases hL : pgetStrListD (pgetDictD params "if") "all_not_null" [] with
      | nil => rw [hL] at hc; exact absurd hc (List.not_mem_nil c)
      | cons a as => rfl
    simp only [crossFieldCheckedRows, hne, Bool.false_eq_true, if_false] at hmem
    rw [List.mem_filter] at hmem
    have hall := List.all_eq_true.mp hmem.2 c
      (List.mem_filter.mpr ⟨hc, hHas⟩)
    simp only [hna, decide_eq_true_eq] at hall
    exact hall trivial
  refine ⟨hnotin, ?_, ?_⟩
  · intro hmem
    simp only [test_cross_field_rule] at hmem
    split at hmem
    · simp at hmem
    · split at hmem
      · simp at hmem
      · split at hmem
        · simp at hmem
        · simp only at hmem
          have hmem2 := List.take_subset _ _ hmem
          obtain ⟨p, hp, hf⟩ := List.mem_filterMap.mp hmem2
          obtain ⟨a, b⟩ := p
          split at hf
          · injection hf with hf
            subst hf
            exact hnotin (List.of_mem_zip hp).1
          · exact absurd hf (by simp)
  · intro n hdet
    simp only [test_cross_field_rule] at hdet
    split at hdet
    · simp [detailsLookup, List.find?] at hdet
    · split at hdet
      · rename_i hEmpty
        simp [detailsLookup, List.find?] at hdet
        rw [List.isEmpty_iff] at hEmpty
        rw [hEmpty]
        simp [← hdet]
      · split at hdet
        · simp [detailsLookup, List.find?] at hdet
        · simp [detailsLookup, List.find?] at hdet
          rw [← hdet]

/-- Witness for C7: a null gate value at row 0 of a two-row frame. -/
theorem c7_cross_field_gate_witness :
    0 ∉ crossFieldCheckedRows
        [("a", [PdValue.vNull, PdValue.vInt 1]), ("b", [PdValue.vInt 0, PdValue.vInt 2])]
        (pgetStrListD (pgetDictD
          [("if", PParam.pDict [("all_not_null", PParam.pStrList ["a"])]),
           ("assert", PParam.pDict [("expression", PParam.pStr "a <= b")])] "if")
          "all_not_null" []) ∧
    0 ∉ (test_cross_field_rule extUnit
        [("a", [PdValue.vNull, PdValue.vInt 1]), ("b", [PdValue.vInt 0, PdValue.vInt 2])]
        "error"
        [("if", PParam.pDict [("all_not_null", PParam.pStrList ["a"])]),
         ("assert", PParam.pDict [("expression", PParam.pStr "a <= b")])]).affected_rows :=
  ⟨(c7_cross_field_gate extUnit
      [("a", [PdValue.vNull, PdValue.vInt 1]), ("b", [PdValue.vInt 0, PdValue.vInt 2])]
      "error"
      [("if", PParam.pDict [("all_not_null", PParam.pStrList ["a"])]),
       ("assert", PParam.pDict [("expression", PParam.pStr "a <= b")])]
      "a" 0 (by decide) (by decide) (by decide)).1,
   (c7_cross_field_gate extUnit
      [("a", [PdValue.vNull, PdValue.vInt 1]), ("b", [PdValue.vInt 0, PdValue.vInt 2])]
      "error"
      [("if", PParam.pDict [("all_not_null", PParam.pStrList ["a"])]),
       ("assert", PParam.pDict [("expression", PParam.pStr "a <= b")])]
      "a" 0 (by decide) (by decide) (by decide)).2.1⟩

/-- A value is null exactly when it is the null marker. -/
theorem pdIsna_eq_vNull (v : PdValue) (h : pdIsna v = true) : v = PdValue.vNull := by
  cases v <;> first | rfl | simp [pdIsna] at h

set_option maxRecDepth 100000 in
/-- **C8 counterexample.**  With 1001 null rows and `allow_nulls = false`,
row 1000 is a null row counted in `missing_count` but absent from
`missing_row_indices`, which is capped at 1000 entries (foreign_key.py line
82). -/
theorem c8_counterexample_cap :
    (validate_foreign_key (List.replicate 1001 PdValue.vNull) [] "fk" "col" "ref"
      false none).missing_count = 1001 ∧
    pdIsna ((List.replicate 1001 PdValue.vNull).getD 1000 PdValue.vNull) = true ∧
    1000 ∉ (validate_foreign_key (List.replicate 1001 PdValue.vNull) [] "fk" "col"
      "ref" false none).missing_row_indices := by decide

/-- **C8 (amended).**  A null dataset row with `allow_nulls = false` is
recorded by the checker loop and counted in `missing_count`; it appears in
`missing_row_indices` only as far as the 1000-entry cap allows (the list is
the capped prefix of the recorded rows).  With `allow_nulls = true` the row
is never recorded and never listed. -/
theorem c8_fk_nulls (dataset_series fk_series : Series)
    (name dataset_column fk_column : String) (nf : Option (PdValue → PdValue))
    (i : ℕ) (hi : i < dataset_series.length)
    (hna : pdIsna (dataset_series.getD i PdValue.vNull) = true) :
    (i, PdValue.vNull) ∈ fk_missing_entries (fkNormalizeSeries nf dataset_series)
        ((fkNormalizeSeries nf fk_series).filter (fun v => ¬ pdIsna v)) false ∧
    (validate_foreign_key dataset_series fk_series name dataset_column fk_column
        false nf).missing_count =
      (fk_missing_entries (fkNormalizeSeries nf dataset_series)
        ((fkNormalizeSeries nf fk_series).filter (fun v => ¬ pdIsna v))
        false).length ∧
    0 < (validate_foreign_key dataset_series fk_series name dataset_column
        fk_column false nf).missing_count ∧
    (validate_foreign_key dataset_series fk_series name dataset_column fk_column
        false nf).passed = false ∧
    (validate_foreign_key dataset_series fk_series name dataset_column fk_column
        false nf).missing_row_indices =
      ((fk_missing_entries (fkNormalizeSeries nf dataset_series)
        ((fkNormalizeSeries nf fk_series).filter (fun v => ¬ pdIsna v))
        false).map (·.1)).take 1000 ∧
    (∀ v, (i, v) ∉ fk_missing_entries (fkNormalizeSeries nf dataset_series)
        ((fkNormalizeSeries nf fk_series).filter (fun v => ¬ pdIsna v)) true) ∧
    i ∉ (validate_foreign_key dataset_series fk_series name dataset_column
        fk_column true nf).missing_row_indices := by
  have hsv : dataset_series[i]? = some PdValue.vNull := by
    rw [List.getElem?_eq_getElem hi]
    have := pdIsna_eq_vNull _ (by rwa [List.getD_eq_getElem dataset_series
      PdValue.vNull hi] at hna)
    rw [this]
  have hnormS : (fkNormalizeSeries nf dataset_series)[i]? = some PdValue.vNull := by
    cases nf with
    | none => simpa [fkNormalizeSeries] using hsv
    | some f => simp [fkNormalizeSeries, List.getElem?_map, hsv, pdIsna]
  have hmemF : (i, PdValue.vNull) ∈ fk_missing_entries
      (fkNormalizeSeries nf dataset_series)
      ((fkNormalizeSeries nf fk_series).filter (fun v => ¬ pdIsna v)) false := by
    apply List.mem_filterMap.mpr
    exact ⟨(i, PdValue.vNull), List.mk_mem_enum_iff_getElem?.mpr hnormS,
      by simp [pdIsna]⟩
  have hnotT : ∀ v, (i, v) ∉ fk_missing_entries
      (fkNormalizeSeries nf dataset_series)
      ((fkNormalizeSeries nf fk_series).filter (fun v => ¬ pdIsna v)) true := by
    intro v hmem
    obtain ⟨p, hp, hf⟩ := List.mem_filterMap.mp hmem
    obtain ⟨j, w⟩ := p
    dsimp only at hf
    split at hf
    · simp at hf
    · split at hf
      · exact absurd hf (by simp)
      · rename_i hw hany
        injection hf with hf1
        have hj : j = i := congrArg Prod.fst hf1
        subst hj
        have h2 := List.mk_mem_enum_iff_getElem?.mp hp
        rw [hnormS] at h2
        injection h2 with h2
        exact hw (by rw [← h2]; rfl)
  refine ⟨hmemF, rfl, ?_, ?_, rfl, hnotT, ?_⟩
  · have hlen : 0 < (fk_missing_entries (fkNormalizeSeries nf dataset_series)
        ((fkNormalizeSeries nf fk_series).filter (fun v => ¬ pdIsna v))
        false).length := List.length_pos.mpr (List.ne_nil_of_mem hmemF)
    exact hlen
  · apply decide_eq_false
    intro h
    rw [List.length_eq_zero] at h
    rw [h] at hmemF
    exact absurd hmemF (List.not_mem_nil _)
  · intro hmem
    have hmem2 := List.take_subset _ _ hmem
    obtain ⟨p, hp, hf⟩ := List.mem_map.mp hmem2
    obtain ⟨j, w⟩ := p
    cases hf
    exact hnotT w hp

/-- Witness for C8: a single null row against a one-entry FK list. -/
theorem c8_fk_nulls_witness :
    (0, PdValue.vNull) ∈ fk_missing_entries
        (fkNormalizeSeries none [PdValue.vNull])
        ((fkNormalizeSeries none [PdValue.vStr "a"]).filter (fun v => ¬ pdIsna v))
        false ∧
    (validate_foreign_key [PdValue.vNull] [PdValue.vStr "a"] "fk" "col" "ref"
      false none).passed = false ∧
    0 ∉ (validate_foreign_key [PdValue.vNull] [PdValue.vStr "a"] "fk" "col" "ref"
      true none).missing_row_indices :=
  ⟨(c8_fk_nulls [PdValue.vNull] [PdValue.vStr "a"] "fk" "col" "ref" none 0
      (by decide) (by decide)).1,
   (c8_fk_nulls [PdValue.vNull] [PdValue.vStr "a"] "fk" "col" "ref" none 0
      (by decide) (by decide)).2.2.2.1,
   (c8_fk_nulls [PdValue.vNull] [PdValue.vStr "a"] "fk" "col" "ref" none 0
      (by decide) (by decide)).2.2.2.2.2.2⟩

/-! ### Decimal rendering facts used by the date round-trip analysis -/

/-- `digitCharOf` yields digit characters. -/
theorem digitCharOf_isDigit (k : ℕ) (h : k < 10) : (digitCharOf k).isDigit = true := by
  interval_cases k <;> decide

/-- `digitVal` inverts `digitCharOf` on single digits. -/
theorem digitVal_digitCharOf (k : ℕ) (h : k < 10) : digitVal (digitCharOf k) = k := by
  interval_cases k <;> decide

/-- Digit characters are not Python whitespace. -/
theorem digitCharOf_not_space (k : ℕ) (h : k < 10) :
    isPySpace (digitCharOf k) = false := by
  interval_cases k <;> decide

/-- Appending one digit multiplies the value by ten. -/
theorem digitsToNat_append_single (l : List Char) (c : Char) :
    digitsToNat (l ++ [c]) = digitsToNat l * 10 + digitVal c := by
  unfold digitsToNat
  rw [List.foldl_append]
  rfl

/-- The rendered digits of `n` are digits and denote `n`. -/
theorem decDigitsGo_spec (fuel : ℕ) : ∀ n, n < fuel →
    (decDigitsGo fuel n).all (·.isDigit) = true ∧
    digitsToNat (decDigitsGo fuel n) = n := by
  induction fuel with
  | zero => intro n h; omega
  | succ fuel ih =>
      intro n h
      by_cases hn : n < 10
      · unfold decDigitsGo
        rw [if_pos hn]
        refine ⟨by simp [digitCharOf_isDigit n hn], ?_⟩
        simp [digitsToNat, digitVal_digitCharOf n hn]
      · unfold decDigitsGo
        rw [if_neg hn]
        have hdivlt : n / 10 < n := Nat.div_lt_self (by omega) (by omega)
        obtain ⟨ha, hb⟩ := ih (n / 10) (by omega)
        refine ⟨?_, ?_⟩
        · rw [List.all_append, ha]
          simp [digitCharOf_isDigit (n % 10) (Nat.mod_lt n (by omega))]
        · rw [digitsToNat_append_single, hb,
            digitVal_digitCharOf (n % 10) (Nat.mod_lt n (by omega))]
          omega

/-- One-digit rendering. -/
theorem decDigitsGo_eq1 (fuel n : ℕ) (h10 : n < 10) (h : n < fuel) :
    decDigitsGo fuel n = [digitCharOf n] := by
  cases fuel with
  | zero => omega
  | succ fuel => unfold decDigitsGo; rw [if_pos h10]

/-- Two-digit rendering. -/
theorem decDigitsGo_eq2 (fuel n : ℕ) (hlo : 10 ≤ n) (hhi : n < 100) (h : n < fuel) :
    decDigitsGo fuel n = [digitCharOf (n / 10), digitCharOf (n % 10)] := by
  cases fuel with
  | zero => omega
  | succ fuel =>
      unfold decDigitsGo
      rw [if_neg (by omega), decDigitsGo_eq1 fuel (n / 10) (by omega) (by omega)]
      rfl

/-- Three-digit rendering. -/
theorem decDigitsGo_eq3 (fuel n : ℕ) (hlo : 100 ≤ n) (hhi : n < 1000) (h : n < fuel) :
    decDigitsGo fuel n =
      [digitCharOf (n / 100), digitCharOf (n / 10 % 10), digitCharOf (n % 10)] := by
  cases fuel with
  | zero => omega
  | succ fuel =>
      unfold decDigitsGo
      rw [if_neg (by omega), decDigitsGo_eq2 fuel (n / 10) (by omega) (by omega)
        (by omega)]
      have e1 : n / 10 / 10 = n / 100 := by omega
      rw [e1]
      rfl

/-- Four-digit rendering. -/
theorem decDigitsGo_eq4 (fuel n : ℕ) (hlo : 1000 ≤ n) (hhi : n < 10000) (h : n < fuel) :
    decDigitsGo fuel n =
      [digitCharOf (n / 1000), digitCharOf (n / 100 % 10), digitCharOf (n / 10 % 10),
       digitCharOf (n % 10)] := by
  cases fuel with
  | zero => omega
  | succ fuel =>
      unfold decDigitsGo
      rw [if_neg (by omega), decDigitsGo_eq3 fuel (n / 10) (by omega) (by omega)
        (by omega)]
      have e1 : n / 10 / 100 = n / 1000 := by omega
      have e2 : n / 10 / 10 % 10 = n / 100 % 10 := by omega
      rw [e1, e2]
      rfl

/-- A four-digit year renders to four digit characters. -/
theorem natToDecimal_data_eq4 (y : ℕ) (h1 : 1000 ≤ y) (h2 : y ≤ 9999) :
    (natToDecimal y).data =
      [digitCharOf (y / 1000), digitCharOf (y / 100 % 10), digitCharOf (y / 10 % 10),
       digitCharOf (y % 10)] := by
  show decDigitsGo (y + 1) y = _
  exact decDigitsGo_eq4 (y + 1) y h1 (by omega) (by omega)

/-- The year field of the canonical rendering satisfies the `%Y` regex and
denotes the year. -/
theorem takeDigits_append (l rest : List Char) (hlen : l.length = 4)
    (hne : l.isEmpty = false) (hdig : l.all (·.isDigit) = true) :
    takeDigits 4 (l ++ rest) = some (digitsToNat l, rest) := by
  have ht : (l ++ rest).take 4 = l := by rw [← hlen]; exact List.take_left l rest
  have hd : (l ++ rest).drop 4 = rest := by rw [← hlen]; exact List.drop_left l rest
  simp only [takeDigits, ht, hd]
  rw [if_pos ⟨hlen, by simp [allDigits, hne, hdig]⟩]

/-- `str.strip()` is the identity on strings without leading or trailing
whitespace. -/
theorem pyStrip_noop (cs : List Char) (h : ∀ c ∈ cs, isPySpace c = false) :
    pyStrip ⟨cs⟩ = ⟨cs⟩ := by
  have key : ∀ (l : List Char), (∀ c ∈ l, isPySpace c = false) →
      l.dropWhile isPySpace = l := by
    intro l hl
    cases l with
    | nil => rfl
    | cons a as =>
        rw [List.dropWhile_cons, hl a (List.mem_cons_self a as)]
        simp
  unfold pyStrip
  show String.mk ((((cs.dropWhile isPySpace).reverse).dropWhile isPySpace).reverse) = _
  rw [key cs h, key cs.reverse (fun c hc => h c (List.mem_reverse.mp hc)),
    List.reverse_reverse]

/-- Months have at most 31 days. -/
theorem daysInMonth_le_31 (y m : ℕ) : daysInMonth y m ≤ 31 := by
  unfold daysInMonth
  split
  · split <;> omega
  · split <;> omega

/-! ### The `strptime` matcher on canonically rendered dates -/

/-- One matcher step succeeds through the first candidate of a directive. -/
theorem matchToks_step {tok : FmtTok} {toks : List FmtTok} {cs rest : List Char}
    {g : TimeAcc → TimeAcc} {tail : List ((TimeAcc → TimeAcc) × List Char)}
    {acc res : TimeAcc}
    (hc : fmtCandidates tok cs = (g, rest) :: tail)
    (hcont : matchToks toks rest (g acc) = some res) :
    matchToks (tok :: toks) cs acc = some res := by
  show (fmtCandidates tok cs).findSome?
      (fun cand => matchToks toks cand.2 (cand.1 acc)) = some res
  rw [hc]
  simp [List.findSome?_cons, hcont]

/-- `%Y` consumes exactly the four rendered year digits. -/
theorem fmtCandidates_dirY_eq (cs rest : List Char) (y : ℕ)
    (h : takeDigits 4 cs = some (y, rest)) :
    fmtCandidates FmtTok.dirY cs = [(fun a => { a with y := y }, rest)] := by
  simp [fmtCandidates, numCands, h]

/-- A literal dash matches itself. -/
theorem fmtCandidates_lit_dash (rest : List Char) :
    fmtCandidates (FmtTok.lit (Char.ofNat 45)) (Char.ofNat 45 :: rest) =
      [((id : TimeAcc → TimeAcc), rest)] := rfl

/-- `%m` matches the zero-padded month first. -/
theorem fmtCandidates_dirM_first (m : ℕ) (rest : List Char) (h1 : 1 ≤ m)
    (h2 : m ≤ 12) :
    ∃ tail, fmtCandidates FmtTok.dirM ((pad2 m).data ++ rest) =
      ((fun a => { a with m := m }), rest) :: tail := by
  interval_cases m <;> exact ⟨_, rfl⟩

/-- `%d` matches the zero-padded day first. -/
theorem fmtCandidates_dirD_first (d : ℕ) (rest : List Char) (h1 : 1 ≤ d)
    (h2 : d ≤ 31) :
    ∃ tail, fmtCandidates FmtTok.dirD ((pad2 d).data ++ rest) =
      ((fun a => { a with d := d }), rest) :: tail := by
  interval_cases d <;> exact ⟨_, rfl⟩

/-- The canonical `YYYY-MM-DD` rendering, decomposed character-wise. -/
theorem format_date_canonical_data (dt : TimeAcc) :
    (format_date dt "YYYY-MM-DD").data =
      (natToDecimal dt.y).data ++ '-' ::
        ((pad2 dt.m).data ++ '-' :: (pad2 dt.d).data) := by
  show ((((([] ++ (natToDecimal dt.y).data) ++ ['-']) ++ (pad2 dt.m).data) ++
      ['-']) ++ (pad2 dt.d).data) = _
  simp [List.append_assoc]

/-- Shape facts about the rendered four-digit year. -/
theorem natToDecimal_year_facts (y : ℕ) (h1 : 1000 ≤ y) (h2 : y ≤ 9999) :
    (natToDecimal y).data.length = 4 ∧ (natToDecimal y).data.isEmpty = false ∧
    (natToDecimal y).data.all (·.isDigit) = true ∧
    digitsToNat (natToDecimal y).data = y := by
  have hall := decDigitsGo_spec (y + 1) y (by omega)
  refine ⟨?_, ?_, hall.1, hall.2⟩
  · rw [natToDecimal_data_eq4 y h1 h2]; rfl
  · rw [natToDecimal_data_eq4 y h1 h2]; rfl

/-- The rendered year holds no whitespace. -/
theorem natToDecimal_year_not_space (y : ℕ) (h1 : 1000 ≤ y) (h2 : y ≤ 9999) :
    ∀ c ∈ (natToDecimal y).data, isPySpace c = false := by
  rw [natToDecimal_data_eq4 y h1 h2]
  intro c hc
  simp only [List.mem_cons, List.not_mem_nil, or_false] at hc
  rcases hc with rfl | rfl | rfl | rfl <;> exact digitCharOf_not_space _ (by omega)

/-- The zero-padded two-digit fields hold no whitespace. -/
theorem pad2_not_space (n : ℕ) (h : n < 100) :
    ∀ c ∈ (pad2 n).data, isPySpace c = false := by
  interval_cases n <;> decide

/-- The full matcher run on a canonically rendered date. -/
theorem matchToks_canonical (y m d : ℕ) (hy1 : 1000 ≤ y) (hy2 : y ≤ 9999)
    (hm1 : 1 ≤ m) (hm2 : m ≤ 12) (hd1 : 1 ≤ d) (hd2 : d ≤ 31) :
    matchToks [FmtTok.dirY, FmtTok.lit '-', FmtTok.dirM, FmtTok.lit '-', FmtTok.dirD]
      ((natToDecimal y).data ++ '-' :: ((pad2 m).data ++ '-' :: (pad2 d).data))
      {} = some { y := y, m := m, d := d } := by
  obtain ⟨hlen, hne, hdigs, hval⟩ := natToDecimal_year_facts y hy1 hy2
  have htake : takeDigits 4 ((natToDecimal y).data ++
      '-' :: ((pad2 m).data ++ '-' :: (pad2 d).data)) =
      some (y, '-' :: ((pad2 m).data ++ '-' :: (pad2 d).data)) := by
    rw [takeDigits_append _ _ hlen hne hdigs, hval]
  apply matchToks_step (fmtCandidates_dirY_eq _ _ y htake)
  apply matchToks_step (fmtCandidates_lit_dash _)
  obtain ⟨tailM, hM⟩ := fmtCandidates_dirM_first m ('-' :: (pad2 d).data) hm1 hm2
  apply matchToks_step hM
  apply matchToks_step (fmtCandidates_lit_dash _)
  obtain ⟨tailD, hD⟩ := fmtCandidates_dirD_first d [] hd1 hd2
  rw [← List.append_nil ((pad2 d).data)]
  apply matchToks_step hD
  rfl

/-- `strptime` with `%Y-%m-%d` round-trips a canonically rendered date. -/
theorem strptime_canonical (y m d : ℕ) (hy1 : 1000 ≤ y) (hy2 : y ≤ 9999)
    (hm1 : 1 ≤ m) (hm2 : m ≤ 12) (hd1 : 1 ≤ d) (hd2 : d ≤ daysInMonth y m) :
    strptime (format_date { y := y, m := m, d := d } "YYYY-MM-DD") "%Y-%m-%d" =
      some { y := y, m := m, d := d } := by
  have hmt := matchToks_canonical y m d hy1 hy2 hm1 hm2 hd1
    (le_trans hd2 (daysInMonth_le_31 y m))
  have hv : validDateTime { y := y, m := m, d := d } = true := by
    simp only [validDateTime, decide_eq_true_eq]
    exact ⟨by omega, by omega, by omega, by omega, by omega, hd2, by omega⟩
  unfold strptime
  rw [show scanFmt ("%Y-%m-%d").data =
    [FmtTok.dirY, FmtTok.lit '-', FmtTok.dirM, FmtTok.lit '-', FmtTok.dirD] from rfl,
    format_date_canonical_data]
  dsimp only
  rw [hmt]
  dsimp only
  rw [hv]
  rfl

/-- The canonical rendering holds no whitespace. -/
theorem format_date_canonical_not_space (y m d : ℕ) (hy1 : 1000 ≤ y)
    (hy2 : y ≤ 9999) (hm2 : m ≤ 12) (hd2 : d ≤ 31) :
    ∀ c ∈ (format_date { y := y, m := m, d := d } "YYYY-MM-DD").data,
      isPySpace c = false := by
  rw [format_date_canonical_data]
  intro c hc
  dsimp only at hc
  rcases List.mem_append.mp hc with h | h
  · exact natToDecimal_year_not_space y hy1 hy2 c h
  · rcases List.mem_cons.mp h with rfl | h2
    · decide
    · rcases List.mem_append.mp h2 with h3 | h3
      · exact pad2_not_space m (by omega) c h3
      · rcases List.mem_cons.mp h3 with rfl | h4
        · decide
        · exact pad2_not_space d (by omega) c h4

/-- `strip` is the identity on the canonical rendering. -/
theorem pyStrip_format_date (y m d : ℕ) (hy1 : 1000 ≤ y) (hy2 : y ≤ 9999)
    (hm2 : m ≤ 12) (hd2 : d ≤ 31) :
    pyStrip (format_date { y := y, m := m, d := d } "YYYY-MM-DD") =
      format_date { y := y, m := m, d := d } "YYYY-MM-DD" :=
  pyStrip_noop (format_date { y := y, m := m, d := d } "YYYY-MM-DD").data
    (format_date_canonical_not_space y m d hy1 hy2 hm2 hd2)

/-- `parse_date_with_format` succeeds on the canonical rendering. -/
theorem parse_date_with_format_canonical (y m d : ℕ) (hy1 : 1000 ≤ y)
    (hy2 : y ≤ 9999) (hm1 : 1 ≤ m) (hm2 : m ≤ 12) (hd1 : 1 ≤ d)
    (hd2 : d ≤ daysInMonth y m) :
    parse_date_with_format (format_date { y := y, m := m, d := d } "YYYY-MM-DD")
      "YYYY-MM-DD" = (some { y := y, m := m, d := d }, none) := by
  unfold parse_date_with_format
  rw [show human_format_to_strftime "YYYY-MM-DD" = "%Y-%m-%d" from rfl,
    pyStrip_format_date y m d hy1 hy2 hm2 (le_trans hd2 (daysInMonth_le_31 y m)),
    strptime_canonical y m d hy1 hy2 hm1 hm2 hd1 hd2]

/-- The robust parser recognises the canonical rendering with its first
accepted format. -/
theorem try_parse_date_robust_canonical (y m d : ℕ) (hy1 : 1000 ≤ y)
    (hy2 : y ≤ 9999) (hm1 : 1 ≤ m) (hm2 : m ≤ 12) (hd1 : 1 ≤ d)
    (hd2 : d ≤ daysInMonth y m) :
    try_parse_date_robust (format_date { y := y, m := m, d := d } "YYYY-MM-DD")
      DATE_COERCE_DEFAULT_FORMATS false =
      (some { y := y, m := m, d := d }, some "YYYY-MM-DD") := by
  unfold try_parse_date_robust
  dsimp only
  rw [pyStrip_format_date y m d hy1 hy2 hm2 (le_trans hd2 (daysInMonth_le_31 y m)),
    show DATE_COERCE_DEFAULT_FORMATS = "YYYY-MM-DD" ::
      ["MM/DD/YYYY", "DD/MM/YYYY", "YYYY/MM/DD", "MM-DD-YYYY", "DD-MM-YYYY",
       "YYYYMMDD", "MM/DD/YY", "DD/MM/YY", "MMM DD, YYYY", "MMMM DD, YYYY",
       "DD-MMM-YYYY"] from rfl]
  simp only [try_parse_date_robust.tryFormats]
  rw [parse_date_with_format_canonical y m d hy1 hy2 hm1 hm2 hd1 hd2]
  rfl

/-- `coerce_date_to_format` re-emits the canonical rendering. -/
theorem coerce_date_to_format_canonical (y m d : ℕ) (hy1 : 1000 ≤ y)
    (hy2 : y ≤ 9999) (hm1 : 1 ≤ m) (hm2 : m ≤ 12) (hd1 : 1 ≤ d)
    (hd2 : d ≤ daysInMonth y m) :
    coerce_date_to_format (format_date { y := y, m := m, d := d } "YYYY-MM-DD")
      "YYYY-MM-DD" DATE_COERCE_DEFAULT_FORMATS false =
      (some (format_date { y := y, m := m, d := d } "YYYY-MM-DD"), none) := by
  unfold coerce_date_to_format
  rw [try_parse_date_robust_canonical y m d hy1 hy2 hm1 hm2 hd1 hd2]

/-- The transform on a one-element string series, as a function of the
coercion result. -/
theorem transform_date_coerce_single (v : String) :
    transform_date_coerce [PdValue.vStr v]
      [("target_format", PParam.pStr "YYYY-MM-DD")] =
      [match (coerce_date_to_format v "YYYY-MM-DD"
          DATE_COERCE_DEFAULT_FORMATS false).1 with
       | some result => PdValue.vStr result
       | none => PdValue.vStr v] := rfl

/-- **C9 counterexample.**  The claim quantifies over every string that
parses under `YYYY-MM-DD`; the non-padded `"2024-1-5"` parses (the
`strptime` month and day regexes accept single digits) yet the transform
rewrites it to `"2024-01-05"`. -/
theorem c9_counterexample_nonpadded :
    (strptime "2024-1-5" "%Y-%m-%d").isSome = true ∧
    transform_date_coerce [PdValue.vStr "2024-1-5"]
      [("target_format", PParam.pStr "YYYY-MM-DD")] = [PdValue.vStr "2024-01-05"] ∧
    "2024-01-05" ≠ "2024-1-5" := by decide

/-- **C9 (amended).**  On canonically rendered dates — zero-padded month
and day, four-digit year — the `date_coerce` transform with target format
`YYYY-MM-DD` is the identity: the string parses back to the same date and
the transform returns it unchanged. -/
theorem c9_date_coerce_idempotent_canonical (y m d : ℕ) (hy1 : 1000 ≤ y)
    (hy2 : y ≤ 9999) (hm1 : 1 ≤ m) (hm2 : m ≤ 12) (hd1 : 1 ≤ d)
    (hd2 : d ≤ daysInMonth y m) :
    strptime (format_date { y := y, m := m, d := d } "YYYY-MM-DD") "%Y-%m-%d" =
      some { y := y, m := m, d := d } ∧
    transform_date_coerce
      [PdValue.vStr (format_date { y := y, m := m, d := d } "YYYY-MM-DD")]
      [("target_format", PParam.pStr "YYYY-MM-DD")] =
      [PdValue.vStr (format_date { y := y, m := m, d := d } "YYYY-MM-DD")] := by
  refine ⟨strptime_canonical y m d hy1 hy2 hm1 hm2 hd1 hd2, ?_⟩
  rw [transform_date_coerce_single,
    coerce_date_to_format_canonical y m d hy1 hy2 hm1 hm2 hd1 hd2]

/-- Witness for C9: the canonical date 2024-01-05. -/
theorem c9_date_coerce_idempotent_canonical_witness :
    strptime (format_date { y := 2024, m := 1, d := 5 } "YYYY-MM-DD") "%Y-%m-%d" =
      some { y := 2024, m := 1, d := 5 } ∧
    transform_date_coerce
      [PdValue.vStr (format_date { y := 2024, m := 1, d := 5 } "YYYY-MM-DD")]
      [("target_format", PParam.pStr "YYYY-MM-DD")] =
      [PdValue.vStr (format_date { y := 2024, m := 1, d := 5 } "YYYY-MM-DD")] :=
  c9_date_coerce_idempotent_canonical 2024 1 5 (by decide) (by decide) (by decide)
    (by decide) (by decide) (by decide)

/-- Closed form of the per-column blocking-error messages, generalized over
the accumulator. -/
theorem columnStrictFailMsgs_foldl (col_config : ColumnConfig) :
    ∀ (l : List ColumnTestResult) (acc : List String),
    l.foldl (fun acc r =>
      if ¬ r.passed ∧ r.severity = "error" then
        if col_config.failure_handling.action = "strict_fail" then
          acc ++ ["Column \x27" ++ col_config.name ++ "\x27 test \x27" ++ r.test_type ++
            "\x27 has strict_fail policy"]
        else acc
      else acc) acc =
    acc ++ (if col_config.failure_handling.action = "strict_fail" then
      (l.filter (fun r => ¬ r.passed ∧ r.severity = "error")).map (fun r =>
        "Column \x27" ++ col_config.name ++ "\x27 test \x27" ++ r.test_type ++
          "\x27 has strict_fail policy")
      else []) := by
  intro l
  induction l with
  | nil => intro acc; simp
  | cons r rest ih =>
      intro acc
      rw [List.foldl_cons]
      by_cases h1 : ¬ r.passed = true ∧ r.severity = "error"
      · rw [if_pos h1]
        by_cases h2 : col_config.failure_handling.action = "strict_fail"
        · rw [if_pos h2, ih]
          simp [h2, List.filter_cons, h1, List.append_assoc]
        · rw [if_neg h2, ih]
          simp [h2]
      · rw [if_neg h1, ih]
        have h1x : ¬(r.passed = false ∧ r.severity = "error") := by simpa using h1
        simp only [List.filter_cons]
        simp [h1x]

/-- **C10.**  At the column-test stage a failed error-severity test yields a
strict-fail blocking message exactly when the column *default*
failure-handling action is `strict_fail`; per-test `on_fail` overrides are
invisible to validation (erasing them changes nothing) and are consulted
only by the later failure-handling resolution. -/
theorem c10_strict_fail_default_only :
    (∀ (col_config : ColumnConfig) (results : List ColumnTestResult),
      columnStrictFailMsgs col_config results =
        if col_config.failure_handling.action = "strict_fail" then
          (results.filter (fun r => ¬ r.passed ∧ r.severity = "error")).map (fun r =>
            "Column \x27" ++ col_config.name ++ "\x27 test \x27" ++ r.test_type ++
              "\x27 has strict_fail policy")
        else []) ∧
    (∀ (ext : Ext) (series : Series) (c : ColumnConfig),
      validateColumn ext series
          { c with tests := c.tests.map (fun t => { t with on_fail := none }) } =
        validateColumn ext series c) ∧
    (∀ (c : ColumnConfig) (results : List ColumnTestResult),
      columnStrictFailMsgs
          { c with tests := c.tests.map (fun t => { t with on_fail := none }) }
          results =
        columnStrictFailMsgs c results) ∧
    (∀ (ext : Ext) (df : Table) (contract : Contract),
      contract.dataset_tests = [] → contract.foreign_key_checks = [] →
      (run_validation ext df contract none).blocking_errors =
        (runColumnStage ext (applyNormalizations df contract) contract.columns).2.2) ∧
    (∀ (contract : Contract) (ce : CellValidationResult)
        (col_config : ColumnConfig) (t : TestConfig),
      getColumnConfig contract ce.column_name = some col_config →
      col_config.tests.find? (fun u => u.type = ce.test_type ∧ u.on_fail.isSome) =
        some t →
      resolveFailureAction contract ce = some ((t.on_fail.getD {}).action)) := by
  refine ⟨?_, ?_, ?_, ?_, ?_⟩
  · intro col_config results
    exact columnStrictFailMsgs_foldl col_config results []
  · intro ext series c
    unfold validateColumn
    simp only [List.map_map, List.zip_map_left, List.foldl_map]
    rfl
  · intro c results
    rfl
  · intro ext df contract h1 h2
    unfold run_validation
    rw [h1, h2]
    rfl
  · intro contract ce col_config t h1 h2
    unfold resolveFailureAction
    rw [h1]
    dsimp only
    rw [h2]

/-- Witness for C10: a failing error test whose `on_fail` override says
`strict_fail` while the column default is `warn_only` produces no blocking
error during validation, and the override surfaces only through
`resolveFailureAction`. -/
theorem c10_strict_fail_default_only_witness :
    (run_validation extUnit [("a", [PdValue.vNull])] { columns := [{ name := "a", tests := [{ type := "not_null", severity := "error", on_fail := some { action := "strict_fail" } }], failure_handling := { action := "warn_only" } }] } none).blocking_errors =
      (runColumnStage extUnit (applyNormalizations [("a", [PdValue.vNull])] { columns := [{ name := "a", tests := [{ type := "not_null", severity := "error", on_fail := some { action := "strict_fail" } }], failure_handling := { action := "warn_only" } }] }) ({ columns := [{ name := "a", tests := [{ type := "not_null", severity := "error", on_fail := some { action := "strict_fail" } }], failure_handling := { action := "warn_only" } }] } : Contract).columns).2.2 ∧
    resolveFailureAction { columns := [{ name := "a", tests := [{ type := "not_null", severity := "error", on_fail := some { action := "strict_fail" } }], failure_handling := { action := "warn_only" } }] } { row_index := 0, column_name := "a", original_value := PdValue.vNull, is_valid := false, test_type := "not_null" } =
      some "strict_fail" :=
  ⟨c10_strict_fail_default_only.2.2.2.1 extUnit [("a", [PdValue.vNull])] { columns := [{ name := "a", tests := [{ type := "not_null", severity := "error", on_fail := some { action := "strict_fail" } }], failure_handling := { action := "warn_only" } }] } rfl rfl,
   c10_strict_fail_default_only.2.2.2.2 { columns := [{ name := "a", tests := [{ type := "not_null", severity := "error", on_fail := some { action := "strict_fail" } }], failure_handling := { action := "warn_only" } }] } { row_index := 0, column_name := "a", original_value := PdValue.vNull, is_valid := false, test_type := "not_null" } { name := "a", tests := [{ type := "not_null", severity := "error", on_fail := some { action := "strict_fail" } }], failure_handling := { action := "warn_only" } } { type := "not_null", severity := "error", on_fail := some { action := "strict_fail" } } rfl rfl⟩

end DataDoctor











